import Mathlib

/-!
# Workbench: the CIFTI mappable data file layer

A shallow embedding of `src/Files/CiftiMappableDataFile.cxx`: the per-map content cache
(`CiftiMappableDataFile::MapContent`) and the open lifecycle of the file controller
(`CiftiMappableDataFile::readFile`), followed by the properties proved about them.

Conventions of the embedding.

* C++ `float` values are only stored, copied and filled with `0.0` by the code embedded here;
  they are represented by rationals (`CFloat`).
* Objects reached through pointers are represented by value; a pointer that may be `NULL`
  is an `Option`.
* A call that would dereference `NULL` or touch memory outside a buffer has no defined
  result in C++; the embedded function returns `none` there.
* Collaborators whose source is not part of `src/` (the CIFTI reader, the facade, the palette
  store, the colouring routines, the string class) are either small structures holding what
  the collaborator reports, or fields of an environment record; each says so in its comment.
* `CaretAssert` is compiled out in release builds; the embedding follows the release build and
  states an assertion as a hypothesis where a theorem needs it.
-/

namespace caret

/-- A C++ `float`, kept exact: the embedded code never does arithmetic on these values. -/
abbrev CFloat := ℚ

/-! ## Strings -/

/-- Modelled from the spec: `AString::appendWithNewLine` (class `AString` is not under `src/`).
The text is appended on a line of its own: a newline is put in front of it unless the string
was empty, which is how the open-time complaints become one multi-line message. -/
def appendWithNewLine (s t : String) : String :=
  if s.isEmpty then t else s ++ "\n" ++ t

/-- The message `msg` contains the text `c` as a contiguous piece. -/
def containsText (msg c : String) : Prop :=
  c.data <:+: msg.data

instance (msg c : String) : Decidable (containsText msg c) :=
  inferInstanceAs (Decidable (c.data <:+: msg.data))

/-! ## Collaborator objects held by a map -/

/-- Modelled from the spec: `GiftiMetaData` (not under `src/`), a dictionary with a
modification flag. -/
structure GiftiMetaData where
  entries : List (String × String)
  modified : Bool
  deriving DecidableEq, Repr

/-- The object made by `new GiftiMetaData()`. -/
def GiftiMetaData.fresh : GiftiMetaData := ⟨[], false⟩

/-- Model of `GiftiMetaData::clear`: every entry is removed. -/
def GiftiMetaData.clear (m : GiftiMetaData) : GiftiMetaData := { m with entries := [] }

/-- Model of `GiftiMetaData::clearModified`. -/
def GiftiMetaData.clearModified (m : GiftiMetaData) : GiftiMetaData := { m with modified := false }

/-- Model of `GiftiMetaData::isModified`. -/
def GiftiMetaData.isModified (m : GiftiMetaData) : Bool := m.modified

/-- Modelled from the spec: one entry of a label table ("find label by integer key"). -/
structure GiftiLabel where
  key : Int
  name : String
  deriving DecidableEq, Repr

/-- Modelled from the spec: `GiftiLabelTable` (not under `src/`), the labels with a
modification flag. -/
structure GiftiLabelTable where
  labels : List GiftiLabel
  modified : Bool
  deriving DecidableEq, Repr

/-- Model of `GiftiLabelTable::clearModified`. -/
def GiftiLabelTable.clearModified (t : GiftiLabelTable) : GiftiLabelTable :=
  { t with modified := false }

/-- Model of `GiftiLabelTable::isModified`. -/
def GiftiLabelTable.isModified (t : GiftiLabelTable) : Bool := t.modified

/-- Modelled from the spec: `PaletteColorMapping` (not under `src/`): the name of the selected
palette and a modification flag. -/
structure PaletteColorMapping where
  selectedPaletteName : String
  modified : Bool
  deriving DecidableEq, Repr

/-- Model of `PaletteColorMapping::getSelectedPaletteName`. -/
def PaletteColorMapping.getSelectedPaletteName (p : PaletteColorMapping) : String :=
  p.selectedPaletteName

/-- Model of `PaletteColorMapping::clearModified`. -/
def PaletteColorMapping.clearModified (p : PaletteColorMapping) : PaletteColorMapping :=
  { p with modified := false }

/-- Model of `PaletteColorMapping::isModified`. -/
def PaletteColorMapping.isModified (p : PaletteColorMapping) : Bool := p.modified

/-- Modelled from the spec: a named palette. -/
structure Palette where
  name : String
  deriving DecidableEq, Repr

/-- Modelled from the spec: the palette store, exposing "find palette by name". -/
structure PaletteFile where
  palettes : List Palette
  deriving DecidableEq, Repr

/-- Model of `PaletteFile::getPaletteByName`: the first palette of that name, `none` for the
`NULL` the code tests for. -/
def PaletteFile.getPaletteByName (pf : PaletteFile) (name : String) : Option Palette :=
  pf.palettes.find? (fun p => p.name == name)

/-- Modelled from the spec: `FastStatistics` (not under `src/`). The object is a function of
the values it was last updated from, so it is represented by those values. -/
structure FastStatistics where
  values : List CFloat
  deriving DecidableEq, Repr

/-- The object made by `new FastStatistics()`. -/
def FastStatistics.fresh : FastStatistics := ⟨[]⟩

/-- Model of `FastStatistics::update(data, count)`. -/
def FastStatistics.update (_fs : FastStatistics) (data : List CFloat) (count : Nat) :
    FastStatistics :=
  ⟨data.take count⟩

/-- Modelled from the spec: `Histogram` (not under `src/`), represented like `FastStatistics`. -/
structure Histogram where
  values : List CFloat
  deriving DecidableEq, Repr

/-- The object made by `new Histogram()`. -/
def Histogram.fresh : Histogram := ⟨[]⟩

/-- Modelled from the spec: `DescriptiveStatistics` (not under `src/`). -/
structure DescriptiveStatistics where
  values : List CFloat
  deriving DecidableEq, Repr

/-- Modelled from the spec: the colouring routines of `NodeAndVoxelColoring` (not under
`src/`). Each call writes one RGBA quadruple per data value through the output pointer; the
routine is given by the value it writes at each index of the output buffer.
`colorScalarsWithPalette stats mapping palette data count i` is the value written at index
`i < 4 * count`, `colorIndicesWithLabelTable table data i` the one written at index
`i < 4 * data.length`. -/
structure NodeAndVoxelColoring where
  colorScalarsWithPalette :
    FastStatistics → PaletteColorMapping → Palette → List CFloat → Nat → Nat → CFloat
  colorIndicesWithLabelTable : Option GiftiLabelTable → List CFloat → Nat → CFloat

/-- Writing `n` values through a pointer to the start of `buf`: the first `n` elements are
replaced, the remaining ones and the size of the buffer are untouched. Only used with
`n ≤ buf.length`. -/
def writeThrough (n : Nat) (f : Nat → CFloat) (buf : List CFloat) : List CFloat :=
  (List.range n).map f ++ buf.drop n

/-! ## The CIFTI facade -/

/-- One entry of the voxel mapping list: voxel indices and the offset of its data. -/
structure CiftiVolumeMap where
  m_ijk : Int × Int × Int
  m_ciftiIndex : Int
  deriving DecidableEq, Repr

/-- Modelled from the spec: the anatomical structures of `StructureEnum` (declared outside
`src/`) that a surface query names; `ALL` is what `getStructure` returns. -/
inductive StructureEnum
  | ALL
  | CORTEX_LEFT
  | CORTEX_RIGHT
  | CEREBELLUM
  deriving DecidableEq, Repr

/-- The file types of `CiftiFacade`, as enumerated by the switch of
`getMapSurfaceNodeIdentificationForMaps`. -/
inductive CiftiFileType
  | CIFTI_INVALID
  | CIFTI_DENSE
  | CIFTI_LABEL
  | CIFTI_SCALAR
  | CIFTI_DENSE_PARCEL
  | CIFTI_DATA_SERIES
  | CIFTI_PARCEL
  | CIFTI_PARCEL_DENSE
  deriving DecidableEq, Repr

/-- Modelled from the spec: what a `CiftiFacade` (not under `src/`) reports to the file
controller and to the constructor of a map. Map indices and counts are non-negative.
`getSurfaceDataIndicesForMappingToBrainordinates structure n` is the vector the facade fills
for a surface of `n` nodes: for each node its data index, negative when it has none.
`getSeriesDataForSurfaceNode structure node` is the flag the facade returns and the vector it
leaves in `seriesDataOut`: one value of the node from each map. -/
structure CiftiFacade where
  isValidCiftiFile : Bool
  isBrainordinateDataColoredWithLabelTable : Bool
  isBrainordinateDataColoredWithPalette : Bool
  containsMapAttributes : Bool
  getNumberOfMaps : Nat
  getMapDataCount : Nat
  getFileMetadata : List (String × String)
  getMetadataForMapOrSeriesIndex : Nat → List (String × String)
  getPaletteColorMappingForMapOrSeriesIndex : Nat → Option PaletteColorMapping
  getLabelTableForMapOrSeriesIndex : Nat → Option GiftiLabelTable
  getVolumeMapForMappingDataToBrainordinates : List CiftiVolumeMap
  getDataForMapOrSeriesIndex : Nat → List CFloat
  isMappingDataToBrainordinateParcels : Bool
  getSurfaceDataIndicesForMappingToBrainordinates : StructureEnum → Int → List Int
  getCiftiFileType : CiftiFileType
  getSeriesDataForSurfaceNode : StructureEnum → Int → Bool × List CFloat

/-! ## `CiftiMappableDataFile::MapContent` -/

/-- The members of `CiftiMappableDataFile::MapContent`. `m_descriptiveStatistics` is a pointer
the constructor leaves `NULL`. The header declaring the width of `m_dataCount` is not under
`src/`; it is a count and `m_dataCount * 4` is taken exactly. -/
structure MapContent where
  m_dataCount : Nat
  m_metadata : GiftiMetaData
  m_paletteColorMapping : Option PaletteColorMapping
  m_labelTable : Option GiftiLabelTable
  m_descriptiveStatistics : Option DescriptiveStatistics
  m_fastStatistics : FastStatistics
  m_histogram : Histogram
  m_rgba : List CFloat
  m_rgbaValid : Bool
  deriving DecidableEq, Repr

/-- The constructor `MapContent::MapContent(ciftiFacade, mapIndex)`. -/
def MapContent.new (ciftiFacade : CiftiFacade) (mapIndex : Nat) : MapContent :=
  let m_dataCount := ciftiFacade.getMapDataCount
  let m_metadata : GiftiMetaData :=
    if ciftiFacade.containsMapAttributes then
      { entries := ciftiFacade.getMetadataForMapOrSeriesIndex mapIndex, modified := true }
    else GiftiMetaData.fresh
  { m_dataCount := m_dataCount
    m_metadata := m_metadata
    m_paletteColorMapping := ciftiFacade.getPaletteColorMappingForMapOrSeriesIndex mapIndex
    m_labelTable := ciftiFacade.getLabelTableForMapOrSeriesIndex mapIndex
    m_descriptiveStatistics := none
    m_fastStatistics := FastStatistics.fresh
    m_histogram := Histogram.fresh
    m_rgba := List.replicate (m_dataCount * 4) 0
    m_rgbaValid := false }

/-- The method `MapContent::clearModifiedStatus`. -/
def MapContent.clearModifiedStatus (mc : MapContent) : MapContent :=
  { mc with
    m_labelTable := mc.m_labelTable.map GiftiLabelTable.clearModified
    m_metadata := mc.m_metadata.clearModified
    m_paletteColorMapping := mc.m_paletteColorMapping.map PaletteColorMapping.clearModified }

/-- The method `MapContent::isModifiedStatus`. -/
def MapContent.isModifiedStatus (mc : MapContent) : Bool :=
  if (match mc.m_labelTable with
      | some t => t.isModified
      | none => false) then true
  else if mc.m_metadata.isModified then true
  else if (match mc.m_paletteColorMapping with
      | some p => p.isModified
      | none => false) then true
  else false

/-- The method `MapContent::invalidateColoring`. -/
def MapContent.invalidateColoring (mc : MapContent) : MapContent :=
  { mc with m_rgbaValid := false }

/-- The method `MapContent::updateColoring(data, paletteFile)`; `paletteFile = none` is the
`NULL` palette file. The result is `none` where the release build dereferences a `NULL`
palette colour mapping or where a colouring routine is handed fewer scalars, or a smaller
output buffer, than it uses. -/
def MapContent.updateColoring (nvc : NodeAndVoxelColoring) (mc : MapContent)
    (data : List CFloat) (paletteFile : Option PaletteFile) : Option MapContent :=
  if data.isEmpty then some mc
  else if mc.m_rgbaValid then some mc
  else
    match paletteFile with
    | some pf =>
      match mc.m_paletteColorMapping with
      | none => none
      | some mapping =>
        match pf.getPaletteByName mapping.getSelectedPaletteName with
        | some palette =>
          let stats := mc.m_fastStatistics.update data data.length
          if mc.m_dataCount ≤ data.length ∧ 4 * mc.m_dataCount ≤ mc.m_rgba.length then
            some { mc with
              m_fastStatistics := stats
              m_rgba := writeThrough (4 * mc.m_dataCount)
                (nvc.colorScalarsWithPalette stats mapping palette data mc.m_dataCount) mc.m_rgba
              m_rgbaValid := true }
          else none
        | none =>
          some { mc with
            m_rgba := List.replicate mc.m_rgba.length 0
            m_rgbaValid := true }
    | none =>
      if 4 * data.length ≤ mc.m_rgba.length then
        some { mc with
          m_rgba := writeThrough (4 * data.length)
            (nvc.colorIndicesWithLabelTable mc.m_labelTable data) mc.m_rgba
          m_rgbaValid := true }
      else none

/-! ## The file controller `CiftiMappableDataFile` -/

/-- The reading policy given to the constructor. -/
inductive FileReading
  | FILE_READ_DATA_ALL
  | FILE_READ_DATA_AS_NEEDED
  deriving DecidableEq, Repr

/-- The CIFTI index types, as enumerated by the switch of `ciftiIndexTypeToName`. -/
inductive IndicesMapToDataType
  | CIFTI_INDEX_TYPE_BRAIN_MODELS
  | CIFTI_INDEX_TYPE_FIBERS
  | CIFTI_INDEX_TYPE_INVALID
  | CIFTI_INDEX_TYPE_LABELS
  | CIFTI_INDEX_TYPE_PARCELS
  | CIFTI_INDEX_TYPE_SCALARS
  | CIFTI_INDEX_TYPE_TIME_POINTS
  deriving DecidableEq, Repr

/-- The static method `CiftiMappableDataFile::ciftiIndexTypeToName`. -/
def ciftiIndexTypeToName : IndicesMapToDataType → String
  | .CIFTI_INDEX_TYPE_BRAIN_MODELS => "CIFTI_INDEX_TYPE_BRAIN_MODELS"
  | .CIFTI_INDEX_TYPE_FIBERS => "CIFTI_INDEX_TYPE_FIBERS"
  | .CIFTI_INDEX_TYPE_INVALID => "CIFTI_INDEX_TYPE_INVALID"
  | .CIFTI_INDEX_TYPE_LABELS => "CIFTI_INDEX_TYPE_LABELS"
  | .CIFTI_INDEX_TYPE_PARCELS => "CIFTI_INDEX_TYPE_PARCELS"
  | .CIFTI_INDEX_TYPE_SCALARS => "CIFTI_INDEX_TYPE_SCALARS"
  | .CIFTI_INDEX_TYPE_TIME_POINTS => "CIFTI_INDEX_TYPE_TIME_POINTS"

/-- Modelled from the spec: the file kinds of `DataFileTypeEnum` (declared outside `src/`) that
the CIFTI layer serves: dense, dense label, dense parcel, dense scalar, dense time series. -/
inductive DataFileTypeEnum
  | CONNECTIVITY_DENSE
  | CONNECTIVITY_DENSE_LABEL
  | CONNECTIVITY_DENSE_PARCEL
  | CONNECTIVITY_DENSE_SCALAR
  | CONNECTIVITY_DENSE_TIME_SERIES
  deriving DecidableEq, Repr

/-- The second argument of `CiftiFile::openFile`. -/
inductive CacheMethod
  | IN_MEMORY
  | ON_DISK
  deriving DecidableEq, Repr

/-- Modelled from the spec: what the `CiftiXML` of an opened source reports: the mapping type
along rows and along columns, and the volume dimensions when
`getVolumeAttributesForPlumb` succeeds. -/
structure CiftiXML where
  mappingTypeAlongRow : IndicesMapToDataType
  mappingTypeAlongColumn : IndicesMapToDataType
  volumeAttributesForPlumb : Option (Int × Int × Int)
  deriving DecidableEq, Repr

/-- The object behind `m_ciftiInterface`: a `CiftiFile` opened from a named file, or a
`CiftiXnat` opened from a URL. -/
inductive CiftiInterface
  | ciftiFile (filename : String) (cache : CacheMethod) (xml : CiftiXML)
  | ciftiXnat (url : String) (xml : CiftiXML)
  deriving DecidableEq, Repr

/-- The method `CiftiInterface::getCiftiXML`. -/
def CiftiInterface.getCiftiXML : CiftiInterface → CiftiXML
  | .ciftiFile _ _ xml => xml
  | .ciftiXnat _ xml => xml

/-- Modelled from the spec: `SparseVolumeIndexer` (not under `src/`), built once from the
voxel mapping list; `isValid` tells whether the file has any volume mapping. -/
structure SparseVolumeIndexer where
  isValid : Bool
  voxelMapping : List CiftiVolumeMap
  deriving DecidableEq, Repr

/-- Modelled from the spec: `GroupAndNameHierarchyModel` (not under `src/`); only the calls the
controller makes on it are kept. -/
structure GroupAndNameHierarchyModel where
  updated : Bool
  allSelected : Bool
  deriving DecidableEq, Repr

/-- The argument of the constructor that tells which methods of the CIFTI reader give access
to the data of a dimension. -/
inductive DataAccess
  | DATA_ACCESS_INVALID
  | DATA_ACCESS_WITH_COLUMN_METHODS
  | DATA_ACCESS_WITH_ROW_METHODS
  deriving DecidableEq, Repr

/-- The state of a `CiftiMappableDataFile`: the constructor arguments, the file name and
modification flag kept by the base classes, and the members. -/
structure CiftiMappableDataFile where
  m_dataFileType : DataFileTypeEnum
  m_fileReading : FileReading
  m_requiredRowIndexType : IndicesMapToDataType
  m_requiredColumnIndexType : IndicesMapToDataType
  m_brainordinateMappedDataAccess : DataAccess
  m_seriesDataAccess : DataAccess
  m_filename : String
  m_modifiedFlag : Bool
  m_ciftiInterface : Option CiftiInterface
  m_ciftiFacade : Option CiftiFacade
  m_metadata : GiftiMetaData
  m_voxelIndicesToOffset : Option SparseVolumeIndexer
  m_mapContent : List MapContent
  m_containsVolumeData : Bool
  m_volumeDimensions : List Int
  m_classNameHierarchy : GroupAndNameHierarchyModel
  m_forceUpdateOfGroupAndNameHierarchy : Bool

namespace CiftiMappableDataFile

/-- The method `clearPrivate`. -/
def clearPrivate (f : CiftiMappableDataFile) : CiftiMappableDataFile :=
  { f with
    m_ciftiFacade := none
    m_ciftiInterface := none
    m_metadata := f.m_metadata.clear
    m_voxelIndicesToOffset := none
    m_mapContent := []
    m_containsVolumeData := false
    m_volumeDimensions := [0, 0, 0, 0, 0]
    m_classNameHierarchy := { updated := false, allSelected := false }
    m_forceUpdateOfGroupAndNameHierarchy := true }

/-- Modelled from the spec: `CaretMappableDataFile::clear` of the base class (not under
`src/`): the file name and the modification flag are reset. -/
def baseClear (f : CiftiMappableDataFile) : CiftiMappableDataFile :=
  { f with m_filename := "", m_modifiedFlag := false }

/-- The method `clear`: the base class is cleared, then `clearPrivate`. -/
def clear (f : CiftiMappableDataFile) : CiftiMappableDataFile :=
  clearPrivate (baseClear f)

/-- The constructor: the members are set to their empty values and `clearPrivate` is run. -/
def new (dataFileType : DataFileTypeEnum) (fileReading : FileReading)
    (rowIndexType columnIndexType : IndicesMapToDataType)
    (brainordinateMappedDataAccess seriesDataAccess : DataAccess) : CiftiMappableDataFile :=
  clearPrivate
    { m_dataFileType := dataFileType
      m_fileReading := fileReading
      m_requiredRowIndexType := rowIndexType
      m_requiredColumnIndexType := columnIndexType
      m_brainordinateMappedDataAccess := brainordinateMappedDataAccess
      m_seriesDataAccess := seriesDataAccess
      m_filename := ""
      m_modifiedFlag := false
      m_ciftiInterface := none
      m_ciftiFacade := none
      m_metadata := GiftiMetaData.fresh
      m_voxelIndicesToOffset := none
      m_mapContent := []
      m_containsVolumeData := false
      m_volumeDimensions := [0, 0, 0, 0, 0]
      m_classNameHierarchy := { updated := false, allSelected := false }
      m_forceUpdateOfGroupAndNameHierarchy := true }

/-- The method `getNumberOfMaps`. -/
def getNumberOfMaps (f : CiftiMappableDataFile) : Int := f.m_mapContent.length

/-- The method `isEmpty`. -/
def isEmpty (f : CiftiMappableDataFile) : Bool :=
  if f.getNumberOfMaps > 0 then false else true

/-- The method `isVolumeMappable`. -/
def isVolumeMappable (f : CiftiMappableDataFile) : Bool := f.m_containsVolumeData

/-- The method `hasMapAttributes`. -/
def hasMapAttributes (f : CiftiMappableDataFile) : Bool :=
  match f.m_ciftiFacade with
  | some facade => facade.containsMapAttributes
  | none => false

/-- The scalar overload of `getDimensions`: the five entries of `m_volumeDimensions`. -/
def getDimensions (f : CiftiMappableDataFile) : Int × Int × Int × Int × Int :=
  (f.m_volumeDimensions.getD 0 0, f.m_volumeDimensions.getD 1 0, f.m_volumeDimensions.getD 2 0,
    f.m_volumeDimensions.getD 3 0, f.m_volumeDimensions.getD 4 0)

/-- The method `clearModified`: the base class flag (`CaretMappableDataFile::clearModified`,
not under `src/`, resets it), the file metadata and every map. -/
def clearModified (f : CiftiMappableDataFile) : CiftiMappableDataFile :=
  { f with
    m_modifiedFlag := false
    m_metadata := f.m_metadata.clearModified
    m_mapContent := f.m_mapContent.map MapContent.clearModifiedStatus }

/-- The method `isModified`. -/
def isModified (f : CiftiMappableDataFile) : Bool :=
  if f.m_modifiedFlag then true
  else if f.m_metadata.isModified then true
  else f.m_mapContent.any MapContent.isModifiedStatus

end CiftiMappableDataFile

/-! ## Opening a file: `CiftiMappableDataFile::readFile` -/

/-- The two exception classes `readFile` deals with: the one its handler catches and the one
it raises. -/
inductive Thrown
  | CiftiFileException (whatString : String)
  | DataFileException (whatString : String)
  deriving DecidableEq, Repr

/-- The calls `readFile` makes on the collaborators that fetch or open a CIFTI source, in the
order they are made. -/
inductive ExternalCall
  | temporaryFileRead (filename : String)
  | ciftiFileOpen (filename : String) (cache : CacheMethod)
  | xnatSetAuthentication (url username password : String)
  | xnatOpenURL (url : String)
  deriving DecidableEq, Repr

/-- The collaborators of `readFile` that are not under `src/`, as functions of their
arguments: what each returns, or the exception it raises. -/
structure ReadEnv where
  -- The test `DataFile::isFileOnNetwork(filename)`.
  isFileOnNetwork : String → Bool
  -- The flag set by `DataFileTypeEnum::fromName(filename, &isValidFileExtension)`.
  isValidFileExtension : String → Bool
  -- The name given by `DataFileTypeEnum::toName`.
  toName : DataFileTypeEnum → String
  -- The name given by `DataFileTypeEnum::toGuiName`.
  toGuiName : DataFileTypeEnum → String
  -- The result of `getFileNameNoPath()` once the file has the given name.
  fileNameNoPath : String → String
  -- The call `CaretTemporaryFile::readFile(filename)`: the name of the temporary copy.
  temporaryFileRead : String → Except Thrown String
  -- The call `CiftiFile::openFile(filename, cache)`.
  ciftiFileOpen : String → CacheMethod → Except Thrown CiftiXML
  -- The outputs of `FileInformation::getRemoteUrlUsernameAndPassword`: the name to open, the
  -- user name and the password.
  remoteUrlUsernameAndPassword : String → String × String × String
  -- The value of `CaretDataFile::getFileReadingUsername()`.
  fileReadingUsername : String
  -- The value of `CaretDataFile::getFileReadingPassword()`.
  fileReadingPassword : String
  -- The call `CiftiXnat::openURL(url)`.
  xnatOpenURL : String → Except Thrown CiftiXML
  -- The facade `new CiftiFacade(dataFileType, ciftiInterface)` presents.
  newCiftiFacade : DataFileTypeEnum → CiftiInterface → CiftiFacade
  -- The validity of `new SparseVolumeIndexer(ciftiInterface, voxelMapping)`.
  sparseVolumeIndexerIsValid : CiftiInterface → List CiftiVolumeMap → Bool

/-- The text of the exception raised for a remote file that must be read as needed. -/
def networkMessage (env : ReadEnv) (f : CiftiMappableDataFile) (filename : String) : String :=
  filename ++ " of type " ++ env.toGuiName f.m_dataFileType
    ++ " cannot be read over the network.  The file must be"
    ++ " accessed by reading individual rows and/or columns"
    ++ " and this cannot be performed over a network."

/-- The first part of the `try` block of `readFile` (up to the assignment of
`m_ciftiInterface`): the interface that is opened, or the exception raised on the way, with
the calls made on the collaborators. -/
def openCiftiInterface (env : ReadEnv) (f : CiftiMappableDataFile) (filename : String) :
    Except Thrown CiftiInterface × List ExternalCall :=
  if env.isFileOnNetwork filename then
    if env.isValidFileExtension filename then
      match f.m_fileReading with
      | .FILE_READ_DATA_AS_NEEDED =>
        (.error (.DataFileException (networkMessage env f filename)), [])
      | .FILE_READ_DATA_ALL =>
        match env.temporaryFileRead filename with
        | .error e => (.error e, [.temporaryFileRead filename])
        | .ok tempName =>
          match env.ciftiFileOpen tempName .IN_MEMORY with
          | .error e =>
            (.error e, [.temporaryFileRead filename, .ciftiFileOpen tempName .IN_MEMORY])
          | .ok xml =>
            (.ok (.ciftiFile tempName .IN_MEMORY xml),
              [.temporaryFileRead filename, .ciftiFileOpen tempName .IN_MEMORY])
    else
      let (filenameToOpen, username0, password0) := env.remoteUrlUsernameAndPassword filename
      let (username, password) :=
        if env.fileReadingUsername.isEmpty == false then
          (env.fileReadingUsername, env.fileReadingPassword)
        else (username0, password0)
      match env.xnatOpenURL filenameToOpen with
      | .error e =>
        (.error e,
          [.xnatSetAuthentication filenameToOpen username password, .xnatOpenURL filenameToOpen])
      | .ok xml =>
        (.ok (.ciftiXnat filenameToOpen xml),
          [.xnatSetAuthentication filenameToOpen username password, .xnatOpenURL filenameToOpen])
  else
    let cache : CacheMethod :=
      match f.m_fileReading with
      | .FILE_READ_DATA_ALL => .IN_MEMORY
      | .FILE_READ_DATA_AS_NEEDED => .ON_DISK
    match env.ciftiFileOpen filename cache with
    | .error e => (.error e, [.ciftiFileOpen filename cache])
    | .ok xml => (.ok (.ciftiFile filename cache xml), [.ciftiFileOpen filename cache])

/-- The complaint appended when the facade does not support the file type. -/
def fileTypeComplaint (env : ReadEnv) (f : CiftiMappableDataFile) : String :=
  "Support for " ++ env.toName f.m_dataFileType ++ " needs to be implemented or is invalid type."

/-- The complaint appended when the row index type is not the required one. -/
def rowComplaint (required actual : IndicesMapToDataType) : String :=
  "Row Index Type should be " ++ ciftiIndexTypeToName required ++ " but is "
    ++ ciftiIndexTypeToName actual

/-- The complaint appended when the column index type is not the required one. -/
def columnComplaint (required actual : IndicesMapToDataType) : String :=
  "Column Index Type should be " ++ ciftiIndexTypeToName required ++ " but is "
    ++ ciftiIndexTypeToName actual

/-- The complaint appended when the data are coloured by neither scheme. -/
def coloringComplaint : String := "Data is neither color with label table nor palette."

/-- First check of `readFile`: the facade must support the file type. Each check takes the
value of `errorMessage` so far and gives its value after the check. -/
def checkFileType (env : ReadEnv) (f : CiftiMappableDataFile) (facade : CiftiFacade)
    (errorMessage : String) : String :=
  if facade.isValidCiftiFile == false then
    appendWithNewLine errorMessage (fileTypeComplaint env f)
  else errorMessage

/-- Second check of `readFile`: the row index type of the file must be the required one. -/
def checkRowIndexType (f : CiftiMappableDataFile) (xml : CiftiXML) (errorMessage : String) :
    String :=
  if f.m_requiredRowIndexType ≠ xml.mappingTypeAlongRow then
    appendWithNewLine errorMessage
      (rowComplaint f.m_requiredRowIndexType xml.mappingTypeAlongRow)
  else errorMessage

/-- Third check of `readFile`: the column index type of the file must be the required one. -/
def checkColumnIndexType (f : CiftiMappableDataFile) (xml : CiftiXML)
    (errorMessage : String) : String :=
  if f.m_requiredColumnIndexType ≠ xml.mappingTypeAlongColumn then
    appendWithNewLine errorMessage
      (columnComplaint f.m_requiredColumnIndexType xml.mappingTypeAlongColumn)
  else errorMessage

/-- Fourth check of `readFile`: the data must be coloured with a label table or a palette. -/
def checkColoring (facade : CiftiFacade) (errorMessage : String) : String :=
  if facade.isBrainordinateDataColoredWithLabelTable then errorMessage
  else if facade.isBrainordinateDataColoredWithPalette then errorMessage
  else appendWithNewLine errorMessage coloringComplaint

/-- The validation part of `readFile`: the value of `errorMessage`, initially empty, after the
four checks have been made one after the other. -/
def validationErrors (env : ReadEnv) (f : CiftiMappableDataFile) (facade : CiftiFacade)
    (xml : CiftiXML) : String :=
  checkColoring facade
    (checkColumnIndexType f xml (checkRowIndexType f xml (checkFileType env f facade "")))

/-- The part of the `try` block of `readFile` after a successful validation: the file metadata
are copied from the facade, one `MapContent` is made per map, the voxel indexer is built, the
volume dimensions are set and the modification status is cleared. -/
def populate (env : ReadEnv) (f : CiftiMappableDataFile) (iface : CiftiInterface)
    (facade : CiftiFacade) : CiftiMappableDataFile :=
  let f1 : CiftiMappableDataFile :=
    { f with m_metadata := { entries := facade.getFileMetadata, modified := true } }
  let numberOfMaps := facade.getNumberOfMaps
  let f2 : CiftiMappableDataFile :=
    { f1 with
      m_mapContent := f1.m_mapContent ++ (List.range numberOfMaps).map (MapContent.new facade) }
  let voxelMapping := facade.getVolumeMapForMappingDataToBrainordinates
  let indexer : SparseVolumeIndexer :=
    { isValid := env.sparseVolumeIndexerIsValid iface voxelMapping, voxelMapping := voxelMapping }
  let f3 : CiftiMappableDataFile := { f2 with m_voxelIndicesToOffset := some indexer }
  let f4 : CiftiMappableDataFile :=
    if indexer.isValid then
      let f3v : CiftiMappableDataFile := { f3 with m_containsVolumeData := true }
      match iface.getCiftiXML.volumeAttributesForPlumb with
      | some (d0, d1, d2) => { f3v with m_volumeDimensions := [d0, d1, d2, 1, 1] }
      | none => f3v
    else f3
  f4.clearModified

/-- The body of the `try` block of `readFile`, run on the cleared file: the file state when
the block is left, the exception that left it (if any), and the calls made. -/
def readFileTry (env : ReadEnv) (f : CiftiMappableDataFile) (filename : String) :
    Option Thrown × CiftiMappableDataFile × List ExternalCall :=
  match openCiftiInterface env f filename with
  | (.error e, calls) => (some e, f, calls)
  | (.ok iface, calls) =>
    let xml := iface.getCiftiXML
    let facade := env.newCiftiFacade f.m_dataFileType iface
    let f1 : CiftiMappableDataFile :=
      { f with m_ciftiInterface := some iface, m_filename := filename,
               m_ciftiFacade := some facade }
    let errorMessage := validationErrors env f1 facade xml
    if errorMessage.isEmpty == false then
      (some (.DataFileException (env.fileNameNoPath filename ++ errorMessage)), f1.clear, calls)
    else
      (none, populate env f1 iface facade, calls)

/-- The method `validateAfterFileReading` of `CiftiMappableDataFile`, declared
`throw (DataFileException)`: the message of the exception it raises, `none` when it returns.
Its body is empty, so it returns. -/
def CiftiMappableDataFile.validateAfterFileReading (_f : CiftiMappableDataFile) :
    Option String :=
  none

/-- What a call of `readFile` leaves behind: the message of the `DataFileException` it raised
(`none` when it returned), the file, and the calls made on the collaborators. -/
structure ReadFileResult where
  raised : Option String
  file : CiftiMappableDataFile
  calls : List ExternalCall

/-- The method `CiftiMappableDataFile::readFile(filename)`. The file is cleared, the `try`
block is run; a `CiftiFileException` leaving it is caught: the file is cleared again and a
`DataFileException` with the same text is raised; a `DataFileException` leaves `readFile` as
it is. After the block the class and name hierarchy is updated and
`validateAfterFileReading` is called (`validateKeysAndLabels` only writes to the log). -/
def CiftiMappableDataFile.readFile (env : ReadEnv) (f : CiftiMappableDataFile)
    (filename : String) : ReadFileResult :=
  match readFileTry env f.clear filename with
  | (some (.CiftiFileException e), f1, calls) =>
    { raised := some e, file := f1.clear, calls := calls }
  | (some (.DataFileException e), f1, calls) =>
    { raised := some e, file := f1, calls := calls }
  | (none, f1, calls) =>
    let f2 : CiftiMappableDataFile :=
      { f1 with
        m_classNameHierarchy := { updated := true, allSelected := true }
        m_forceUpdateOfGroupAndNameHierarchy := false }
    match f2.validateAfterFileReading with
    | some e => { raised := some e, file := f2, calls := calls }
    | none => { raised := none, file := f2, calls := calls }

/-- The cleared, empty state as a caller observes it: no maps, `isEmpty`, the five volume
dimensions zero, not volume mappable. -/
def CiftiMappableDataFile.observedEmpty (f : CiftiMappableDataFile) : Prop :=
  f.getNumberOfMaps = 0 ∧ f.isEmpty = true ∧ f.getDimensions = (0, 0, 0, 0, 0)
    ∧ f.isVolumeMappable = false

/-- The members as `clearPrivate` leaves them: no CIFTI interface, no facade, no indexer, no
map, no volume data and zero volume dimensions. -/
def CiftiMappableDataFile.isCleared (f : CiftiMappableDataFile) : Prop :=
  f.m_ciftiInterface = none ∧ f.m_ciftiFacade = none ∧ f.m_voxelIndicesToOffset = none
    ∧ f.m_mapContent = [] ∧ f.m_containsVolumeData = false
    ∧ f.m_volumeDimensions = [0, 0, 0, 0, 0]

/-- The state `readFile` has built when it starts validating an opened interface. -/
def CiftiMappableDataFile.opened (env : ReadEnv) (f : CiftiMappableDataFile) (filename : String)
    (iface : CiftiInterface) : CiftiMappableDataFile :=
  { f.clear with
    m_ciftiInterface := some iface
    m_filename := filename
    m_ciftiFacade := some (env.newCiftiFacade f.m_dataFileType iface) }

/-! ## Queries on an opened file -/

/-- Model of `DescriptiveStatistics::update(data, count)`, like `FastStatistics.update`. -/
def DescriptiveStatistics.update (_ds : DescriptiveStatistics) (data : List CFloat)
    (count : Nat) : DescriptiveStatistics :=
  ⟨data.take count⟩

/-- Model of `Histogram::update(data, count)`, like `FastStatistics.update`. -/
def Histogram.update (_h : Histogram) (data : List CFloat) (count : Nat) : Histogram :=
  ⟨data.take count⟩

/-- Modelled from the spec: the five-parameter value-range filter of the ranged `update`
methods: a positive value is kept inside the positive band, a negative value inside the
negative band, a zero only when zeros are included. -/
def valueInRange (mostPositive leastPositive leastNegative mostNegative : CFloat)
    (includeZeroValues : Bool) (v : CFloat) : Bool :=
  if 0 < v then decide (leastPositive ≤ v ∧ v ≤ mostPositive)
  else if v < 0 then decide (mostNegative ≤ v ∧ v ≤ leastNegative)
  else includeZeroValues

/-- Model of the ranged `DescriptiveStatistics::update`. -/
def DescriptiveStatistics.updateRanged (_ds : DescriptiveStatistics) (data : List CFloat)
    (count : Nat) (mostPositive leastPositive leastNegative mostNegative : CFloat)
    (includeZeroValues : Bool) : DescriptiveStatistics :=
  ⟨(data.take count).filter
    (valueInRange mostPositive leastPositive leastNegative mostNegative includeZeroValues)⟩

/-- Model of the ranged `Histogram::update`. -/
def Histogram.updateRanged (_h : Histogram) (data : List CFloat) (count : Nat)
    (mostPositive leastPositive leastNegative mostNegative : CFloat)
    (includeZeroValues : Bool) : Histogram :=
  ⟨(data.take count).filter
    (valueInRange mostPositive leastPositive leastNegative mostNegative includeZeroValues)⟩

namespace CiftiMappableDataFile

/-- The method `getMapData`: the facade fills the vector; `none` when `m_ciftiFacade` is
`NULL`. -/
def getMapData (f : CiftiMappableDataFile) (mapIndex : Nat) : Option (List CFloat) :=
  match f.m_ciftiFacade with
  | some facade => some (facade.getDataForMapOrSeriesIndex mapIndex)
  | none => none

/-- The method `getMapStatistics(mapIndex)`: the returned object and the file, whose map now
caches that object. `none` when there is no such map or when the pointer
`m_descriptiveStatistics` of the map is `NULL`. -/
def getMapStatistics (f : CiftiMappableDataFile) (mapIndex : Nat) :
    Option (DescriptiveStatistics × CiftiMappableDataFile) :=
  match f.getMapData mapIndex, f.m_mapContent[mapIndex]? with
  | some data, some mc =>
    match mc.m_descriptiveStatistics with
    | none => none
    | some ds =>
      let ds1 := if data.isEmpty then ds.update [] 0 else ds.update data data.length
      some (ds1, { f with
        m_mapContent := f.m_mapContent.set mapIndex { mc with m_descriptiveStatistics := some ds1 } })
  | _, _ => none

/-- The method `getMapFastStatistics(mapIndex)`. -/
def getMapFastStatistics (f : CiftiMappableDataFile) (mapIndex : Nat) :
    Option (FastStatistics × CiftiMappableDataFile) :=
  match f.getMapData mapIndex, f.m_mapContent[mapIndex]? with
  | some data, some mc =>
    let fs := mc.m_fastStatistics
    let fs1 := if data.isEmpty then fs.update [] 0 else fs.update data data.length
    some (fs1, { f with
      m_mapContent := f.m_mapContent.set mapIndex { mc with m_fastStatistics := fs1 } })
  | _, _ => none

/-- The method `getMapHistogram(mapIndex)`. -/
def getMapHistogram (f : CiftiMappableDataFile) (mapIndex : Nat) :
    Option (Histogram × CiftiMappableDataFile) :=
  match f.getMapData mapIndex, f.m_mapContent[mapIndex]? with
  | some data, some mc =>
    let h := mc.m_histogram
    let h1 := if data.isEmpty then h.update [] 0 else h.update data data.length
    some (h1, { f with
      m_mapContent := f.m_mapContent.set mapIndex { mc with m_histogram := h1 } })
  | _, _ => none

/-- The ranged overload of `getMapStatistics`. -/
def getMapStatisticsRanged (f : CiftiMappableDataFile) (mapIndex : Nat)
    (mostPositive leastPositive leastNegative mostNegative : CFloat)
    (includeZeroValues : Bool) : Option (DescriptiveStatistics × CiftiMappableDataFile) :=
  match f.getMapData mapIndex, f.m_mapContent[mapIndex]? with
  | some data, some mc =>
    match mc.m_descriptiveStatistics with
    | none => none
    | some ds =>
      let ds1 :=
        if data.isEmpty then ds.update [] 0
        else ds.updateRanged data data.length mostPositive leastPositive leastNegative
          mostNegative includeZeroValues
      some (ds1, { f with
        m_mapContent := f.m_mapContent.set mapIndex { mc with m_descriptiveStatistics := some ds1 } })
  | _, _ => none

/-- The ranged overload of `getMapHistogram`. -/
def getMapHistogramRanged (f : CiftiMappableDataFile) (mapIndex : Nat)
    (mostPositive leastPositive leastNegative mostNegative : CFloat)
    (includeZeroValues : Bool) : Option (Histogram × CiftiMappableDataFile) :=
  match f.getMapData mapIndex, f.m_mapContent[mapIndex]? with
  | some data, some mc =>
    let h := mc.m_histogram
    let h1 :=
      if data.isEmpty then h.update [] 0
      else h.updateRanged data data.length mostPositive leastPositive leastNegative
        mostNegative includeZeroValues
    some (h1, { f with
      m_mapContent := f.m_mapContent.set mapIndex { mc with m_histogram := h1 } })
  | _, _ => none

/-- The method `updateScalarColoringForMap`: the data of the map are fetched and its colours
are updated, with the label table when the file is coloured by label table (`NULL` palette
file), else with the palette file. `none` when there is no facade or no such map, or when
`updateColoring` has no defined result. -/
def updateScalarColoringForMap (nvc : NodeAndVoxelColoring) (f : CiftiMappableDataFile)
    (mapIndex : Nat) (paletteFile : Option PaletteFile) : Option CiftiMappableDataFile :=
  match f.m_ciftiFacade, f.m_mapContent[mapIndex]? with
  | some facade, some mc =>
    let data := facade.getDataForMapOrSeriesIndex mapIndex
    if facade.isBrainordinateDataColoredWithLabelTable then
      (mc.updateColoring nvc data none).map
        (fun mc1 => { f with m_mapContent := f.m_mapContent.set mapIndex mc1 })
    else if facade.isBrainordinateDataColoredWithPalette then
      (mc.updateColoring nvc data paletteFile).map
        (fun mc1 => { f with m_mapContent := f.m_mapContent.set mapIndex mc1 })
    else some f
  | _, _ => none

/-- The method `indexValid`; the brick index and the component are not looked at. -/
def indexValid (f : CiftiMappableDataFile) (indexIn1 indexIn2 indexIn3 : Int)
    (_brickIndex _component : Int) : Bool :=
  if indexIn1 ≥ 0 ∧ indexIn1 < f.m_volumeDimensions.getD 0 0
      ∧ indexIn2 ≥ 0 ∧ indexIn2 < f.m_volumeDimensions.getD 1 0
      ∧ indexIn3 ≥ 0 ∧ indexIn3 < f.m_volumeDimensions.getD 2 0 then true
  else false

end CiftiMappableDataFile

/-! ### Voxel colours -/

/-- Modelled from the spec: `SparseVolumeIndexer::getOffsetForIndices` (not under `src/`): the
offset the voxel mapping list gives for the voxel, `-1` when the voxel is not mapped or the
file has no volume mapping. -/
def SparseVolumeIndexer.getOffsetForIndices (ix : SparseVolumeIndexer) (i j k : Int) : Int :=
  if ix.isValid then
    match ix.voxelMapping.find? (fun v => v.m_ijk == (i, j, k)) with
    | some v => v.m_ciftiIndex
    | none => -1
  else -1

/-- The slice planes of `VolumeSliceViewPlaneEnum`, as enumerated by the switches of
`getVoxelColorsForSliceInMap`. -/
inductive VolumeSliceViewPlaneEnum
  | ALL
  | AXIAL
  | CORONAL
  | PARASAGITTAL
  deriving DecidableEq, Repr

/-- The value stored by `rgbaOut[..] = (mapRGBA[..] * 255.0)` into a `uint8_t`: the float is
scaled by 255 (exactly: the product of a float and 255 is a double) and converted by
truncation toward zero. For a product in the open interval from -1 to 256 this is the C++
conversion. Outside that interval C++ leaves the conversion undefined; so that the function is
total the residue modulo 256 of the truncated product is taken there, and the statements
about the bytes the code returns are made for products inside the interval only. -/
def floatToUInt8 (x : CFloat) : Nat :=
  ((Int.tdiv (x.num * 255) x.den) % 256).toNat

/-- The four statements that copy the colour of the data element `dataOffset` of a map into
`rgbaOut[rgbaOffset .. rgbaOffset+3]`, guarded by `if (dataOffset >= 0)`. `none` when a read of
`mapRGBA` or a write to `rgbaOut` is outside the buffer. -/
def writeVoxelColor (mapRGBA : List CFloat) (dataOffset : Int) (rgbaOffset : Nat)
    (rgbaOut : List Nat) : Option (List Nat) :=
  if dataOffset ≥ 0 then
    let dataOffset4 := dataOffset.toNat * 4
    if dataOffset4 + 3 < mapRGBA.length ∧ rgbaOffset + 3 < rgbaOut.length then
      some ((((rgbaOut.set rgbaOffset (floatToUInt8 (mapRGBA.getD dataOffset4 0))).set
        (rgbaOffset + 1) (floatToUInt8 (mapRGBA.getD (dataOffset4 + 1) 0))).set
        (rgbaOffset + 2) (floatToUInt8 (mapRGBA.getD (dataOffset4 + 2) 0))).set
        (rgbaOffset + 3) (floatToUInt8 (mapRGBA.getD (dataOffset4 + 3) 0)))
    else none
  else some rgbaOut

/-- The nested loops of `getVoxelColorsForSliceInMap` over the two free axes of a slice:
`outer` runs over `0 .. outerDim-1`, `inner` over `0 .. innerDim-1`, the voxel is looked up in
the indexer (`offsetOf outer inner`) and its colour is written at
`((outer * innerDim) + inner) * 4`. -/
def colorSliceVoxels (mapRGBA : List CFloat) (outerDim innerDim : Nat)
    (offsetOf : Nat → Nat → Int) (rgbaOut : List Nat) : Option (List Nat) :=
  (List.range outerDim).foldlM
    (fun out outer =>
      (List.range innerDim).foldlM
        (fun out inner =>
          writeVoxelColor mapRGBA (offsetOf outer inner) (((outer * innerDim) + inner) * 4) out)
        out)
    rgbaOut

namespace CiftiMappableDataFile

/-- The method `getVoxelColorInMap`: the four bytes of `rgbaOut`. `none` when there is no
such map, when the indexer pointer is `NULL`, or when the colour buffer is read outside its
bounds. -/
def getVoxelColorInMap (f : CiftiMappableDataFile) (indexIn1 indexIn2 indexIn3 : Int)
    (mapIndex : Nat) : Option (List Nat) :=
  match f.m_mapContent[mapIndex]? with
  | none => none
  | some mc =>
    if mc.m_rgba.length ≤ 0 then some [0, 0, 0, 0]
    else
      match f.m_voxelIndicesToOffset with
      | none => none
      | some indexer =>
        writeVoxelColor mc.m_rgba (indexer.getOffsetForIndices indexIn1 indexIn2 indexIn3) 0
          [0, 0, 0, 0]

/-- The part of `getVoxelColorsForSliceInMap` that follows the first switch: the slice of
`voxelCount` voxels is cleared in `rgbaOut` and the colours of the mapped voxels are written.
`none` when `rgbaOut` has fewer than `voxelCount * 4` elements, when there is no such map or
no indexer, or when a buffer is accessed outside its bounds. -/
def colorSlice (f : CiftiMappableDataFile) (mapIndex : Nat)
    (slicePlane : VolumeSliceViewPlaneEnum) (sliceIndex : Int) (voxelCount : Int)
    (rgbaOut : List Nat) : Option (List Nat) :=
  let dimI := f.m_volumeDimensions.getD 0 0
  let dimJ := f.m_volumeDimensions.getD 1 0
  let dimK := f.m_volumeDimensions.getD 2 0
  if voxelCount ≤ 0 then some rgbaOut
  else
    let componentCount := (voxelCount * 4).toNat
    if rgbaOut.length < componentCount then none
    else
      let cleared := List.replicate componentCount 0 ++ rgbaOut.drop componentCount
      match f.m_mapContent[mapIndex]? with
      | none => none
      | some mc =>
        if mc.m_rgba.length ≤ 0 then some cleared
        else
          match f.m_voxelIndicesToOffset with
          | none => none
          | some indexer =>
            match slicePlane with
            | .ALL => some cleared
            | .AXIAL =>
              colorSliceVoxels mc.m_rgba dimJ.toNat dimI.toNat
                (fun j i => indexer.getOffsetForIndices i j sliceIndex) cleared
            | .CORONAL =>
              colorSliceVoxels mc.m_rgba dimK.toNat dimI.toNat
                (fun k i => indexer.getOffsetForIndices i sliceIndex k) cleared
            | .PARASAGITTAL =>
              colorSliceVoxels mc.m_rgba dimK.toNat dimJ.toNat
                (fun k j => indexer.getOffsetForIndices sliceIndex j k) cleared

/-- The method `getVoxelColorsForSliceInMap`: the content of the caller's buffer `rgbaOut`
after the call. The volume dimensions are 64-bit integers whose products are taken exactly. -/
def getVoxelColorsForSliceInMap (f : CiftiMappableDataFile) (mapIndex : Nat)
    (slicePlane : VolumeSliceViewPlaneEnum) (sliceIndex : Int) (rgbaOut : List Nat) :
    Option (List Nat) :=
  if sliceIndex < 0 then some rgbaOut
  else
    let dimI := f.m_volumeDimensions.getD 0 0
    let dimJ := f.m_volumeDimensions.getD 1 0
    let dimK := f.m_volumeDimensions.getD 2 0
    match slicePlane with
    | .ALL => f.colorSlice mapIndex slicePlane sliceIndex 0 rgbaOut
    | .AXIAL =>
      if sliceIndex ≥ dimK then some rgbaOut
      else f.colorSlice mapIndex slicePlane sliceIndex (dimI * dimJ) rgbaOut
    | .CORONAL =>
      if sliceIndex ≥ dimJ then some rgbaOut
      else f.colorSlice mapIndex slicePlane sliceIndex (dimI * dimK) rgbaOut
    | .PARASAGITTAL =>
      if sliceIndex ≥ dimI then some rgbaOut
      else f.colorSlice mapIndex slicePlane sliceIndex (dimJ * dimK) rgbaOut

end CiftiMappableDataFile

/-- The state of the output buffer of the slice loops after the first `n` voxels, in loop
order, have been handled, `out0` being the buffer before the loops: the size is unchanged, the
four bytes of every handled voxel that is mapped hold its scaled colour, and every other
element is as in `out0`. The voxel number `m` is the voxel `(m / innerDim, m % innerDim)`. -/
def slicePrefixColored (mapRGBA : List CFloat) (innerDim : Nat) (offsetOf : Nat → Nat → Int)
    (out0 : List Nat) (n : Nat) (out : List Nat) : Prop :=
  out.length = out0.length ∧
  ∀ idx : Nat, out[idx]? =
    if idx / 4 < n ∧ 0 ≤ offsetOf (idx / 4 / innerDim) (idx / 4 % innerDim) then
      some (floatToUInt8 (mapRGBA.getD
        ((offsetOf (idx / 4 / innerDim) (idx / 4 % innerDim)).toNat * 4 + idx % 4) 0))
    else out0[idx]?

/-! ### Values of voxels and surface nodes -/

/-- Modelled from the spec: the coordinate conversions of `SparseVolumeIndexer` (not under
`src/`), fixed by the volume geometry of the opened file. -/
structure VoxelCoordinates where
  coordinateToIndices : CFloat → CFloat → CFloat → Int × Int × Int
  indicesToCoordinate : CFloat → CFloat → CFloat → CFloat × CFloat × CFloat

/-- Modelled from the spec: the number formatting of `AString` (not under `src/`):
`number value` stands for `AString::number(value)` and `numberF value` for the fixed-point
`AString::number(value, 'f')`. -/
structure NumberFormat where
  number : CFloat → String
  numberF : CFloat → String

/-- The conversion `static_cast<int32_t>(value)` of a float: truncation toward zero. This is
the C++ conversion for a float whose integer part fits 32 bits (`fitsInt32`); for any other
float C++ leaves the conversion undefined, and the integer part is taken here without a
bound. -/
def floatToInt32 (x : CFloat) : Int := Int.tdiv x.num x.den

/-- The integers an `int32_t` holds. -/
def fitsInt32 (n : Int) : Prop := -2147483648 ≤ n ∧ n ≤ 2147483647

instance (n : Int) : Decidable (fitsInt32 n) :=
  inferInstanceAs (Decidable (-2147483648 ≤ n ∧ n ≤ 2147483647))

/-- Model of `GiftiLabelTable::getLabel(key)`: the label of that key, `none` for `NULL`. -/
def GiftiLabelTable.getLabel (t : GiftiLabelTable) (key : Int) : Option GiftiLabel :=
  t.labels.find? (fun l => l.key == key)

/-- A parcel of the CIFTI XML, as far as the node functions read it. -/
structure CiftiParcelElement where
  m_parcelName : String
  deriving DecidableEq, Repr

/-- One entry of a surface map of the CIFTI XML: a surface node and the index of its data. -/
structure CiftiSurfaceMap where
  m_surfaceNode : Int
  m_ciftiIndex : Int
  deriving DecidableEq, Repr

/-- Modelled from the spec: what `CiftiInterface` and `CiftiXML` (not under `src/`) report
about the surfaces and parcels of the opened file. The index and parcel lookups give a
negative number for a node that has none. -/
structure CiftiSurfaceQueries where
  getColumnSurfaceNumberOfNodes : StructureEnum → Int
  getRowSurfaceNumberOfNodes : StructureEnum → Int
  getParcelsForColumns : List CiftiParcelElement
  getParcelsForRows : List CiftiParcelElement
  getColumnParcelForNode : Int → StructureEnum → Int
  getRowParcelForNode : Int → StructureEnum → Int
  getSurfaceMapForColumns : StructureEnum → List CiftiSurfaceMap
  getSurfaceMapForRows : StructureEnum → List CiftiSurfaceMap
  getColumnIndexForNode : Int → StructureEnum → Int
  getRowIndexForNode : Int → StructureEnum → Int

/-- What `getMapVolumeVoxelValue` returns and leaves in its output parameters. -/
structure VoxelValueResult where
  returned : Bool
  ijkOut : Int × Int × Int
  textOut : String
  deriving DecidableEq, Repr

/-- What `getMapSurfaceNodeValue` returns and leaves in its output parameters. -/
structure NodeValueResult where
  returned : Bool
  numericalValueOut : CFloat
  numericalValueOutValid : Bool
  textValueOut : String
  deriving DecidableEq, Repr

/-- What `getMapSurfaceNodeColoring` returns and leaves in its two output arrays. -/
structure NodeColoringResult where
  returned : Bool
  surfaceRGBAOut : List CFloat
  dataValuesOut : List CFloat
  deriving DecidableEq, Repr

namespace CiftiMappableDataFile

/-- The method `isCiftiInterfaceValid` (the message it logs is left out). -/
def isCiftiInterfaceValid (f : CiftiMappableDataFile) : Bool :=
  f.m_ciftiInterface.isSome

/-- The method `enclosingVoxel`; `none` when the indexer pointer is `NULL`. -/
def enclosingVoxel (coords : VoxelCoordinates) (f : CiftiMappableDataFile)
    (coordIn1 coordIn2 coordIn3 : CFloat) : Option (Int × Int × Int) :=
  match f.m_voxelIndicesToOffset with
  | none => none
  | some _ => some (coords.coordinateToIndices coordIn1 coordIn2 coordIn3)

/-- The method `getMapLabelTable`; the outer `none` when there is no such map. -/
def getMapLabelTable (f : CiftiMappableDataFile) (mapIndex : Nat) :
    Option (Option GiftiLabelTable) :=
  (f.m_mapContent[mapIndex]?).map MapContent.m_labelTable

/-- The method `getMapVolumeVoxelValue(mapIndex, xyz, ijkOut, textOut)`; `ijkOut` is the
content of the caller's array before the call. `none` when a `NULL` pointer is dereferenced
(indexer, facade, label table) or the map data are read outside their bounds. -/
def getMapVolumeVoxelValue (coords : VoxelCoordinates) (fmt : NumberFormat)
    (f : CiftiMappableDataFile) (mapIndex : Nat) (xyz : CFloat × CFloat × CFloat)
    (ijkOut : Int × Int × Int) : Option VoxelValueResult :=
  if f.isCiftiInterfaceValid == false then
    some { returned := false, ijkOut := ijkOut, textOut := "" }
  else
    match f.enclosingVoxel coords xyz.1 xyz.2.1 xyz.2.2, f.m_voxelIndicesToOffset with
    | some vfIJK, some indexer =>
      if f.indexValid vfIJK.1 vfIJK.2.1 vfIJK.2.2 0 0 then
        let dataOffset := indexer.getOffsetForIndices vfIJK.1 vfIJK.2.1 vfIJK.2.2
        if dataOffset ≥ 0 then
          match f.getMapData mapIndex, f.m_ciftiFacade with
          | some mapData, some facade =>
            match mapData[dataOffset.toNat]? with
            | none => none
            | some value =>
              if facade.isBrainordinateDataColoredWithLabelTable then
                match f.getMapLabelTable mapIndex with
                | some (some glt) =>
                  let textOut :=
                    match glt.getLabel (floatToInt32 value) with
                    | some gl => gl.name
                    | none => "Invalid Label Index"
                  some { returned := true, ijkOut := vfIJK, textOut := textOut }
                | _ => none
              else if facade.isBrainordinateDataColoredWithPalette then
                some { returned := true, ijkOut := vfIJK, textOut := fmt.number value }
              else
                some { returned := true, ijkOut := vfIJK, textOut := "" }
          | _, _ => none
        else some { returned := false, ijkOut := ijkOut, textOut := "" }
      else some { returned := false, ijkOut := ijkOut, textOut := "" }
    | _, _ => none

/-- The number of nodes the CIFTI reader reports for the structure, by the access methods of
the file; `-1` when the access is invalid. -/
def numCiftiNodes (q : CiftiSurfaceQueries) (f : CiftiMappableDataFile)
    (brainStructure : StructureEnum) : Int :=
  match f.m_brainordinateMappedDataAccess with
  | .DATA_ACCESS_INVALID => -1
  | .DATA_ACCESS_WITH_COLUMN_METHODS => q.getColumnSurfaceNumberOfNodes brainStructure
  | .DATA_ACCESS_WITH_ROW_METHODS => q.getRowSurfaceNumberOfNodes brainStructure

/-- The parcel index `getMapSurfaceNodeValue` gets for a node, by the access methods of the
file; `-1` when the access is invalid. -/
def parcelIndexForNode (q : CiftiSurfaceQueries) (f : CiftiMappableDataFile)
    (nodeIndex : Int) (brainStructure : StructureEnum) : Int :=
  match f.m_brainordinateMappedDataAccess with
  | .DATA_ACCESS_INVALID => -1
  | .DATA_ACCESS_WITH_COLUMN_METHODS => q.getColumnParcelForNode nodeIndex brainStructure
  | .DATA_ACCESS_WITH_ROW_METHODS => q.getRowParcelForNode nodeIndex brainStructure

/-- The parcels `getMapSurfaceNodeValue` gets, by the access methods of the file. -/
def parcelsForAccess (q : CiftiSurfaceQueries) (f : CiftiMappableDataFile) :
    List CiftiParcelElement :=
  match f.m_brainordinateMappedDataAccess with
  | .DATA_ACCESS_INVALID => []
  | .DATA_ACCESS_WITH_COLUMN_METHODS => q.getParcelsForColumns
  | .DATA_ACCESS_WITH_ROW_METHODS => q.getParcelsForRows

/-- The data index `getMapSurfaceNodeValue` gets for a node, by the access methods of the
file; `-1` when the access is invalid. -/
def dataIndexForNode (q : CiftiSurfaceQueries) (f : CiftiMappableDataFile)
    (nodeIndex : Int) (brainStructure : StructureEnum) : Int :=
  match f.m_brainordinateMappedDataAccess with
  | .DATA_ACCESS_INVALID => -1
  | .DATA_ACCESS_WITH_COLUMN_METHODS => q.getColumnIndexForNode nodeIndex brainStructure
  | .DATA_ACCESS_WITH_ROW_METHODS => q.getRowIndexForNode nodeIndex brainStructure

/-- The surface map `getMapSurfaceNodeValue` gets, by the access methods of the file. -/
def surfaceMapForAccess (q : CiftiSurfaceQueries) (f : CiftiMappableDataFile)
    (brainStructure : StructureEnum) : List CiftiSurfaceMap :=
  match f.m_brainordinateMappedDataAccess with
  | .DATA_ACCESS_INVALID => []
  | .DATA_ACCESS_WITH_COLUMN_METHODS => q.getSurfaceMapForColumns brainStructure
  | .DATA_ACCESS_WITH_ROW_METHODS => q.getSurfaceMapForRows brainStructure

/-- The scan of `getMapSurfaceNodeValue` over the surface map for the first entry of the
node: the index of its data. -/
def findNodeInSurfaceMap (nodeMap : List CiftiSurfaceMap) (nodeIndex : Int) :
    Option CiftiSurfaceMap :=
  nodeMap.find? (fun m => m.m_surfaceNode == nodeIndex)

/-- The method `getMapSurfaceNodeValue`. The last three arguments are the contents of the
caller's variables `numericalValueOut`, `numericalValueOutValid` and `textValueOut` before the
call. `none` when the facade pointer is `NULL` or the map data are read outside their
bounds. -/
def getMapSurfaceNodeValue (q : CiftiSurfaceQueries) (fmt : NumberFormat)
    (f : CiftiMappableDataFile) (mapIndex : Nat) (brainStructure : StructureEnum)
    (nodeIndex : Int) (numberOfNodes : Int) (_numericalValueOut : CFloat)
    (numericalValueOutValid : Bool) (textValueOut : String) : Option NodeValueResult :=
  let numericalValueOut : CFloat := 0
  if f.isCiftiInterfaceValid == false then
    some { returned := false, numericalValueOut := numericalValueOut,
           numericalValueOutValid := numericalValueOutValid, textValueOut := textValueOut }
  else if f.numCiftiNodes q brainStructure ≠ numberOfNodes then
    some { returned := false, numericalValueOut := numericalValueOut,
           numericalValueOutValid := numericalValueOutValid, textValueOut := textValueOut }
  else
    match f.m_ciftiFacade with
    | none => none
    | some facade =>
      if facade.isMappingDataToBrainordinateParcels then
        let parcelMapIndex := f.parcelIndexForNode q nodeIndex brainStructure
        let parcels := f.parcelsForAccess q
        match (if parcelMapIndex ≥ 0 then parcels[parcelMapIndex.toNat]? else none) with
        | some parcel =>
          some { returned := true, numericalValueOut := numericalValueOut,
                 numericalValueOutValid := numericalValueOutValid,
                 textValueOut := parcel.m_parcelName }
        | none =>
          some { returned := false, numericalValueOut := numericalValueOut,
                 numericalValueOutValid := numericalValueOutValid, textValueOut := textValueOut }
      else
        let dataIndex := f.dataIndexForNode q nodeIndex brainStructure
        let nodeMap := f.surfaceMapForAccess q brainStructure
        let mapData := facade.getDataForMapOrSeriesIndex mapIndex
        match (if dataIndex ≥ 0 then mapData[dataIndex.toNat]? else none) with
        | some value =>
          some { returned := true, numericalValueOut := value, numericalValueOutValid := true,
                 textValueOut := fmt.numberF value }
        | none =>
          match findNodeInSurfaceMap nodeMap nodeIndex with
          | some entry =>
            match (if entry.m_ciftiIndex ≥ 0 then mapData[entry.m_ciftiIndex.toNat]? else none) with
            | some value =>
              some { returned := true, numericalValueOut := value,
                     numericalValueOutValid := true, textValueOut := fmt.numberF value }
            | none => none
          | none =>
            some { returned := false, numericalValueOut := numericalValueOut,
                   numericalValueOutValid := numericalValueOutValid,
                   textValueOut := textValueOut }

/-- The body of the loop of `getMapSurfaceNodeColoring` for the node `iNode`, on the flag and
the two output arrays. `none` when an array is accessed outside its bounds. -/
def colorSurfaceNode (mc : MapContent) (mapData : List CFloat) (dataIndicesForNodes : List Int)
    (state : Bool × List CFloat × List CFloat) (iNode : Nat) :
    Option (Bool × List CFloat × List CFloat) :=
  let (validColorsFlag, surfaceRGBAOut, dataValuesOut) := state
  match dataIndicesForNodes[iNode]? with
  | none => none
  | some dataIndex =>
    let node4 := iNode * 4
    if node4 + 3 < surfaceRGBAOut.length ∧ iNode < dataValuesOut.length then
      if dataIndex > 0 then
        let data4 := dataIndex.toNat * 4
        match mc.m_rgba[data4]?, mc.m_rgba[data4 + 1]?, mc.m_rgba[data4 + 2]?,
            mc.m_rgba[data4 + 3]?, mapData[dataIndex.toNat]? with
        | some r, some g, some b, some a, some value =>
          some (true,
            (((surfaceRGBAOut.set node4 r).set (node4 + 1) g).set (node4 + 2) b).set (node4 + 3) a,
            dataValuesOut.set iNode value)
        | _, _, _, _, _ => none
      else
        some (validColorsFlag,
          (((surfaceRGBAOut.set node4 0).set (node4 + 1) 0).set (node4 + 2) 0).set (node4 + 3) (-1),
          dataValuesOut.set iNode 0)
    else none

/-- The method `getMapSurfaceNodeColoring`; `surfaceRGBAOut` and `dataValuesOut` are the
caller's arrays before the call. `none` when a `NULL` pointer is dereferenced, there is no such
map, or an array is accessed outside its bounds. -/
def getMapSurfaceNodeColoring (q : CiftiSurfaceQueries) (f : CiftiMappableDataFile)
    (mapIndex : Nat) (brainStructure : StructureEnum) (surfaceRGBAOut dataValuesOut : List CFloat)
    (surfaceNumberOfNodes : Int) : Option NodeColoringResult :=
  if f.isCiftiInterfaceValid == false then
    some { returned := false, surfaceRGBAOut := surfaceRGBAOut, dataValuesOut := dataValuesOut }
  else if f.numCiftiNodes q brainStructure ≠ surfaceNumberOfNodes then
    some { returned := false, surfaceRGBAOut := surfaceRGBAOut, dataValuesOut := dataValuesOut }
  else
    match f.m_ciftiFacade with
    | none => none
    | some facade =>
      let mapData := facade.getDataForMapOrSeriesIndex mapIndex
      if mapData.isEmpty then
        some { returned := false, surfaceRGBAOut := surfaceRGBAOut,
               dataValuesOut := dataValuesOut }
      else
        match f.m_mapContent[mapIndex]? with
        | none => none
        | some mc =>
          let dataIndicesForNodes :=
            facade.getSurfaceDataIndicesForMappingToBrainordinates brainStructure surfaceNumberOfNodes
          match (List.range surfaceNumberOfNodes.toNat).foldlM
              (colorSurfaceNode mc mapData dataIndicesForNodes)
              (false, surfaceRGBAOut, dataValuesOut) with
          | none => none
          | some (validColorsFlag, rgba, values) =>
            some { returned := validColorsFlag, surfaceRGBAOut := rgba, dataValuesOut := values }

end CiftiMappableDataFile

/-! ### Dimensions, label keys and coordinates -/

/-- Model of `std::set<int32_t>::insert` on the ascending sequence of the elements of the set
(the C++ library is not part of the repository): the key is put at its place, unless the set
has it already. -/
def setInsert (key : Int) : List Int → List Int
  | [] => [key]
  | x :: xs =>
    if key < x then key :: x :: xs
    else if key = x then x :: xs
    else x :: setInsert key xs

/-- The body of the loop of `getUniqueLabelKeysUsedInMap` for one data element, on the set of
keys: the element is converted to `int32_t` and inserted. `none` when the integer part of the
element does not fit `int32_t`, where C++ leaves the conversion undefined. -/
def insertLabelKey (uniqueKeys : List Int) (value : CFloat) : Option (List Int) :=
  if fitsInt32 (floatToInt32 value) then some (setInsert (floatToInt32 value) uniqueKeys)
  else none

/-- Modelled from the spec: the fixed geometry of the coordinate index translator of a plumb
volume, "origin + per-axis spacing + orientation": the coordinate of the centre of voxel
(0,0,0) and the signed step along each axis, whose sign carries the orientation. -/
structure VolumeGeometry where
  origin : CFloat × CFloat × CFloat
  spacing : CFloat × CFloat × CFloat
  deriving DecidableEq, Repr

/-- Modelled from the spec: `SparseVolumeIndexer::indicesToCoordinate` (not under `src/`), the
conversion behind `indexToSpace`: origin plus index times spacing on each axis. -/
def VolumeGeometry.indicesToCoordinate (g : VolumeGeometry) (i j k : CFloat) :
    CFloat × CFloat × CFloat :=
  (g.origin.1 + i * g.spacing.1, g.origin.2.1 + j * g.spacing.2.1,
    g.origin.2.2 + k * g.spacing.2.2)

/-- Modelled from the spec: `SparseVolumeIndexer::coordinateToIndices` (not under `src/`), the
conversion behind `enclosingVoxel`: on each axis the index of the voxel whose centre is
nearest to the coordinate. -/
def VolumeGeometry.coordinateToIndices (g : VolumeGeometry) (x y z : CFloat) :
    Int × Int × Int :=
  (⌊(x - g.origin.1) / g.spacing.1 + 1 / 2⌋, ⌊(y - g.origin.2.1) / g.spacing.2.1 + 1 / 2⌋,
    ⌊(z - g.origin.2.2) / g.spacing.2.2 + 1 / 2⌋)

/-- The two conversions of a geometry, as the collaborator of the file. -/
def VolumeGeometry.toVoxelCoordinates (g : VolumeGeometry) : VoxelCoordinates :=
  { coordinateToIndices := g.coordinateToIndices
    indicesToCoordinate := g.indicesToCoordinate }

namespace CiftiMappableDataFile

/-- The vector overload `getDimensions(dimsOut)`: the content of `dimsOut` after the five
`push_back` calls, `dimsOut` being its content before the call. -/
def getDimensionsVector (f : CiftiMappableDataFile) (dimsOut : List Int) : List Int :=
  ((((dimsOut ++ [f.m_volumeDimensions.getD 0 0]) ++ [f.m_volumeDimensions.getD 1 0])
    ++ [f.m_volumeDimensions.getD 2 0]) ++ [f.m_volumeDimensions.getD 3 0])
    ++ [f.m_volumeDimensions.getD 4 0]

/-- The method `getUniqueLabelKeysUsedInMap`: every data element of the map, converted to
`int32_t`, is inserted into a `std::set`, whose elements are returned in order. `none` when
`m_ciftiFacade` is `NULL` or when the conversion of a data element is undefined. -/
def getUniqueLabelKeysUsedInMap (f : CiftiMappableDataFile) (mapIndex : Nat) :
    Option (List Int) :=
  match f.getMapData mapIndex with
  | none => none
  | some data =>
    if data.length > 0 then data.foldlM insertLabelKey []
    else some []

/-- The method `indexToSpace` (the overload with three float indices); `none` when the indexer
pointer is `NULL`. -/
def indexToSpace (coords : VoxelCoordinates) (f : CiftiMappableDataFile)
    (indexIn1 indexIn2 indexIn3 : CFloat) : Option (CFloat × CFloat × CFloat) :=
  match f.m_voxelIndicesToOffset with
  | none => none
  | some _ => some (coords.indicesToCoordinate indexIn1 indexIn2 indexIn3)

/-- The overload of `indexToSpace` with an array of integer indices, which are converted to
`float` (exactly, for indices of a volume). -/
def indexToSpaceIJK (coords : VoxelCoordinates) (f : CiftiMappableDataFile)
    (indexIn : Int × Int × Int) : Option (CFloat × CFloat × CFloat) :=
  f.indexToSpace coords (indexIn.1 : CFloat) (indexIn.2.1 : CFloat) (indexIn.2.2 : CFloat)

end CiftiMappableDataFile

/-! ### Writing a file -/

/-- The calls `writeFile` makes on the facade and on the CIFTI file, in the order they are
made. -/
inductive WriteCall
  | setFileMetadata (metadata : GiftiMetaData)
  | setMetadataForMapOrSeriesIndex (mapIndex : Nat) (metadata : GiftiMetaData)
  | ciftiFileWriteFile (filename : String)
  deriving DecidableEq, Repr

/-- What a call of `writeFile` leaves behind: the message of the `DataFileException` it raised
(`none` when it returned) and the calls made on the facade and the CIFTI file. -/
structure WriteFileResult where
  raised : Option String
  calls : List WriteCall
  deriving DecidableEq, Repr

/-- The text of the exception `writeFile` raises when `m_ciftiInterface` is `NULL`. -/
def noFileLoadedMessage (filename : String) : String :=
  filename ++ " cannot be written because no file is loaded"

/-- The text of the exception `writeFile` raises when the interface is not a `CiftiFile`. -/
def notReadFromDiskMessage (filename : String) : String :=
  filename ++ " cannot be written because it was not read from a disk file and was"
    ++ " likely read via the network."

/-- The text of the exception `writeFile` raises for a dense connectivity file. -/
def denseNotWritableMessage (filename : String) : String :=
  filename ++ " dense connectivity files cannot be written to files due to their large sizes."

namespace CiftiMappableDataFile

/-- The method `getMapMetaData`; `none` when there is no such map. -/
def getMapMetaData (f : CiftiMappableDataFile) (mapIndex : Nat) : Option GiftiMetaData :=
  (f.m_mapContent[mapIndex]?).map MapContent.m_metadata

/-- The body of the loop of `writeFile` for the map `i`, on the calls made so far. -/
def writeMapMetadata (f : CiftiMappableDataFile) (calls : List WriteCall) (i : Nat) :
    Option (List WriteCall) :=
  if f.hasMapAttributes then
    match f.getMapMetaData i with
    | some metadata => some (calls ++ [.setMetadataForMapOrSeriesIndex i metadata])
    | none => none
  else some calls

/-- The method `writeFile(filename)`. `ciftiFileWriteFile` stands for `CiftiFile::writeFile`
(not under `src/`): the exception it raises for a file name, if any. A `CiftiFileException`
leaving the `try` block is caught and raised again as a `DataFileException` of the same text.
`none` when the facade pointer is `NULL` although a file is loaded. -/
def writeFile (ciftiFileWriteFile : String → Option Thrown) (f : CiftiMappableDataFile)
    (filename : String) : Option WriteFileResult :=
  match f.m_ciftiInterface with
  | none => some { raised := some (noFileLoadedMessage filename), calls := [] }
  | some (.ciftiXnat _ _) =>
    some { raised := some (notReadFromDiskMessage filename), calls := [] }
  | some (.ciftiFile _ _ _) =>
    if f.m_dataFileType = .CONNECTIVITY_DENSE then
      some { raised := some (denseNotWritableMessage filename), calls := [] }
    else
      match f.m_ciftiFacade with
      | none => none
      | some _ =>
        match (List.range f.getNumberOfMaps.toNat).foldlM f.writeMapMetadata
            [.setFileMetadata f.m_metadata] with
        | none => none
        | some calls =>
          match ciftiFileWriteFile filename with
          | none => some { raised := none, calls := calls ++ [.ciftiFileWriteFile filename] }
          | some (.CiftiFileException e) =>
            some { raised := some e, calls := calls ++ [.ciftiFileWriteFile filename] }
          | some (.DataFileException e) =>
            some { raised := some e, calls := calls ++ [.ciftiFileWriteFile filename] }

end CiftiMappableDataFile

/-! ### Identification of a surface node -/

/-- What `getMapSurfaceNodeIdentificationForMaps` returns and leaves in `textOut`. -/
structure NodeIdentificationResult where
  returned : Bool
  textOut : String
  deriving DecidableEq, Repr

namespace CiftiMappableDataFile

/-- The method `getSeriesDataForSurfaceNode`: the returned flag and the content of
`seriesDataOut` after the call, `seriesDataOut` being its content before. `none` when the
facade pointer is `NULL`. -/
def getSeriesDataForSurfaceNode (f : CiftiMappableDataFile) (brainStructure : StructureEnum)
    (nodeIndex : Int) (seriesDataOut : List CFloat) : Option (Bool × List CFloat) :=
  if f.isCiftiInterfaceValid == false then some (false, seriesDataOut)
  else
    match f.m_ciftiFacade with
    | none => none
    | some facade => some (facade.getSeriesDataForSurfaceNode brainStructure nodeIndex)

/-- The body of the first loop of `getMapSurfaceNodeIdentificationForMaps` (map data are
used) for one requested map, on `textOut` and `validID`. The locals `numericalValue` and
`numericalValueValid` are not initialised; `getMapSurfaceNodeValue` never reads them and they
are passed as 0 and false. -/
def identifyNodeFromMapData (q : CiftiSurfaceQueries) (fmt : NumberFormat)
    (f : CiftiMappableDataFile) (brainStructure : StructureEnum) (nodeIndex : Int)
    (numberOfNodes : Int) (state : String × Bool) (mapIndex : Nat) : Option (String × Bool) :=
  match f.getMapSurfaceNodeValue q fmt mapIndex brainStructure nodeIndex numberOfNodes 0 false
      "" with
  | none => none
  | some result =>
    if result.returned then some ((state.1 ++ result.textValueOut) ++ " ", true)
    else some state

/-- The body of the second loop of `getMapSurfaceNodeIdentificationForMaps` (series data are
used) for one requested map, on `textOut` and `validID`. `none` when the series data are read
outside their bounds or the label table pointer is `NULL`. -/
def identifyNodeFromSeriesData (fmt : NumberFormat) (f : CiftiMappableDataFile)
    (facade : CiftiFacade) (seriesData : List CFloat) (state : String × Bool)
    (mapIndex : Nat) : Option (String × Bool) :=
  match seriesData[mapIndex]? with
  | none => none
  | some value =>
    if facade.isBrainordinateDataColoredWithLabelTable then
      match f.getMapLabelTable mapIndex with
      | some (some glt) =>
        let labelKey := floatToInt32 value
        match glt.getLabel labelKey with
        | some gl => some ((state.1 ++ gl.name) ++ " ", true)
        | none => some ((state.1 ++ ("InvalidKey=" ++ fmt.number value)) ++ " ", true)
      | _ => none
    else if facade.isBrainordinateDataColoredWithPalette then
      some ((state.1 ++ fmt.number value) ++ " ", true)
    else some (state.1 ++ " ", state.2)

/-- The method `getMapSurfaceNodeIdentificationForMaps`; `textOut` is the content of the
caller's string before the call. `none` when a `NULL` pointer is dereferenced or a vector is
read outside its bounds. -/
def getMapSurfaceNodeIdentificationForMaps (q : CiftiSurfaceQueries) (fmt : NumberFormat)
    (f : CiftiMappableDataFile) (mapIndices : List Nat) (brainStructure : StructureEnum)
    (nodeIndex : Int) (numberOfNodes : Int) (textOut : String) :
    Option NodeIdentificationResult :=
  if f.isCiftiInterfaceValid == false then some { returned := false, textOut := textOut }
  else
    match f.m_ciftiFacade with
    | none => none
    | some facade =>
      let useMapData : Bool :=
        match facade.getCiftiFileType with
        | .CIFTI_INVALID => false
        | .CIFTI_DENSE => true
        | .CIFTI_LABEL => false
        | .CIFTI_SCALAR => false
        | .CIFTI_DENSE_PARCEL => true
        | .CIFTI_DATA_SERIES => false
        | .CIFTI_PARCEL => true
        | .CIFTI_PARCEL_DENSE => true
      if useMapData then
        match mapIndices.foldlM
            (identifyNodeFromMapData q fmt f brainStructure nodeIndex numberOfNodes)
            ("", false) with
        | none => none
        | some (text, validID) => some { returned := validID, textOut := text }
      else
        match f.getSeriesDataForSurfaceNode brainStructure nodeIndex [] with
        | none => none
        | some (false, _) => some { returned := false, textOut := "" }
        | some (true, seriesData) =>
          match mapIndices.foldlM (identifyNodeFromSeriesData fmt f facade seriesData)
              ("", false) with
          | none => none
          | some (text, validID) => some { returned := validID, textOut := text }

end CiftiMappableDataFile

/-! ## `ConnectivityLoaderFile` -/

/-- The loader types of `ConnectivityLoaderFile`, as enumerated by the switch of
`getSurfaceNodeColoring`. -/
inductive LoaderType
  | LOADER_TYPE_INVALID
  | LOADER_TYPE_DENSE
  | LOADER_TYPE_DENSE_TIME_SERIES
  deriving DecidableEq, Repr

/-- The members of `ConnectivityLoaderFile` that `getSurfaceNodeColoring` reads.
`ciftiInterface` is `none` for a `NULL` pointer and otherwise what
`getSurfaceMapForColumns` fills for a structure. -/
structure ConnectivityLoaderFile where
  numberOfDataElements : Int
  loaderType : LoaderType
  dataRGBA : List CFloat
  ciftiInterface : Option (StructureEnum → List CiftiSurfaceMap)

namespace ConnectivityLoaderFile

/-- The body of the loop of `getSurfaceNodeColoring` for one entry of the node map: the four
components at `cifti4` of `dataRGBA` are copied to `node4` of `nodeRGBA`. `none` when an array
is accessed outside its bounds. -/
def copyNodeColor (dataRGBA : List CFloat) (nodeRGBA : List CFloat) (entry : CiftiSurfaceMap) :
    Option (List CFloat) :=
  let node4 := entry.m_surfaceNode * 4
  let cifti4 := entry.m_ciftiIndex * 4
  if 0 ≤ node4 ∧ 0 ≤ cifti4 ∧ node4.toNat + 3 < nodeRGBA.length then
    match dataRGBA[cifti4.toNat]?, dataRGBA[cifti4.toNat + 1]?, dataRGBA[cifti4.toNat + 2]?,
        dataRGBA[cifti4.toNat + 3]? with
    | some r, some g, some b, some a =>
      some ((((nodeRGBA.set node4.toNat r).set (node4.toNat + 1) g).set (node4.toNat + 2) b).set
        (node4.toNat + 3) a)
    | _, _, _, _ => none
  else none

/-- The method `getSurfaceNodeColoring(structure, nodeRGBA, numberOfNodes)`: the returned flag
and the content of the caller's array `nodeRGBA` after the call. The product
`numberOfNodes * 4` is taken exactly. `none` when the interface pointer is `NULL`, when
`numberOfNodes` is negative or when an array is accessed outside its bounds. -/
def getSurfaceNodeColoring (file : ConnectivityLoaderFile) (brainStructure : StructureEnum)
    (nodeRGBA : List CFloat) (numberOfNodes : Int) : Option (Bool × List CFloat) :=
  if file.numberOfDataElements ≤ 0 then some (false, nodeRGBA)
  else
    let useColumnsFlag : Bool :=
      match file.loaderType with
      | .LOADER_TYPE_INVALID => false
      | .LOADER_TYPE_DENSE => true
      | .LOADER_TYPE_DENSE_TIME_SERIES => false
    if useColumnsFlag then
      match file.ciftiInterface with
      | none => none
      | some getSurfaceMapForColumns =>
        let nodeMap := getSurfaceMapForColumns brainStructure
        let count := (numberOfNodes * 4).toNat
        if numberOfNodes < 0 ∨ nodeRGBA.length < count then none
        else
          let filled := List.replicate count 0 ++ nodeRGBA.drop count
          match nodeMap.foldlM (copyNodeColor file.dataRGBA) filled with
          | none => none
          | some out => some (true, out)
    else some (false, nodeRGBA)

end ConnectivityLoaderFile

/-! ## `CubicSpline` -/

/-- The class `CubicSpline`: the four weights `m_weights[0..3]`. -/
structure CubicSpline where
  m_weights : Fin 4 → CFloat

/-- The static method `CubicSpline::hermite(frac, lowEdge, highEdge)` in exact arithmetic (the
assertion on `frac` is compiled out of a release build). -/
def CubicSpline.hermite (frac : CFloat) (lowEdge highEdge : Bool) : CubicSpline :=
  let frac2 := frac * frac
  let frac3 := frac2 * frac
  if lowEdge then
    if highEdge then
      { m_weights := ![0, 1 - frac, frac, 0] }
    else
      { m_weights := ![0, 0.5 * frac3 - 0.5 * frac2 - frac + 1, -frac3 + frac2 + frac,
          0.5 * frac3 - frac2] }
  else
    if highEdge then
      { m_weights := ![-0.5 * frac3 + frac2 - 0.5 * frac, frac3 - 2 * frac2 + 1,
          -0.5 * frac3 + frac2 + 0.5 * frac, 0] }
    else
      { m_weights := ![-0.5 * frac3 + frac2 - 0.5 * frac, 1.5 * frac3 - 2.5 * frac2 + 1,
          -1.5 * frac3 + 2 * frac2 + 0.5 * frac, 0.5 * frac3 - frac2] }

/-- The cubic Hermite representation on the samples `p[1]`, `p[2]` with the tangents `m0`,
`m1`, as the comment of `CubicSpline::hermite` names it:
`(2t^3 - 3t^2 + 1) p[1] + (t^3 - 2t^2 + t) m0 + (-2t^3 + 3t^2) p[2] + (t^3 - t^2) m1`. -/
def hermiteRepresentation (t p1 p2 m0 m1 : CFloat) : CFloat :=
  (2 * t ^ 3 - 3 * t ^ 2 + 1) * p1 + (t ^ 3 - 2 * t ^ 2 + t) * m0
    + (-2 * t ^ 3 + 3 * t ^ 2) * p2 + (t ^ 3 - t ^ 2) * m1

/-- The tangent `m0` named by the comments of `CubicSpline::hermite`: `p[2] - p[1]` at a low
edge, otherwise `(p[2] - p[0]) / 2`. -/
def hermiteTangent0 (lowEdge : Bool) (p : Fin 4 → CFloat) : CFloat :=
  if lowEdge then p 2 - p 1 else (p 2 - p 0) / 2

/-- The tangent `m1` named by the comments of `CubicSpline::hermite`: `p[2] - p[1]` at a high
edge, otherwise `(p[3] - p[1]) / 2`. -/
def hermiteTangent1 (highEdge : Bool) (p : Fin 4 → CFloat) : CFloat :=
  if highEdge then p 2 - p 1 else (p 3 - p 1) / 2

/-- The linear form of the four weights on the samples `p[0..3]`: the sum of the weighted
samples, in which weight `i` is the coefficient of `p[i]`. -/
def CubicSpline.weightedSum (s : CubicSpline) (p : Fin 4 → CFloat) : CFloat :=
  s.m_weights 0 * p 0 + s.m_weights 1 * p 1 + s.m_weights 2 * p 2 + s.m_weights 3 * p 3

/-! ## Concrete objects used by the examples -/

/-- A colouring collaborator for the examples: every component of the quadruple written for a
data value is that data value. -/
def exampleColoring : NodeAndVoxelColoring :=
  { colorScalarsWithPalette := fun _ _ _ data _ i => data.getD (i / 4) 0
    colorIndicesWithLabelTable := fun _ data i => data.getD (i / 4) 0 }

/-- A map of one data element coloured by the palette named `"ROY-BIG-BL"`, whose colour buffer
still holds an earlier colouring and has been invalidated. -/
def exampleStaleMap : MapContent :=
  { m_dataCount := 1
    m_metadata := GiftiMetaData.fresh
    m_paletteColorMapping := some { selectedPaletteName := "ROY-BIG-BL", modified := false }
    m_labelTable := none
    m_descriptiveStatistics := none
    m_fastStatistics := FastStatistics.fresh
    m_histogram := Histogram.fresh
    m_rgba := [1, 1, 1, 1]
    m_rgbaValid := false }

/-- A palette store holding the palette `"ROY-BIG-BL"`. -/
def examplePaletteFile : PaletteFile := { palettes := [{ name := "ROY-BIG-BL" }] }

/-- A palette store without any palette. -/
def emptyPaletteFile : PaletteFile := { palettes := [] }

/-- The map `exampleStaleMap` after it has been recoloured from the data `[2]` with the palette
found in `examplePaletteFile`. -/
def exampleColoredMap : MapContent :=
  { exampleStaleMap with
    m_fastStatistics := { values := [2] }
    m_rgba := [2, 2, 2, 2]
    m_rgbaValid := true }

/-- A map of two data elements coloured by a label table, whose buffer holds an earlier
colouring that is marked valid. -/
def exampleLabelMap : MapContent :=
  { m_dataCount := 2
    m_metadata := GiftiMetaData.fresh
    m_paletteColorMapping := none
    m_labelTable := some { labels := [{ key := 3, name := "V1" }], modified := false }
    m_descriptiveStatistics := none
    m_fastStatistics := FastStatistics.fresh
    m_histogram := Histogram.fresh
    m_rgba := [1, 1, 1, 1, 1, 1, 1, 1]
    m_rgbaValid := true }

/-- A facade reporting two maps of three data elements each, coloured by palette, with map
attributes and no volume mapping; node 5 has the value 1 in both maps. -/
def exampleFacade : CiftiFacade :=
  { isValidCiftiFile := true
    isBrainordinateDataColoredWithLabelTable := false
    isBrainordinateDataColoredWithPalette := true
    containsMapAttributes := true
    getNumberOfMaps := 2
    getMapDataCount := 3
    getFileMetadata := [("Provenance", "wb_command")]
    getMetadataForMapOrSeriesIndex := fun i => [("MapIndex", toString i)]
    getPaletteColorMappingForMapOrSeriesIndex :=
      fun _ => some { selectedPaletteName := "ROY-BIG-BL", modified := false }
    getLabelTableForMapOrSeriesIndex := fun _ => none
    getVolumeMapForMappingDataToBrainordinates := []
    getDataForMapOrSeriesIndex := fun _ => [1, 2, 3]
    isMappingDataToBrainordinateParcels := false
    getSurfaceDataIndicesForMappingToBrainordinates :=
      fun s _ => if s = .CORTEX_LEFT then [0, -1, 2, 1] else [0, -1]
    getCiftiFileType := .CIFTI_SCALAR
    getSeriesDataForSurfaceNode := fun _ node => if node = 5 then (true, [1, 1]) else (false, []) }

/-- The XML of a dense scalar file: scalars along rows, brain models along columns. -/
def exampleScalarXML : CiftiXML :=
  { mappingTypeAlongRow := .CIFTI_INDEX_TYPE_SCALARS
    mappingTypeAlongColumn := .CIFTI_INDEX_TYPE_BRAIN_MODELS
    volumeAttributesForPlumb := some (10, 10, 5) }

/-- The XML of a parcellated series file: time points along rows, parcels along columns. -/
def exampleSeriesXML : CiftiXML :=
  { mappingTypeAlongRow := .CIFTI_INDEX_TYPE_TIME_POINTS
    mappingTypeAlongColumn := .CIFTI_INDEX_TYPE_PARCELS
    volumeAttributesForPlumb := none }

/-- Collaborators for the examples. Names starting with `http` are on the network and names
ending in `.nii` have a valid extension; `brain.dscalar.nii` is a dense scalar file,
`series.ptseries.nii` and the temporary copy of any remote file are parcellated series files,
no other local file can be opened; every XNAT address serves a dense scalar file. -/
def exampleEnv : ReadEnv :=
  { isFileOnNetwork := fun name => "http".toList.isPrefixOf name.toList
    isValidFileExtension := fun name => ".nii".toList.isSuffixOf name.toList
    toName := fun _ => "CONNECTIVITY_DENSE_SCALAR"
    toGuiName := fun _ => "Connectivity - Dense Scalar"
    fileNameNoPath := fun name => name
    temporaryFileRead := fun _ => .ok "/tmp/caret.nii"
    ciftiFileOpen := fun name _ =>
      if name = "brain.dscalar.nii" then .ok exampleScalarXML
      else if name = "series.ptseries.nii" then .ok exampleSeriesXML
      else if name = "/tmp/caret.nii" then .ok exampleSeriesXML
      else .error (.CiftiFileException "file cannot be opened")
    remoteUrlUsernameAndPassword := fun name => (name, "", "")
    fileReadingUsername := ""
    fileReadingPassword := ""
    xnatOpenURL := fun _ => .ok exampleScalarXML
    newCiftiFacade := fun _ _ => exampleFacade
    sparseVolumeIndexerIsValid := fun _ _ => true }

/-- A new dense scalar file object that loads all data. -/
def exampleFile : CiftiMappableDataFile :=
  CiftiMappableDataFile.new .CONNECTIVITY_DENSE_SCALAR .FILE_READ_DATA_ALL
    .CIFTI_INDEX_TYPE_SCALARS .CIFTI_INDEX_TYPE_BRAIN_MODELS
    .DATA_ACCESS_WITH_COLUMN_METHODS .DATA_ACCESS_WITH_ROW_METHODS

/-- A new dense scalar file object that reads data as needed. -/
def exampleFileAsNeeded : CiftiMappableDataFile :=
  CiftiMappableDataFile.new .CONNECTIVITY_DENSE_SCALAR .FILE_READ_DATA_AS_NEEDED
    .CIFTI_INDEX_TYPE_SCALARS .CIFTI_INDEX_TYPE_BRAIN_MODELS
    .DATA_ACCESS_WITH_COLUMN_METHODS .DATA_ACCESS_WITH_ROW_METHODS

/-- The file object `exampleFile` after `brain.dscalar.nii` has been read into it. -/
def exampleOpenedFile : CiftiMappableDataFile :=
  (exampleFile.readFile exampleEnv "brain.dscalar.nii").file

/-- The value 0.75. -/
def threeQuarters : CFloat := ⟨3, 4, by decide, by decide⟩

/-- The facade of a connectivity file of which no row is loaded: the data of every map are
empty. -/
def exampleNoRowsFacade : CiftiFacade :=
  { exampleFacade with getDataForMapOrSeriesIndex := fun _ => [] }

/-- The collaborators of `exampleEnv` with the facade of the file without loaded rows. -/
def exampleNoRowsEnv : ReadEnv :=
  { exampleEnv with newCiftiFacade := fun _ _ => exampleNoRowsFacade }

/-- The file object left by reading the file without loaded rows. -/
def exampleNoRowsFile : CiftiMappableDataFile :=
  (exampleFile.readFile exampleNoRowsEnv "brain.dscalar.nii").file

/-- The file object `exampleOpenedFile` after the colours of its first map (data `[1, 2, 3]`)
have been updated: the colour buffer of the map is `[1,1,1,1, 2,2,2,2, 3,3,3,3]`. -/
def exampleColoredFile : CiftiMappableDataFile :=
  (exampleOpenedFile.updateScalarColoringForMap exampleColoring 0
    (some examplePaletteFile)).getD exampleOpenedFile

/-- The data of the one map of the volume example: eighteen elements, the last one 0.75. -/
def exampleVolumeData : List CFloat := List.replicate 17 1 ++ [threeQuarters]

/-- The voxel mapping of the volume example: voxel (3,4,2) has its data at offset 17 and voxel
(0,0,2) at offset 0. -/
def exampleVoxelMapping : List CiftiVolumeMap :=
  [{ m_ijk := (3, 4, 2), m_ciftiIndex := 17 }, { m_ijk := (0, 0, 2), m_ciftiIndex := 0 }]

/-- The facade of the volume example: one palette-coloured map of eighteen data elements. -/
def exampleVolumeFacade : CiftiFacade :=
  { exampleFacade with
    getNumberOfMaps := 1
    getMapDataCount := 18
    getVolumeMapForMappingDataToBrainordinates := exampleVoxelMapping
    getDataForMapOrSeriesIndex := fun _ => exampleVolumeData }

/-- The collaborators of `exampleEnv` with the facade of the volume example. -/
def exampleVolumeEnv : ReadEnv :=
  { exampleEnv with newCiftiFacade := fun _ _ => exampleVolumeFacade }

/-- The volume example: a file of dimensions (10,10,5) read and its map coloured. -/
def exampleVolumeFile : CiftiMappableDataFile :=
  ((exampleFile.readFile exampleVolumeEnv "brain.dscalar.nii").file.updateScalarColoringForMap
    exampleColoring 0 (some examplePaletteFile)).getD exampleFile

/-- The indexer of the volume example. -/
def exampleVolumeIndexer : SparseVolumeIndexer :=
  { isValid := true, voxelMapping := exampleVoxelMapping }

/-- The coloured map of the volume example: every colour component of a data element is the
value of the element. -/
def exampleVolumeMap : MapContent :=
  { m_dataCount := 18
    m_metadata := { entries := [("MapIndex", "0")], modified := false }
    m_paletteColorMapping := some { selectedPaletteName := "ROY-BIG-BL", modified := false }
    m_labelTable := none
    m_descriptiveStatistics := none
    m_fastStatistics := { values := exampleVolumeData }
    m_histogram := Histogram.fresh
    m_rgba := (List.range 72).map (fun i => exampleVolumeData.getD (i / 4) 0)
    m_rgbaValid := true }

/-- Coordinate conversions for the examples: unit voxels with the origin at voxel (0,0,0);
a coordinate lies in the voxel given by the integer parts of its components. -/
def exampleCoordinates : VoxelCoordinates :=
  { coordinateToIndices := fun x y z => (floatToInt32 x, floatToInt32 y, floatToInt32 z)
    indicesToCoordinate := fun i j k => (i, j, k) }

/-- Number formatting for the examples, given on the values that occur in them. -/
def exampleNumberFormat : NumberFormat :=
  { number := fun v =>
      if v = threeQuarters then "0.75" else if v = 42 then "42" else if v = 1 then "1" else "?"
    numberF := fun v =>
      if v = threeQuarters then "0.750000" else if v = 42 then "42.000000"
      else if v = 1 then "1.000000" else "?" }

/-- The label table of the label example: the keys 3 and 7. -/
def exampleLabelTable : GiftiLabelTable :=
  { labels := [{ key := 3, name := "V1" }, { key := 7, name := "MT" }], modified := false }

/-- The data of the one map of the label example: element 0 is 42, a key that is not in the
label table, element 17 is 7. -/
def exampleLabelData : List CFloat := [42] ++ List.replicate 16 3 ++ [7]

/-- The facade of the label example: one map coloured by `exampleLabelTable`, with the voxel
mapping of the volume example. -/
def exampleLabelFacade : CiftiFacade :=
  { exampleFacade with
    isBrainordinateDataColoredWithLabelTable := true
    isBrainordinateDataColoredWithPalette := false
    getNumberOfMaps := 1
    getMapDataCount := 18
    getPaletteColorMappingForMapOrSeriesIndex := fun _ => none
    getLabelTableForMapOrSeriesIndex := fun _ => some exampleLabelTable
    getVolumeMapForMappingDataToBrainordinates := exampleVoxelMapping
    getDataForMapOrSeriesIndex := fun _ => exampleLabelData }

/-- The label example: the file object left by reading a file with the label facade. -/
def exampleLabelFile : CiftiMappableDataFile :=
  (exampleFile.readFile { exampleEnv with newCiftiFacade := fun _ _ => exampleLabelFacade }
    "brain.dscalar.nii").file

/-- The facade of the parcel example: the data are mapped to parcels. -/
def exampleParcelFacade : CiftiFacade :=
  { exampleFacade with isMappingDataToBrainordinateParcels := true }

/-- The parcel example: the file object left by reading a file with the parcel facade. -/
def exampleParcelFile : CiftiMappableDataFile :=
  (exampleFile.readFile { exampleEnv with newCiftiFacade := fun _ _ => exampleParcelFacade }
    "brain.dscalar.nii").file

/-- Surface and parcel lookups for the examples: the left cortex has 4 nodes, the cerebellum
2, every other structure 8; node 5 has its data at index 0 and lies in parcel 1; no other node
has data or a parcel. -/
def exampleQueries : CiftiSurfaceQueries :=
  { getColumnSurfaceNumberOfNodes :=
      fun s => if s = .CORTEX_LEFT then 4 else if s = .CEREBELLUM then 2 else 8
    getRowSurfaceNumberOfNodes := fun _ => 0
    getParcelsForColumns := [{ m_parcelName := "L_V1" }, { m_parcelName := "R_MT" }]
    getParcelsForRows := []
    getColumnParcelForNode := fun node _ => if node = 5 then 1 else -1
    getRowParcelForNode := fun _ _ => -1
    getSurfaceMapForColumns := fun _ => [{ m_surfaceNode := 5, m_ciftiIndex := 0 }]
    getSurfaceMapForRows := fun _ => []
    getColumnIndexForNode := fun node _ => if node = 5 then 0 else -1
    getRowIndexForNode := fun _ _ => -1 }

/-- The facade of the second label example: two maps coloured by `exampleLabelTable`; node 5
has the value 42 in map 0 and 7 in map 1. -/
def exampleTwoLabelFacade : CiftiFacade :=
  { exampleLabelFacade with
    getNumberOfMaps := 2
    getCiftiFileType := .CIFTI_LABEL
    getSeriesDataForSurfaceNode :=
      fun _ node => if node = 5 then (true, [42, 7]) else (false, []) }

/-- The second label example: the file object left by reading a file with the facade of two
label maps. -/
def exampleTwoLabelFile : CiftiMappableDataFile :=
  (exampleFile.readFile { exampleEnv with newCiftiFacade := fun _ _ => exampleTwoLabelFacade }
    "brain.dscalar.nii").file

/-- The file object `exampleFile` after a source has been read from an XNAT address. -/
def exampleXnatFile : CiftiMappableDataFile :=
  (exampleFile.readFile exampleEnv "https://xnat.example.org/data").file

/-- A dense connectivity file object after `brain.dscalar.nii` has been read into it by
collaborators that serve brain models along rows and columns. -/
def exampleDenseFile : CiftiMappableDataFile :=
  ((CiftiMappableDataFile.new .CONNECTIVITY_DENSE .FILE_READ_DATA_AS_NEEDED
      .CIFTI_INDEX_TYPE_BRAIN_MODELS .CIFTI_INDEX_TYPE_BRAIN_MODELS
      .DATA_ACCESS_WITH_COLUMN_METHODS .DATA_ACCESS_WITH_ROW_METHODS).readFile
    { exampleEnv with
      ciftiFileOpen := fun _ _ =>
        .ok { mappingTypeAlongRow := .CIFTI_INDEX_TYPE_BRAIN_MODELS
              mappingTypeAlongColumn := .CIFTI_INDEX_TYPE_BRAIN_MODELS
              volumeAttributesForPlumb := none } }
    "brain.dconn.nii").file

/-- A `CiftiFile::writeFile` for the examples: every name can be written except
`/readonly/out.nii`. -/
def exampleCiftiFileWriteFile (filename : String) : Option Thrown :=
  if filename = "/readonly/out.nii" then some (.CiftiFileException "cannot open for writing")
  else none

/-- A geometry for the examples: voxels of 2 units, the first axis running from right to
left. -/
def exampleGeometry : VolumeGeometry :=
  { origin := (90, -126, -72), spacing := (-2, 2, 2) }

/-- A connectivity loader with three data elements, coloured `(1,1,1,1)`, `(2,2,2,2)` and
`(3,3,3,3)`; on the left cortex node 2 has its data at index 1 and node 0 at index 2; no other
structure has nodes with data. -/
def exampleLoaderFile : ConnectivityLoaderFile :=
  { numberOfDataElements := 3
    loaderType := .LOADER_TYPE_DENSE
    dataRGBA := [1, 1, 1, 1, 2, 2, 2, 2, 3, 3, 3, 3]
    ciftiInterface := some (fun s =>
      if s = .CORTEX_LEFT then
        [{ m_surfaceNode := 2, m_ciftiIndex := 1 }, { m_surfaceNode := 0, m_ciftiIndex := 2 }]
      else []) }

/-! ## Properties of `MapContent` -/

theorem writeThrough_length (n : Nat) (f : Nat → CFloat) (buf : List CFloat)
    (h : n ≤ buf.length) : (writeThrough n f buf).length = buf.length := by
  simp [writeThrough]
  omega

theorem writeThrough_all (n : Nat) (f : Nat → CFloat) (buf : List CFloat)
    (h : buf.length = n) : writeThrough n f buf = (List.range n).map f := by
  simp [writeThrough, List.drop_eq_nil_of_le (le_of_eq h)]

theorem MapContent.updateColoring_empty (nvc : NodeAndVoxelColoring) (mc : MapContent)
    (paletteFile : Option PaletteFile) : mc.updateColoring nvc [] paletteFile = some mc := by
  simp [MapContent.updateColoring]

theorem MapContent.updateColoring_valid (nvc : NodeAndVoxelColoring) (mc : MapContent)
    (data : List CFloat) (paletteFile : Option PaletteFile) (h : mc.m_rgbaValid = true) :
    mc.updateColoring nvc data paletteFile = some mc := by
  simp [MapContent.updateColoring, h]

/-- After a call on non-empty data that returns, the colours are marked valid. -/
theorem MapContent.updateColoring_sets_valid (nvc : NodeAndVoxelColoring) (mc mc1 : MapContent)
    (data : List CFloat) (paletteFile : Option PaletteFile) (hd : data ≠ [])
    (h : mc.updateColoring nvc data paletteFile = some mc1) : mc1.m_rgbaValid = true := by
  unfold MapContent.updateColoring at h
  have hd2 : data.isEmpty = false := by
    cases data with
    | nil => exact absurd rfl hd
    | cons _ _ => rfl
  rw [hd2] at h
  simp only [Bool.false_eq_true, if_false] at h
  split at h
  · rename_i hv
    simp only [Option.some.injEq] at h
    rw [← h]; exact hv
  · split at h
    · split at h
      · simp at h
      · split at h
        · split at h
          · simp only [Option.some.injEq] at h
            rw [← h]
          · simp at h
        · simp only [Option.some.injEq] at h
          rw [← h]
    · split at h
      · simp only [Option.some.injEq] at h
        rw [← h]
      · simp at h

/-- C6: `updateColoring` is a no-op whenever the data are empty or the colours are already
valid, whatever data and palette file are passed: the whole map (colour buffer, valid flag,
fast statistics and every other member) is returned as it was. In particular a call on the
state left by an earlier call on non-empty data, with no invalidation in between, changes
nothing, even with different data and a different palette file. -/
theorem MapContent.updateColoring_noop (nvc : NodeAndVoxelColoring) (mc : MapContent)
    (data : List CFloat) (paletteFile : Option PaletteFile)
    (h : data = [] ∨ mc.m_rgbaValid = true ∨
      ∃ (mc0 : MapContent) (data0 : List CFloat) (paletteFile0 : Option PaletteFile),
        data0 ≠ [] ∧ mc0.updateColoring nvc data0 paletteFile0 = some mc) :
    mc.updateColoring nvc data paletteFile = some mc := by
  rcases h with h | h | ⟨mc0, data0, pf0, hd, h0⟩
  · subst h
    exact MapContent.updateColoring_empty nvc mc paletteFile
  · exact MapContent.updateColoring_valid nvc mc data paletteFile h
  · exact MapContent.updateColoring_valid nvc mc data paletteFile
      (MapContent.updateColoring_sets_valid nvc mc0 mc data0 pf0 hd h0)

/-- Witness of C6: the map recoloured from `[2]` is left as it is by a second call with other
data and no palette file. -/
theorem MapContent.updateColoring_noop_witness :
    (exampleStaleMap.updateColoring exampleColoring [2] (some examplePaletteFile)
        = some exampleColoredMap) ∧
      exampleColoredMap.updateColoring exampleColoring [5, 7] none = some exampleColoredMap :=
  ⟨by decide,
    MapContent.updateColoring_noop exampleColoring exampleColoredMap [5, 7] none
      (Or.inr (Or.inr ⟨exampleStaleMap, [2], some examplePaletteFile, by decide, by decide⟩))⟩

theorem List.isEmpty_eq_false_of_ne_nil {α : Type} (l : List α) (h : l ≠ []) :
    l.isEmpty = false := by
  cases l with
  | nil => exact absurd rfl h
  | cons _ _ => rfl

/-- C7: after `invalidateColoring`, the next `updateColoring` call with non-empty data
recomputes. Under the asserted precondition that the data have `m_dataCount` elements and with
the buffer of size `4 * m_dataCount`: with a null palette file the buffer becomes the label
table colouring of that call's data; with a palette file in which the selected palette name
resolves, the fast statistics are first updated from the data and the buffer becomes the
palette colouring computed from those statistics; in both cases the colours are marked valid.
The outcome does not depend on what the buffer held before: replacing the old buffer by any
other of the same size gives the same buffer after the call, for every palette file. -/
theorem MapContent.updateColoring_after_invalidate (nvc : NodeAndVoxelColoring)
    (mc : MapContent) (data : List CFloat) (hd : data ≠ [])
    (hc : data.length = mc.m_dataCount) (hinv : mc.m_rgba.length = mc.m_dataCount * 4) :
    mc.invalidateColoring.updateColoring nvc data none
        = some { mc with
            m_rgba :=
              (List.range (4 * data.length)).map (nvc.colorIndicesWithLabelTable mc.m_labelTable data)
            m_rgbaValid := true } ∧
    (∀ (paletteFile : PaletteFile) (mapping : PaletteColorMapping) (palette : Palette),
      mc.m_paletteColorMapping = some mapping →
      paletteFile.getPaletteByName mapping.getSelectedPaletteName = some palette →
      mc.invalidateColoring.updateColoring nvc data (some paletteFile)
        = some { mc with
            m_fastStatistics := mc.m_fastStatistics.update data data.length
            m_rgba :=
              (List.range (4 * mc.m_dataCount)).map
                (nvc.colorScalarsWithPalette (mc.m_fastStatistics.update data data.length)
                  mapping palette data mc.m_dataCount)
            m_rgbaValid := true }) ∧
    (∀ (stale : List CFloat) (paletteFile : Option PaletteFile),
      stale.length = mc.m_rgba.length →
      (MapContent.updateColoring nvc ({ mc with m_rgba := stale }).invalidateColoring data
          paletteFile).map MapContent.m_rgba
        = (mc.invalidateColoring.updateColoring nvc data paletteFile).map MapContent.m_rgba) := by
  have he := List.isEmpty_eq_false_of_ne_nil data hd
  have h4 : 4 * data.length = mc.m_rgba.length := by omega
  have h4c : 4 * mc.m_dataCount = mc.m_rgba.length := by omega
  refine ⟨?_, ?_, ?_⟩
  · simp only [MapContent.updateColoring, MapContent.invalidateColoring, he, Bool.false_eq_true,
      if_false, h4, le_refl, if_true]
    rw [writeThrough_all _ _ _ rfl]
  · intro pf mapping palette hm hp
    simp only [MapContent.updateColoring, MapContent.invalidateColoring, he, Bool.false_eq_true,
      if_false, hm, hp, h4c, hc, le_refl, and_self, if_true]
    rw [writeThrough_all _ _ _ rfl]
  · intro stale pf hs
    simp only [MapContent.updateColoring, MapContent.invalidateColoring, he, Bool.false_eq_true,
      if_false]
    cases pf with
    | none =>
      simp only [hs, ← h4, le_refl, if_true, Option.map_some']
      rw [writeThrough_all _ _ _ (by omega), writeThrough_all _ _ _ (by omega)]
    | some pf =>
      cases hm : mc.m_paletteColorMapping with
      | none => simp
      | some mapping =>
        cases hp : pf.getPaletteByName mapping.getSelectedPaletteName with
        | none => simp [hp, hs]
        | some palette =>
          simp only [hp, hs, ← h4c, hc, le_refl, and_self, if_true, Option.map_some']
          rw [writeThrough_all _ _ _ (by omega), writeThrough_all _ _ _ (by omega)]

/-- Witness of C7: the valid label map, invalidated and recoloured from the data `[5, 7]`. -/
theorem MapContent.updateColoring_after_invalidate_witness :
    exampleLabelMap.invalidateColoring.updateColoring exampleColoring [5, 7] none
      = some { exampleLabelMap with m_rgba := [5, 5, 5, 5, 7, 7, 7, 7], m_rgbaValid := true } :=
  ((MapContent.updateColoring_after_invalidate exampleColoring exampleLabelMap [5, 7]
    (by decide) (by decide) (by decide)).1).trans (by decide)

/-- Counterexample to C8 as stated: on the invalidated map, a call with non-empty data and a
palette file in which the selected palette name does not resolve marks the colours valid,
although the buffer was only filled with zeros: it is neither the palette colouring nor the
label table colouring of the data. -/
theorem MapContent.colorsValid_without_recolor :
    emptyPaletteFile.getPaletteByName "ROY-BIG-BL" = none ∧
    exampleStaleMap.m_rgbaValid = false ∧
    exampleStaleMap.updateColoring exampleColoring [2] (some emptyPaletteFile)
      = some { exampleStaleMap with m_rgba := [0, 0, 0, 0], m_rgbaValid := true } ∧
    (List.range 4).map (exampleColoring.colorIndicesWithLabelTable none [2]) = [2, 2, 2, 2] ∧
    (∀ (stats : FastStatistics) (mapping : PaletteColorMapping) (palette : Palette),
      (List.range 4).map (exampleColoring.colorScalarsWithPalette stats mapping palette [2] 1)
        = [2, 2, 2, 2]) := by
  refine ⟨by decide, by decide, by decide, by decide, ?_⟩
  intro _ _ _
  rfl

/-- C8 (amended): the valid flag is false after construction and after `invalidateColoring`,
and `clearModifiedStatus` does not touch it. An `updateColoring` call that finds it false and
leaves it true was given non-empty data and has just rewritten the buffer in one of three
ways: with the label table colouring (null palette file), with the colouring of the palette
the selected name resolves to, or, when the name does not resolve, with zeros. -/
theorem MapContent.colorsValid_only_after_rewrite (facade : CiftiFacade) (mapIndex : Nat)
    (nvc : NodeAndVoxelColoring) (mc mc1 : MapContent) (data : List CFloat)
    (paletteFile : Option PaletteFile)
    (h : mc.updateColoring nvc data paletteFile = some mc1) :
    (MapContent.new facade mapIndex).m_rgbaValid = false ∧
    mc.invalidateColoring.m_rgbaValid = false ∧
    mc.clearModifiedStatus.m_rgbaValid = mc.m_rgbaValid ∧
    (mc.m_rgbaValid = false → mc1.m_rgbaValid = true →
      data ≠ [] ∧
      ((paletteFile = none ∧
          mc1.m_rgba = writeThrough (4 * data.length)
            (nvc.colorIndicesWithLabelTable mc.m_labelTable data) mc.m_rgba) ∨
        (∃ (pf : PaletteFile) (mapping : PaletteColorMapping) (palette : Palette),
          paletteFile = some pf ∧ mc.m_paletteColorMapping = some mapping ∧
          pf.getPaletteByName mapping.getSelectedPaletteName = some palette ∧
          mc1.m_rgba = writeThrough (4 * mc.m_dataCount)
            (nvc.colorScalarsWithPalette (mc.m_fastStatistics.update data data.length)
              mapping palette data mc.m_dataCount) mc.m_rgba) ∨
        (∃ (pf : PaletteFile) (mapping : PaletteColorMapping),
          paletteFile = some pf ∧ mc.m_paletteColorMapping = some mapping ∧
          pf.getPaletteByName mapping.getSelectedPaletteName = none ∧
          mc1.m_rgba = List.replicate mc.m_rgba.length 0))) := by
  refine ⟨rfl, rfl, rfl, ?_⟩
  intro hv hv1
  have hd : data ≠ [] := by
    rintro rfl
    rw [MapContent.updateColoring_empty] at h
    simp only [Option.some.injEq] at h
    rw [h, hv1] at hv
    exact absurd hv (by decide)
  refine ⟨hd, ?_⟩
  have he := List.isEmpty_eq_false_of_ne_nil data hd
  simp only [MapContent.updateColoring, he, hv, Bool.false_eq_true, if_false] at h
  cases paletteFile with
  | none =>
    left
    simp only at h
    split at h
    · simp only [Option.some.injEq] at h
      exact ⟨rfl, by rw [← h]⟩
    · simp at h
  | some pf =>
    right
    simp only at h
    cases hm : mc.m_paletteColorMapping with
    | none => simp [hm] at h
    | some mapping =>
      simp only [hm] at h
      cases hp : pf.getPaletteByName mapping.getSelectedPaletteName with
      | none =>
        right
        simp only [hp, Option.some.injEq] at h
        exact ⟨pf, mapping, rfl, rfl, hp, by rw [← h]⟩
      | some palette =>
        left
        simp only [hp] at h
        split at h
        · simp only [Option.some.injEq] at h
          exact ⟨pf, mapping, palette, rfl, rfl, hp, by rw [← h]⟩
        · simp at h

/-- Witness of C8 (amended): the invalidated map recoloured from `[2]` with a resolved
palette. -/
theorem MapContent.colorsValid_only_after_rewrite_witness :
    (exampleStaleMap.updateColoring exampleColoring [2] (some examplePaletteFile)
        = some exampleColoredMap) ∧
      (MapContent.new exampleFacade 0).m_rgbaValid = false :=
  ⟨by decide,
    (MapContent.colorsValid_only_after_rewrite exampleFacade 0 exampleColoring exampleStaleMap
      exampleColoredMap [2] (some examplePaletteFile) (by decide)).1⟩

/-- The size invariant of a map: the colour buffer has `m_dataCount * 4` elements. -/
theorem MapContent.updateColoring_length (nvc : NodeAndVoxelColoring) (mc mc1 : MapContent)
    (data : List CFloat) (paletteFile : Option PaletteFile)
    (h : mc.updateColoring nvc data paletteFile = some mc1) :
    mc1.m_rgba.length = mc.m_rgba.length ∧ mc1.m_dataCount = mc.m_dataCount := by
  unfold MapContent.updateColoring at h
  split at h
  · simp only [Option.some.injEq] at h
    rw [← h]; exact ⟨rfl, rfl⟩
  · split at h
    · simp only [Option.some.injEq] at h
      rw [← h]; exact ⟨rfl, rfl⟩
    · split at h
      · split at h
        · simp at h
        · split at h
          · split at h
            · rename_i hg
              simp only [Option.some.injEq] at h
              rw [← h]
              exact ⟨writeThrough_length _ _ _ hg.2, rfl⟩
            · simp at h
          · simp only [Option.some.injEq] at h
            rw [← h]
            exact ⟨by simp, rfl⟩
      · split at h
        · rename_i hg
          simp only [Option.some.injEq] at h
          rw [← h]
          exact ⟨writeThrough_length _ _ _ hg, rfl⟩
        · simp at h

/-- C9: `rgba.size() == dataCount * 4` holds after construction, with every element `0`, and
is preserved by every operation of a map: by `invalidateColoring`, by `clearModifiedStatus`
and by `updateColoring` on whichever branch it takes. Moreover `updateColoring` does produce a
map whenever the data have `m_dataCount` elements and a palette colour mapping is present when
a palette file is given. -/
theorem MapContent.rgba_size_invariant (facade : CiftiFacade) (mapIndex : Nat)
    (nvc : NodeAndVoxelColoring) (mc : MapContent)
    (h : mc.m_rgba.length = mc.m_dataCount * 4) :
    (MapContent.new facade mapIndex).m_rgba.length
        = (MapContent.new facade mapIndex).m_dataCount * 4 ∧
    (∀ x ∈ (MapContent.new facade mapIndex).m_rgba, x = 0) ∧
    mc.invalidateColoring.m_rgba.length = mc.invalidateColoring.m_dataCount * 4 ∧
    mc.clearModifiedStatus.m_rgba.length = mc.clearModifiedStatus.m_dataCount * 4 ∧
    (∀ (data : List CFloat) (paletteFile : Option PaletteFile) (mc1 : MapContent),
      mc.updateColoring nvc data paletteFile = some mc1 →
      mc1.m_rgba.length = mc1.m_dataCount * 4) ∧
    (∀ (data : List CFloat) (paletteFile : Option PaletteFile),
      data.length = mc.m_dataCount →
      (paletteFile ≠ none → mc.m_paletteColorMapping ≠ none) →
      ∃ mc1, mc.updateColoring nvc data paletteFile = some mc1) := by
  refine ⟨by simp [MapContent.new], ?_, h, h, ?_, ?_⟩
  · intro x hx
    simp only [MapContent.new] at hx
    exact (List.mem_replicate.mp hx).2
  · intro data pf mc1 h1
    obtain ⟨hl, hc⟩ := MapContent.updateColoring_length nvc mc mc1 data pf h1
    rw [hl, hc, h]
  · intro data pf hc hm
    unfold MapContent.updateColoring
    split
    · exact ⟨_, rfl⟩
    · split
      · exact ⟨_, rfl⟩
      · cases pf with
        | none =>
          simp only
          rw [if_pos (by omega)]
          exact ⟨_, rfl⟩
        | some pf =>
          simp only
          cases hmm : mc.m_paletteColorMapping with
          | none => exact absurd hmm (hm (by simp))
          | some mapping =>
            simp only
            split
            · rw [if_pos ⟨by omega, by omega⟩]
              exact ⟨_, rfl⟩
            · exact ⟨_, rfl⟩

/-- Witness of C9: the invalidated one-element map keeps its four colour components through
a recolouring. -/
theorem MapContent.rgba_size_invariant_witness :
    exampleStaleMap.m_rgba.length = exampleStaleMap.m_dataCount * 4 ∧
      exampleColoredMap.m_rgba.length = exampleColoredMap.m_dataCount * 4 :=
  ⟨by decide,
    (MapContent.rgba_size_invariant exampleFacade 0 exampleColoring exampleStaleMap
      (by decide)).2.2.2.2.1 [2] (some examplePaletteFile) exampleColoredMap (by decide)⟩

/-- C10: when the colours are not valid, the data are non-empty, a palette file is supplied
and the selected palette name of the map does not resolve in it, `updateColoring` returns a
map whose colour buffer has the same size and holds `0` in every element, so no colour of an
earlier colouring survives; the colours are marked valid. -/
theorem MapContent.updateColoring_unresolved_palette (nvc : NodeAndVoxelColoring)
    (mc : MapContent) (data : List CFloat) (paletteFile : PaletteFile)
    (mapping : PaletteColorMapping)
    (hv : mc.m_rgbaValid = false) (hd : data ≠ [])
    (hm : mc.m_paletteColorMapping = some mapping)
    (hp : paletteFile.getPaletteByName mapping.getSelectedPaletteName = none) :
    ∃ mc1, mc.updateColoring nvc data (some paletteFile) = some mc1 ∧
      mc1.m_rgba.length = mc.m_rgba.length ∧ (∀ x ∈ mc1.m_rgba, x = 0) ∧
      mc1.m_rgba = List.replicate mc.m_rgba.length 0 := by
  have he := List.isEmpty_eq_false_of_ne_nil data hd
  refine ⟨{ mc with m_rgba := List.replicate mc.m_rgba.length 0, m_rgbaValid := true }, ?_, ?_,
    ?_, rfl⟩
  · simp [MapContent.updateColoring, he, hv, hm, hp]
  · simp
  · intro x hx
    exact (List.mem_replicate.mp hx).2

/-- Witness of C10: the stale buffer `[1, 1, 1, 1]` is zeroed when the palette store holds no
palette of the selected name. -/
theorem MapContent.updateColoring_unresolved_palette_witness :
    ∃ mc1, exampleStaleMap.updateColoring exampleColoring [2] (some emptyPaletteFile) = some mc1 ∧
      mc1.m_rgba.length = exampleStaleMap.m_rgba.length ∧ (∀ x ∈ mc1.m_rgba, x = 0) ∧
      mc1.m_rgba = List.replicate exampleStaleMap.m_rgba.length 0 :=
  MapContent.updateColoring_unresolved_palette exampleColoring exampleStaleMap [2]
    emptyPaletteFile { selectedPaletteName := "ROY-BIG-BL", modified := false }
    (by decide) (by decide) (by decide) (by decide)

/-! ## Properties of `readFile` -/

namespace CiftiMappableDataFile

theorem isCleared_clear (f : CiftiMappableDataFile) : f.clear.isCleared :=
  ⟨rfl, rfl, rfl, rfl, rfl, rfl⟩

theorem observedEmpty_of_isCleared (f : CiftiMappableDataFile) (h : f.isCleared) :
    f.observedEmpty := by
  obtain ⟨-, -, -, hm, hv, hd⟩ := h
  refine ⟨?_, ?_, ?_, ?_⟩
  · simp [getNumberOfMaps, hm]
  · simp [isEmpty, getNumberOfMaps, hm]
  · simp [getDimensions, hd]
  · simp [isVolumeMappable, hv]

theorem openCiftiInterface_clear (env : ReadEnv) (f : CiftiMappableDataFile)
    (filename : String) :
    openCiftiInterface env f.clear filename = openCiftiInterface env f filename := rfl

theorem validationErrors_congr (env : ReadEnv) (f g : CiftiMappableDataFile)
    (facade : CiftiFacade) (xml : CiftiXML) (ht : g.m_dataFileType = f.m_dataFileType)
    (hr : g.m_requiredRowIndexType = f.m_requiredRowIndexType)
    (hc : g.m_requiredColumnIndexType = f.m_requiredColumnIndexType) :
    validationErrors env g facade xml = validationErrors env f facade xml := by
  simp only [validationErrors, checkFileType, checkRowIndexType, checkColumnIndexType,
    fileTypeComplaint, ht, hr, hc]

/-- The outcome of `readFile` when the CIFTI source opens and a validation check fails. -/
theorem readFile_validation_failure (env : ReadEnv) (f : CiftiMappableDataFile)
    (filename : String) (iface : CiftiInterface) (calls : List ExternalCall)
    (ho : openCiftiInterface env f filename = (.ok iface, calls))
    (hv : (validationErrors env f (env.newCiftiFacade f.m_dataFileType iface)
      iface.getCiftiXML).isEmpty = false) :
    f.readFile env filename =
      { raised := some (env.fileNameNoPath filename ++
          validationErrors env f (env.newCiftiFacade f.m_dataFileType iface) iface.getCiftiXML)
        file := (opened env f filename iface).clear
        calls := calls } := by
  have hve := validationErrors_congr env f (opened env f filename iface)
    (env.newCiftiFacade f.m_dataFileType iface) iface.getCiftiXML rfl rfl rfl
  have ht : readFileTry env f.clear filename =
      (some (.DataFileException (env.fileNameNoPath filename ++
          validationErrors env f (env.newCiftiFacade f.m_dataFileType iface) iface.getCiftiXML)),
        (opened env f filename iface).clear, calls) := by
    unfold readFileTry
    rw [openCiftiInterface_clear, ho]
    simp only
    rw [if_pos]
    · rw [← hve]; rfl
    · have : validationErrors env (opened env f filename iface)
          (env.newCiftiFacade f.m_dataFileType iface) iface.getCiftiXML
          = validationErrors env f (env.newCiftiFacade f.m_dataFileType iface)
            iface.getCiftiXML := hve
      show ((validationErrors env (opened env f filename iface)
        (env.newCiftiFacade f.m_dataFileType iface) iface.getCiftiXML).isEmpty == false) = true
      rw [this, hv]; rfl
  unfold readFile
  rw [ht]


end CiftiMappableDataFile

/-! ### Messages -/

theorem isEmpty_eq_false_iff (s : String) : s.isEmpty = false ↔ s.data ≠ [] := by
  rw [← Bool.not_eq_true, String.isEmpty_iff, String.ext_iff]

theorem isEmpty_eq_true_iff (s : String) : s.isEmpty = true ↔ s.data = [] := by
  rw [String.isEmpty_iff, String.ext_iff]

theorem isEmpty_append_left (a b : String) (h : a.isEmpty = false) :
    (a ++ b).isEmpty = false := by
  rw [isEmpty_eq_false_iff] at h ⊢
  simp [h]

theorem isEmpty_append_right (a b : String) (h : b.isEmpty = false) :
    (a ++ b).isEmpty = false := by
  rw [isEmpty_eq_false_iff] at h ⊢
  simp [h]

theorem appendWithNewLine_isEmpty_right (s t : String) (h : t.isEmpty = false) :
    (appendWithNewLine s t).isEmpty = false := by
  unfold appendWithNewLine
  split
  · exact h
  · exact isEmpty_append_right _ _ h

theorem appendWithNewLine_isEmpty_left (s t : String) (h : s.isEmpty = false) :
    (appendWithNewLine s t).isEmpty = false := by
  unfold appendWithNewLine
  rw [h]
  simp only [Bool.false_eq_true, if_false]
  exact isEmpty_append_left _ _ (isEmpty_append_left _ _ h)

theorem containsText_append_left (p s c : String) (h : containsText s c) :
    containsText (p ++ s) c := by
  unfold containsText at h ⊢
  rw [String.data_append]
  exact h.trans (List.suffix_append _ _).isInfix

theorem containsText_appendWithNewLine_right (s t : String) :
    containsText (appendWithNewLine s t) t := by
  unfold appendWithNewLine containsText
  split
  · exact List.infix_refl _
  · rw [String.data_append]
    exact (List.suffix_append _ _).isInfix

theorem containsText_appendWithNewLine_left (s t c : String) (h : containsText s c) :
    containsText (appendWithNewLine s t) c := by
  unfold appendWithNewLine containsText at *
  split
  · rename_i he
    rw [isEmpty_eq_true_iff] at he
    rw [he] at h
    rw [List.eq_nil_of_infix_nil h]
    exact List.nil_infix
  · rw [String.data_append, String.data_append, List.append_assoc]
    exact h.trans (List.prefix_append _ _).isInfix

theorem fileTypeComplaint_isEmpty (env : ReadEnv) (f : CiftiMappableDataFile) :
    (fileTypeComplaint env f).isEmpty = false :=
  isEmpty_append_left _ _ (isEmpty_append_left _ _ (by decide))

theorem rowComplaint_isEmpty (r a : IndicesMapToDataType) : (rowComplaint r a).isEmpty = false :=
  isEmpty_append_left _ _ (isEmpty_append_left _ _ (isEmpty_append_left _ _ (by decide)))

theorem columnComplaint_isEmpty (r a : IndicesMapToDataType) :
    (columnComplaint r a).isEmpty = false :=
  isEmpty_append_left _ _ (isEmpty_append_left _ _ (isEmpty_append_left _ _ (by decide)))

theorem coloringComplaint_isEmpty : coloringComplaint.isEmpty = false := by decide

/-! ### The four checks keep what was collected -/

theorem checkFileType_keeps (env : ReadEnv) (f : CiftiMappableDataFile) (facade : CiftiFacade)
    (e c : String) (h : containsText e c) : containsText (checkFileType env f facade e) c := by
  unfold checkFileType
  split
  · exact containsText_appendWithNewLine_left _ _ _ h
  · exact h

theorem checkRowIndexType_keeps (f : CiftiMappableDataFile) (xml : CiftiXML) (e c : String)
    (h : containsText e c) : containsText (checkRowIndexType f xml e) c := by
  unfold checkRowIndexType
  split
  · exact containsText_appendWithNewLine_left _ _ _ h
  · exact h

theorem checkColumnIndexType_keeps (f : CiftiMappableDataFile) (xml : CiftiXML) (e c : String)
    (h : containsText e c) : containsText (checkColumnIndexType f xml e) c := by
  unfold checkColumnIndexType
  split
  · exact containsText_appendWithNewLine_left _ _ _ h
  · exact h

theorem checkColoring_keeps (facade : CiftiFacade) (e c : String) (h : containsText e c) :
    containsText (checkColoring facade e) c := by
  unfold checkColoring
  split
  · exact h
  · split
    · exact h
    · exact containsText_appendWithNewLine_left _ _ _ h

theorem checkRowIndexType_nonempty (f : CiftiMappableDataFile) (xml : CiftiXML) (e : String)
    (h : e.isEmpty = false) : (checkRowIndexType f xml e).isEmpty = false := by
  unfold checkRowIndexType
  split
  · exact appendWithNewLine_isEmpty_left _ _ h
  · exact h

theorem checkColumnIndexType_nonempty (f : CiftiMappableDataFile) (xml : CiftiXML) (e : String)
    (h : e.isEmpty = false) : (checkColumnIndexType f xml e).isEmpty = false := by
  unfold checkColumnIndexType
  split
  · exact appendWithNewLine_isEmpty_left _ _ h
  · exact h

theorem checkColoring_nonempty (facade : CiftiFacade) (e : String) (h : e.isEmpty = false) :
    (checkColoring facade e).isEmpty = false := by
  unfold checkColoring
  split
  · exact h
  · split
    · exact h
    · exact appendWithNewLine_isEmpty_left _ _ h

/-- What the four checks of `readFile` collect: the complaint of every check that fails is in
the error message, and the message is not empty as soon as one check fails. -/
theorem validationErrors_collects (env : ReadEnv) (f : CiftiMappableDataFile)
    (facade : CiftiFacade) (xml : CiftiXML) :
    (facade.isValidCiftiFile = false →
      containsText (validationErrors env f facade xml) (fileTypeComplaint env f) ∧
      (validationErrors env f facade xml).isEmpty = false) ∧
    (f.m_requiredRowIndexType ≠ xml.mappingTypeAlongRow →
      containsText (validationErrors env f facade xml)
        (rowComplaint f.m_requiredRowIndexType xml.mappingTypeAlongRow) ∧
      (validationErrors env f facade xml).isEmpty = false) ∧
    (f.m_requiredColumnIndexType ≠ xml.mappingTypeAlongColumn →
      containsText (validationErrors env f facade xml)
        (columnComplaint f.m_requiredColumnIndexType xml.mappingTypeAlongColumn) ∧
      (validationErrors env f facade xml).isEmpty = false) ∧
    (facade.isBrainordinateDataColoredWithLabelTable = false →
      facade.isBrainordinateDataColoredWithPalette = false →
      containsText (validationErrors env f facade xml) coloringComplaint ∧
      (validationErrors env f facade xml).isEmpty = false) := by
  unfold validationErrors
  refine ⟨?_, ?_, ?_, ?_⟩
  · intro h
    have h1 : checkFileType env f facade "" = appendWithNewLine "" (fileTypeComplaint env f) := by
      simp [checkFileType, h]
    refine ⟨?_, ?_⟩
    · apply checkColoring_keeps; apply checkColumnIndexType_keeps
      apply checkRowIndexType_keeps
      rw [h1]; exact containsText_appendWithNewLine_right _ _
    · apply checkColoring_nonempty; apply checkColumnIndexType_nonempty
      apply checkRowIndexType_nonempty
      rw [h1]; exact appendWithNewLine_isEmpty_right _ _ (fileTypeComplaint_isEmpty env f)
  · intro h
    have h1 : ∀ e, checkRowIndexType f xml e = appendWithNewLine e
        (rowComplaint f.m_requiredRowIndexType xml.mappingTypeAlongRow) := by
      intro e; simp [checkRowIndexType, h]
    refine ⟨?_, ?_⟩
    · apply checkColoring_keeps; apply checkColumnIndexType_keeps
      rw [h1]; exact containsText_appendWithNewLine_right _ _
    · apply checkColoring_nonempty; apply checkColumnIndexType_nonempty
      rw [h1]; exact appendWithNewLine_isEmpty_right _ _ (rowComplaint_isEmpty _ _)
  · intro h
    have h1 : ∀ e, checkColumnIndexType f xml e = appendWithNewLine e
        (columnComplaint f.m_requiredColumnIndexType xml.mappingTypeAlongColumn) := by
      intro e; simp [checkColumnIndexType, h]
    refine ⟨?_, ?_⟩
    · apply checkColoring_keeps
      rw [h1]; exact containsText_appendWithNewLine_right _ _
    · apply checkColoring_nonempty
      rw [h1]; exact appendWithNewLine_isEmpty_right _ _ (columnComplaint_isEmpty _ _)
  · intro hl hp
    have h1 : ∀ e, checkColoring facade e = appendWithNewLine e coloringComplaint := by
      intro e; simp [checkColoring, hl, hp]
    refine ⟨?_, ?_⟩
    · rw [h1]; exact containsText_appendWithNewLine_right _ _
    · rw [h1]; exact appendWithNewLine_isEmpty_right _ _ coloringComplaint_isEmpty

/-! ### The claims on `readFile` -/

namespace CiftiMappableDataFile

set_option maxRecDepth 100000 in
/-- Counterexample to C2 as stated: a remote parcellated series file, whose row and column
index types both differ from those a dense scalar file object requires. Read with the
load-all policy it raises both complaints; read as needed it is rejected before it is fetched
or opened: the exception carries the network message, and no message with the row complaint
and the column complaint is raised. -/
theorem readFile_mismatch_remote_as_needed :
    exampleFileAsNeeded.m_requiredRowIndexType ≠ exampleSeriesXML.mappingTypeAlongRow ∧
    exampleFileAsNeeded.m_requiredColumnIndexType ≠ exampleSeriesXML.mappingTypeAlongColumn ∧
    (exampleFile.readFile exampleEnv "https://host/rest.ptseries.nii").raised
      = some ("https://host/rest.ptseries.nii"
          ++ "Row Index Type should be CIFTI_INDEX_TYPE_SCALARS but is CIFTI_INDEX_TYPE_TIME_POINTS"
          ++ "\n"
          ++ "Column Index Type should be CIFTI_INDEX_TYPE_BRAIN_MODELS but is CIFTI_INDEX_TYPE_PARCELS")
      ∧
    (exampleFileAsNeeded.readFile exampleEnv "https://host/rest.ptseries.nii").raised
      = some ("https://host/rest.ptseries.nii of type Connectivity - Dense Scalar cannot be read"
          ++ " over the network.  The file must be accessed by reading individual rows and/or"
          ++ " columns and this cannot be performed over a network.") ∧
    ¬ ∃ msg : String,
      (exampleFileAsNeeded.readFile exampleEnv "https://host/rest.ptseries.nii").raised
        = some msg ∧
      containsText msg
        "Row Index Type should be CIFTI_INDEX_TYPE_SCALARS but is CIFTI_INDEX_TYPE_TIME_POINTS" ∧
      containsText msg
        "Column Index Type should be CIFTI_INDEX_TYPE_BRAIN_MODELS but is CIFTI_INDEX_TYPE_PARCELS"
    := by
  have hraised :
      (exampleFileAsNeeded.readFile exampleEnv "https://host/rest.ptseries.nii").raised
        = some ("https://host/rest.ptseries.nii of type Connectivity - Dense Scalar cannot be read"
          ++ " over the network.  The file must be accessed by reading individual rows and/or"
          ++ " columns and this cannot be performed over a network.") := by decide
  refine ⟨by decide, by decide, by decide, hraised, ?_⟩
  rintro ⟨msg, h, hr, -⟩
  rw [hraised] at h
  cases h
  revert hr
  decide

/-- C2 (amended): for every file that `readFile` gets to open (the CIFTI source is fetched and
opened) whose row index type and column index type both differ from the required ones,
`readFile` raises one `DataFileException` whose message contains the row complaint and the
column complaint, and afterwards `getNumberOfMaps() == 0`. -/
theorem readFile_row_and_column_mismatch (env : ReadEnv) (f : CiftiMappableDataFile)
    (filename : String) (iface : CiftiInterface) (calls : List ExternalCall)
    (ho : openCiftiInterface env f filename = (.ok iface, calls))
    (hr : f.m_requiredRowIndexType ≠ iface.getCiftiXML.mappingTypeAlongRow)
    (hc : f.m_requiredColumnIndexType ≠ iface.getCiftiXML.mappingTypeAlongColumn) :
    ∃ msg : String, (f.readFile env filename).raised = some msg ∧
      containsText msg
        ("Row Index Type should be " ++ ciftiIndexTypeToName f.m_requiredRowIndexType
          ++ " but is " ++ ciftiIndexTypeToName iface.getCiftiXML.mappingTypeAlongRow) ∧
      containsText msg
        ("Column Index Type should be " ++ ciftiIndexTypeToName f.m_requiredColumnIndexType
          ++ " but is " ++ ciftiIndexTypeToName iface.getCiftiXML.mappingTypeAlongColumn) ∧
      (f.readFile env filename).file.getNumberOfMaps = 0 := by
  obtain ⟨-, hrow, hcol, -⟩ := validationErrors_collects env f
    (env.newCiftiFacade f.m_dataFileType iface) iface.getCiftiXML
  rw [readFile_validation_failure env f filename iface calls ho (hrow hr).2]
  exact ⟨_, rfl, containsText_append_left _ _ _ (hrow hr).1,
    containsText_append_left _ _ _ (hcol hc).1, rfl⟩

set_option maxRecDepth 100000 in
/-- Witness of C2 (amended): a parcellated series file read into a dense scalar file
object. -/
theorem readFile_row_and_column_mismatch_witness :
    ∃ msg : String, (exampleFile.readFile exampleEnv "series.ptseries.nii").raised = some msg ∧
      containsText msg
        "Row Index Type should be CIFTI_INDEX_TYPE_SCALARS but is CIFTI_INDEX_TYPE_TIME_POINTS" ∧
      containsText msg
        "Column Index Type should be CIFTI_INDEX_TYPE_BRAIN_MODELS but is CIFTI_INDEX_TYPE_PARCELS"
      ∧ (exampleFile.readFile exampleEnv "series.ptseries.nii").file.getNumberOfMaps = 0 :=
  readFile_row_and_column_mismatch exampleEnv exampleFile "series.ptseries.nii"
    (.ciftiFile "series.ptseries.nii" .IN_MEMORY exampleSeriesXML)
    [.ciftiFileOpen "series.ptseries.nii" .IN_MEMORY] (by rfl) (by decide) (by decide)


set_option maxRecDepth 100000 in
/-- Counterexample to C3 as stated: a remote parcellated series file read as needed into a
dense scalar file object. The exception carries the network complaint alone and no source is
fetched or opened, so the row and column checks never run and their complaints are missing
from the message, although the same file read with the load-all policy fails both checks. -/
theorem readFile_network_rejection_is_alone :
    (exampleFileAsNeeded.readFile exampleEnv "http://db/series.ptseries.nii").raised
      = some ("http://db/series.ptseries.nii of type Connectivity - Dense Scalar cannot be read"
          ++ " over the network.  The file must be accessed by reading individual rows and/or"
          ++ " columns and this cannot be performed over a network.") ∧
    (exampleFileAsNeeded.readFile exampleEnv "http://db/series.ptseries.nii").calls = [] ∧
    ¬ containsText
      ("http://db/series.ptseries.nii of type Connectivity - Dense Scalar cannot be read"
          ++ " over the network.  The file must be accessed by reading individual rows and/or"
          ++ " columns and this cannot be performed over a network.")
      "Row Index Type should be CIFTI_INDEX_TYPE_SCALARS but is CIFTI_INDEX_TYPE_TIME_POINTS" ∧
    ¬ containsText
      ("http://db/series.ptseries.nii of type Connectivity - Dense Scalar cannot be read"
          ++ " over the network.  The file must be accessed by reading individual rows and/or"
          ++ " columns and this cannot be performed over a network.")
      "Column Index Type should be CIFTI_INDEX_TYPE_BRAIN_MODELS but is CIFTI_INDEX_TYPE_PARCELS" ∧
    (exampleFile.readFile exampleEnv "http://db/series.ptseries.nii").raised
      = some ("http://db/series.ptseries.nii"
          ++ "Row Index Type should be CIFTI_INDEX_TYPE_SCALARS but is CIFTI_INDEX_TYPE_TIME_POINTS"
          ++ "\n"
          ++ "Column Index Type should be CIFTI_INDEX_TYPE_BRAIN_MODELS but is CIFTI_INDEX_TYPE_PARCELS")
    := by
  refine ⟨by decide, by decide, by decide, by decide, by decide⟩

/-- C3 (amended): `readFile` never stops at the first error among the four checks it makes
on an opened source (file type supported, row index type, column index type, colouring by
label table or palette): when at least one of them fails, one `DataFileException` is raised
whose message contains the complaint of every failing check, and the file is left empty. The
network incompatibility of a remote read-as-needed file is not collected with them: it is
raised at once with its own message, before any source is fetched or opened. -/
theorem readFile_collects_all_complaints (env : ReadEnv) (f : CiftiMappableDataFile)
    (filename : String) :
    (∀ (iface : CiftiInterface) (calls : List ExternalCall),
      openCiftiInterface env f filename = (.ok iface, calls) →
      ((env.newCiftiFacade f.m_dataFileType iface).isValidCiftiFile = false ∨
        f.m_requiredRowIndexType ≠ iface.getCiftiXML.mappingTypeAlongRow ∨
        f.m_requiredColumnIndexType ≠ iface.getCiftiXML.mappingTypeAlongColumn ∨
        ((env.newCiftiFacade f.m_dataFileType iface).isBrainordinateDataColoredWithLabelTable
            = false ∧
          (env.newCiftiFacade f.m_dataFileType iface).isBrainordinateDataColoredWithPalette
            = false)) →
      ∃ msg : String, (f.readFile env filename).raised = some msg ∧
        ((env.newCiftiFacade f.m_dataFileType iface).isValidCiftiFile = false →
          containsText msg ("Support for " ++ env.toName f.m_dataFileType
            ++ " needs to be implemented or is invalid type.")) ∧
        (f.m_requiredRowIndexType ≠ iface.getCiftiXML.mappingTypeAlongRow →
          containsText msg
            ("Row Index Type should be " ++ ciftiIndexTypeToName f.m_requiredRowIndexType
              ++ " but is " ++ ciftiIndexTypeToName iface.getCiftiXML.mappingTypeAlongRow)) ∧
        (f.m_requiredColumnIndexType ≠ iface.getCiftiXML.mappingTypeAlongColumn →
          containsText msg
            ("Column Index Type should be " ++ ciftiIndexTypeToName f.m_requiredColumnIndexType
              ++ " but is " ++ ciftiIndexTypeToName iface.getCiftiXML.mappingTypeAlongColumn)) ∧
        ((env.newCiftiFacade f.m_dataFileType iface).isBrainordinateDataColoredWithLabelTable
            = false →
          (env.newCiftiFacade f.m_dataFileType iface).isBrainordinateDataColoredWithPalette
            = false →
          containsText msg "Data is neither color with label table nor palette.") ∧
        (f.readFile env filename).file.observedEmpty) ∧
    (env.isFileOnNetwork filename = true → env.isValidFileExtension filename = true →
      f.m_fileReading = .FILE_READ_DATA_AS_NEEDED →
      (f.readFile env filename).raised = some (networkMessage env f filename) ∧
      (f.readFile env filename).calls = []) := by
  constructor
  · intro iface calls ho hfail
    obtain ⟨htype, hrow, hcol, hcolor⟩ := validationErrors_collects env f
      (env.newCiftiFacade f.m_dataFileType iface) iface.getCiftiXML
    have hne : (validationErrors env f (env.newCiftiFacade f.m_dataFileType iface)
        iface.getCiftiXML).isEmpty = false := by
      rcases hfail with h | h | h | ⟨h1, h2⟩
      · exact (htype h).2
      · exact (hrow h).2
      · exact (hcol h).2
      · exact (hcolor h1 h2).2
    rw [readFile_validation_failure env f filename iface calls ho hne]
    refine ⟨_, rfl, ?_, ?_, ?_, ?_, ?_⟩
    · exact fun h => containsText_append_left _ _ _ (htype h).1
    · exact fun h => containsText_append_left _ _ _ (hrow h).1
    · exact fun h => containsText_append_left _ _ _ (hcol h).1
    · exact fun h1 h2 => containsText_append_left _ _ _ (hcolor h1 h2).1
    · exact observedEmpty_of_isCleared _ (isCleared_clear _)
  · intro hn hx hp
    have ho : openCiftiInterface env f.clear filename
        = (.error (.DataFileException (networkMessage env f filename)), []) := by
      rw [openCiftiInterface_clear]
      simp only [openCiftiInterface, hn, hx, hp, if_true]
    have ht : readFileTry env f.clear filename
        = (some (.DataFileException (networkMessage env f filename)), f.clear, []) := by
      unfold readFileTry
      rw [ho]
    unfold readFile
    rw [ht]
    exact ⟨rfl, rfl⟩

set_option maxRecDepth 100000 in
/-- Witness of C3 (amended): a parcellated series file read into a dense scalar file object
fails the row check and the column check; the message holds both complaints. -/
theorem readFile_collects_all_complaints_witness :
    ∃ msg : String, (exampleFile.readFile exampleEnv "series.ptseries.nii").raised = some msg ∧
      containsText msg
        "Row Index Type should be CIFTI_INDEX_TYPE_SCALARS but is CIFTI_INDEX_TYPE_TIME_POINTS" ∧
      containsText msg
        "Column Index Type should be CIFTI_INDEX_TYPE_BRAIN_MODELS but is CIFTI_INDEX_TYPE_PARCELS"
      := by
  obtain ⟨msg, hm, -, hrow, hcol, -, -⟩ :=
    (readFile_collects_all_complaints exampleEnv exampleFile "series.ptseries.nii").1
      (.ciftiFile "series.ptseries.nii" .IN_MEMORY exampleSeriesXML)
      [.ciftiFileOpen "series.ptseries.nii" .IN_MEMORY] (by rfl) (Or.inr (Or.inl (by decide)))
  exact ⟨msg, hm, hrow (by decide), hcol (by decide)⟩


/-- The calls made by the `try` block are those made while opening the interface. -/
theorem readFileTry_calls (env : ReadEnv) (g : CiftiMappableDataFile) (filename : String) :
    (readFileTry env g filename).2.2 = (openCiftiInterface env g filename).2 := by
  unfold readFileTry
  rcases openCiftiInterface env g filename with ⟨_ | iface, calls⟩
  · rfl
  · dsimp only
    split <;> rfl

/-- The calls made by `readFile` are those made by its `try` block. -/
theorem readFile_calls (env : ReadEnv) (f : CiftiMappableDataFile) (filename : String) :
    (f.readFile env filename).calls = (readFileTry env f.clear filename).2.2 := by
  unfold readFile
  rcases readFileTry env f.clear filename with ⟨_ | e, g1, calls⟩
  · rfl
  · cases e <;> rfl

set_option maxRecDepth 100000 in
/-- Counterexample to C4 as stated: a remote name without a valid file extension is taken to
be an XNAT address; a file object whose policy is read-as-needed opens it through `CiftiXnat`
and `readFile` returns without raising, with both maps loaded. -/
theorem readFile_xnat_read_as_needed_opens :
    exampleEnv.isFileOnNetwork "http://db/search?id=7" = true ∧
    exampleFileAsNeeded.m_fileReading = .FILE_READ_DATA_AS_NEEDED ∧
    (exampleFileAsNeeded.readFile exampleEnv "http://db/search?id=7").raised = none ∧
    (exampleFileAsNeeded.readFile exampleEnv "http://db/search?id=7").calls
      = [.xnatSetAuthentication "http://db/search?id=7" "" "",
          .xnatOpenURL "http://db/search?id=7"] ∧
    (exampleFileAsNeeded.readFile exampleEnv "http://db/search?id=7").file.getNumberOfMaps = 2 := by
  refine ⟨by decide, by decide, by decide, by decide, by decide⟩

/-- C4 (amended): for every remote filename with a valid data file extension, `readFile` on a
file whose policy is read-as-needed raises a `DataFileException` (the network message) before
any source is fetched or opened, and the file is left empty. A remote filename without a valid
extension is taken to be an XNAT address and `CiftiXnat::openURL` is called on it whatever the
policy. -/
theorem readFile_remote_read_as_needed (env : ReadEnv) (f : CiftiMappableDataFile)
    (filename : String) (hn : env.isFileOnNetwork filename = true) :
    (env.isValidFileExtension filename = true →
      f.m_fileReading = .FILE_READ_DATA_AS_NEEDED →
      (f.readFile env filename).raised = some (networkMessage env f filename) ∧
      (f.readFile env filename).calls = [] ∧
      (f.readFile env filename).file.observedEmpty ∧
      (f.readFile env filename).file.isCleared) ∧
    (env.isValidFileExtension filename = false →
      ExternalCall.xnatOpenURL (env.remoteUrlUsernameAndPassword filename).1
        ∈ (f.readFile env filename).calls) := by
  constructor
  · intro hx hp
    have ho : openCiftiInterface env f.clear filename
        = (.error (.DataFileException (networkMessage env f filename)), []) := by
      rw [openCiftiInterface_clear]
      simp only [openCiftiInterface, hn, hx, hp, if_true]
    have ht : readFileTry env f.clear filename
        = (some (.DataFileException (networkMessage env f filename)), f.clear, []) := by
      unfold readFileTry
      rw [ho]
    unfold readFile
    rw [ht]
    exact ⟨rfl, rfl, observedEmpty_of_isCleared _ (isCleared_clear f), isCleared_clear f⟩
  · intro hx
    have hcalls : ∀ r, (openCiftiInterface env f.clear filename).2 = r →
        ExternalCall.xnatOpenURL (env.remoteUrlUsernameAndPassword filename).1 ∈ r := by
      intro r hr
      rw [← hr, openCiftiInterface_clear]
      simp only [openCiftiInterface, hn, hx, if_true, Bool.false_eq_true, if_false]
      split <;> simp
    rw [readFile_calls, readFileTry_calls]
    exact hcalls _ rfl

set_option maxRecDepth 100000 in
/-- Witness of C4 (amended): the remote file `http://db/series.ptseries.nii` read as needed. -/
theorem readFile_remote_read_as_needed_witness :
    exampleEnv.isFileOnNetwork "http://db/series.ptseries.nii" = true ∧
    (exampleFileAsNeeded.readFile exampleEnv "http://db/series.ptseries.nii").calls = [] ∧
    (exampleFileAsNeeded.readFile exampleEnv "http://db/series.ptseries.nii").file.observedEmpty :=
  ⟨by decide,
    ((readFile_remote_read_as_needed exampleEnv exampleFileAsNeeded
      "http://db/series.ptseries.nii" (by decide)).1 (by decide) (by decide)).2.1,
    ((readFile_remote_read_as_needed exampleEnv exampleFileAsNeeded
      "http://db/series.ptseries.nii" (by decide)).1 (by decide) (by decide)).2.2.1⟩

end CiftiMappableDataFile

theorem MapContent.isModifiedStatus_clearModifiedStatus (mc : MapContent) :
    mc.clearModifiedStatus.isModifiedStatus = false := by
  unfold MapContent.isModifiedStatus MapContent.clearModifiedStatus
  cases mc.m_labelTable <;> cases mc.m_paletteColorMapping <;>
    simp [GiftiLabelTable.isModified, GiftiLabelTable.clearModified, GiftiMetaData.isModified,
      GiftiMetaData.clearModified, PaletteColorMapping.isModified,
      PaletteColorMapping.clearModified]

namespace CiftiMappableDataFile

theorem isModified_clearModified (f : CiftiMappableDataFile) :
    f.clearModified.isModified = false := by
  simp [isModified, clearModified, GiftiMetaData.isModified, GiftiMetaData.clearModified,
    MapContent.isModifiedStatus_clearModifiedStatus]

/-- The maps, the indexer and the interface left by the part of `readFile` that follows a
successful validation. -/
theorem populate_fields (env : ReadEnv) (g : CiftiMappableDataFile) (iface : CiftiInterface)
    (facade : CiftiFacade) :
    (populate env g iface facade).m_mapContent
      = (g.m_mapContent ++ (List.range facade.getNumberOfMaps).map (MapContent.new facade)).map
          MapContent.clearModifiedStatus ∧
    (populate env g iface facade).m_voxelIndicesToOffset
      = some { isValid := env.sparseVolumeIndexerIsValid iface
                 facade.getVolumeMapForMappingDataToBrainordinates
               voxelMapping := facade.getVolumeMapForMappingDataToBrainordinates } ∧
    (populate env g iface facade).m_ciftiInterface = g.m_ciftiInterface ∧
    (populate env g iface facade).m_ciftiFacade = g.m_ciftiFacade ∧
    (populate env g iface facade).isModified = false := by
  refine ⟨?_, ?_, ?_, ?_, isModified_clearModified _⟩ <;>
  · unfold populate
    dsimp only [clearModified]
    split
    · split <;> rfl
    · rfl

/-- A call of `readFile` that returns has opened an interface and has run the populating part
on it. -/
theorem readFile_returns (env : ReadEnv) (f : CiftiMappableDataFile) (filename : String)
    (h : (f.readFile env filename).raised = none) :
    ∃ (iface : CiftiInterface) (calls : List ExternalCall),
      openCiftiInterface env f filename = (.ok iface, calls) ∧
      (f.readFile env filename).file =
        { populate env (opened env f filename iface) iface
            (env.newCiftiFacade f.m_dataFileType iface) with
          m_classNameHierarchy := { updated := true, allSelected := true }
          m_forceUpdateOfGroupAndNameHierarchy := false } := by
  unfold readFile at h ⊢
  rcases hrt : readFileTry env f.clear filename with ⟨_ | e, g1, calls⟩
  · unfold readFileTry at hrt
    rw [openCiftiInterface_clear] at hrt
    rcases hoi : openCiftiInterface env f filename with ⟨_ | iface, calls1⟩
    · rw [hoi] at hrt
      simp at hrt
    · rw [hoi] at hrt
      dsimp only at hrt
      split at hrt
      · simp at hrt
      · simp only [Prod.mk.injEq, true_and] at hrt
        refine ⟨iface, calls1, rfl, ?_⟩
        simp only [validateAfterFileReading]
        rw [← hrt.1]
        rfl
  · rw [hrt] at h
    cases e <;> simp at h

/-- C5: after every `readFile` that returns without raising, `getNumberOfMaps()` equals the
number of maps reported by the CIFTI facade, the maps are the `MapContent` objects constructed
for the map indices `0 .. n-1` in that order (with their modification status cleared), the
voxel indexer has been built and `isModified()` is false. -/
theorem readFile_success (env : ReadEnv) (f : CiftiMappableDataFile) (filename : String)
    (h : (f.readFile env filename).raised = none) :
    ∃ (iface : CiftiInterface) (facade : CiftiFacade),
      (f.readFile env filename).file.m_ciftiInterface = some iface ∧
      (f.readFile env filename).file.m_ciftiFacade = some facade ∧
      facade = env.newCiftiFacade f.m_dataFileType iface ∧
      (f.readFile env filename).file.getNumberOfMaps = facade.getNumberOfMaps ∧
      (f.readFile env filename).file.m_mapContent
        = (List.range facade.getNumberOfMaps).map
            (fun i => (MapContent.new facade i).clearModifiedStatus) ∧
      (f.readFile env filename).file.m_voxelIndicesToOffset ≠ none ∧
      (f.readFile env filename).file.isModified = false := by
  obtain ⟨iface, calls, -, hfile⟩ := readFile_returns env f filename h
  obtain ⟨hmaps, hidx, hif, hfa, hmod⟩ :=
    populate_fields env (opened env f filename iface) iface
      (env.newCiftiFacade f.m_dataFileType iface)
  have hmaps2 : (f.readFile env filename).file.m_mapContent
      = (List.range (env.newCiftiFacade f.m_dataFileType iface).getNumberOfMaps).map
          (fun i => (MapContent.new (env.newCiftiFacade f.m_dataFileType iface)
            i).clearModifiedStatus) := by
    rw [hfile]
    show (populate env (opened env f filename iface) iface
      (env.newCiftiFacade f.m_dataFileType iface)).m_mapContent = _
    rw [hmaps]
    simp [opened, clear, clearPrivate, List.map_map, Function.comp_def]
  refine ⟨iface, env.newCiftiFacade f.m_dataFileType iface, ?_, ?_, rfl, ?_, hmaps2, ?_, ?_⟩
  · rw [hfile]
    show (populate env (opened env f filename iface) iface
      (env.newCiftiFacade f.m_dataFileType iface)).m_ciftiInterface = _
    rw [hif]; rfl
  · rw [hfile]
    show (populate env (opened env f filename iface) iface
      (env.newCiftiFacade f.m_dataFileType iface)).m_ciftiFacade = _
    rw [hfa]; rfl
  · simp [getNumberOfMaps, hmaps2]
  · rw [hfile]
    show (populate env (opened env f filename iface) iface
      (env.newCiftiFacade f.m_dataFileType iface)).m_voxelIndicesToOffset ≠ none
    rw [hidx]; simp
  · rw [hfile]
    have : ∀ g : CiftiMappableDataFile, g.isModified = false →
        ({ g with m_classNameHierarchy := { updated := true, allSelected := true }
                  m_forceUpdateOfGroupAndNameHierarchy := false } :
          CiftiMappableDataFile).isModified = false := fun g hg => hg
    exact this _ hmod

set_option maxRecDepth 100000 in
/-- Witness of C5: `brain.dscalar.nii`, for which the facade reports two maps. -/
theorem readFile_success_witness :
    (exampleFile.readFile exampleEnv "brain.dscalar.nii").raised = none ∧
    (exampleFile.readFile exampleEnv "brain.dscalar.nii").file.getNumberOfMaps = 2 ∧
    (exampleFile.readFile exampleEnv "brain.dscalar.nii").file.isModified = false := by
  obtain ⟨iface, facade, -, -, hf, hn, -, -, hm⟩ :=
    readFile_success exampleEnv exampleFile "brain.dscalar.nii" (by decide)
  refine ⟨by decide, ?_, hm⟩
  rw [hn, hf]
  rfl

end CiftiMappableDataFile

/-! ## Properties of the queries -/

namespace CiftiMappableDataFile

/-- Every map that `readFile` has just built has a `NULL` descriptive statistics pointer. -/
theorem readFile_maps_without_descriptiveStatistics (env : ReadEnv)
    (f : CiftiMappableDataFile) (filename : String) (mapIndex : Nat) (mc : MapContent)
    (h : (f.readFile env filename).raised = none)
    (hmc : (f.readFile env filename).file.m_mapContent[mapIndex]? = some mc) :
    mc.m_descriptiveStatistics = none := by
  obtain ⟨iface, calls, -, hfile⟩ := readFile_returns env f filename h
  obtain ⟨hmaps, -⟩ := populate_fields env (opened env f filename iface) iface
    (env.newCiftiFacade f.m_dataFileType iface)
  have hm : (f.readFile env filename).file.m_mapContent
      = (List.range (env.newCiftiFacade f.m_dataFileType iface).getNumberOfMaps).map
          (fun i => (MapContent.new (env.newCiftiFacade f.m_dataFileType iface)
            i).clearModifiedStatus) := by
    rw [hfile]
    show (populate env (opened env f filename iface) iface
      (env.newCiftiFacade f.m_dataFileType iface)).m_mapContent = _
    rw [hmaps]
    simp [opened, clear, clearPrivate, List.map_map, Function.comp_def]
  rw [hm] at hmc
  have hmem := List.getElem?_mem hmc
  simp only [List.mem_map, List.mem_range] at hmem
  obtain ⟨i, -, rfl⟩ := hmem
  rfl

/-- C11 (what the code does): on every file that `readFile` has just read, `getMapStatistics`
and its ranged overload have no result for any map index, because the constructor of
`MapContent` allocates the fast statistics and the histogram but leaves the descriptive
statistics pointer `NULL`, which both methods dereference. For empty map data
`getMapFastStatistics`, `getMapHistogram` and the ranged `getMapHistogram` do update their
cached object with a count of 0: the returned object holds no value, whatever was cached. -/
theorem getMapStatistics_after_readFile (env : ReadEnv) (f : CiftiMappableDataFile)
    (filename : String) (mapIndex : Nat)
    (h : (f.readFile env filename).raised = none) :
    (f.readFile env filename).file.getMapStatistics mapIndex = none ∧
    (∀ (mostPositive leastPositive leastNegative mostNegative : CFloat) (includeZero : Bool),
      (f.readFile env filename).file.getMapStatisticsRanged mapIndex mostPositive leastPositive
        leastNegative mostNegative includeZero = none) ∧
    (∀ (g : CiftiMappableDataFile) (facade : CiftiFacade) (mc : MapContent),
      g.m_ciftiFacade = some facade → facade.getDataForMapOrSeriesIndex mapIndex = [] →
      g.m_mapContent[mapIndex]? = some mc →
      (g.getMapFastStatistics mapIndex).map Prod.fst = some { values := [] } ∧
      (g.getMapHistogram mapIndex).map Prod.fst = some { values := [] } ∧
      ∀ (mostPositive leastPositive leastNegative mostNegative : CFloat) (includeZero : Bool),
        (g.getMapHistogramRanged mapIndex mostPositive leastPositive leastNegative mostNegative
          includeZero).map Prod.fst = some { values := [] }) := by
  have hnull := readFile_maps_without_descriptiveStatistics env f filename mapIndex
  refine ⟨?_, ?_, ?_⟩
  · unfold getMapStatistics
    cases hd : (f.readFile env filename).file.getMapData mapIndex with
    | none => rfl
    | some data =>
      cases hmc : (f.readFile env filename).file.m_mapContent[mapIndex]? with
      | none => rfl
      | some mc => simp only [hnull mc h hmc]
  · intro a b c d z
    unfold getMapStatisticsRanged
    cases hd : (f.readFile env filename).file.getMapData mapIndex with
    | none => rfl
    | some data =>
      cases hmc : (f.readFile env filename).file.m_mapContent[mapIndex]? with
      | none => rfl
      | some mc => simp only [hnull mc h hmc]
  · intro g facade mc hf hd hmc
    have hdata : g.getMapData mapIndex = some [] := by simp [getMapData, hf, hd]
    refine ⟨?_, ?_, ?_⟩
    · simp [getMapFastStatistics, hdata, hmc, FastStatistics.update]
    · simp [getMapHistogram, hdata, hmc, Histogram.update]
    · intro a b c d z
      simp [getMapHistogramRanged, hdata, hmc, Histogram.update]

set_option maxRecDepth 100000 in
/-- Witness of C11: the file without loaded rows; `getMapStatistics(0)` has no result, while
the fast statistics of the empty data are the empty object. -/
theorem getMapStatistics_after_readFile_witness :
    (exampleFile.readFile exampleNoRowsEnv "brain.dscalar.nii").raised = none ∧
    exampleNoRowsFile.getMapData 0 = some [] ∧
    (exampleNoRowsFile.getMapStatistics 0).map Prod.fst = none ∧
    (exampleNoRowsFile.getMapFastStatistics 0).map Prod.fst = some { values := [] } :=
  ⟨by decide, by decide,
    by
      have h := (getMapStatistics_after_readFile exampleNoRowsEnv exampleFile
        "brain.dscalar.nii" 0 (by decide)).1
      show Option.map Prod.fst
        ((exampleFile.readFile exampleNoRowsEnv "brain.dscalar.nii").file.getMapStatistics 0)
          = none
      rw [h]; rfl,
    by decide⟩

/-- C12: `indexValid(i, j, k)` is true if and only if `0 <= i < dim[0]`, `0 <= j < dim[1]` and
`0 <= k < dim[2]`, for all integers; it does not depend on the brick index and the component;
on a cleared file it is false for every index. -/
theorem indexValid_iff (f : CiftiMappableDataFile) (i j k brickIndex component : Int) :
    (f.indexValid i j k brickIndex component = true ↔
      (0 ≤ i ∧ i < f.getDimensions.1) ∧ (0 ≤ j ∧ j < f.getDimensions.2.1) ∧
        (0 ≤ k ∧ k < f.getDimensions.2.2.1)) ∧
    f.indexValid i j k brickIndex component = f.indexValid i j k 0 0 ∧
    f.clear.indexValid i j k brickIndex component = false := by
  refine ⟨?_, rfl, ?_⟩
  · simp only [indexValid, getDimensions, ge_iff_le]
    constructor
    · intro h
      split at h
      · rename_i hc
        exact ⟨⟨hc.1, hc.2.1⟩, ⟨hc.2.2.1, hc.2.2.2.1⟩, ⟨hc.2.2.2.2.1, hc.2.2.2.2.2⟩⟩
      · exact absurd h (by decide)
    · rintro ⟨⟨h1, h2⟩, ⟨h3, h4⟩, ⟨h5, h6⟩⟩
      rw [if_pos ⟨h1, h2, h3, h4, h5, h6⟩]
  · simp only [indexValid, clear, clearPrivate, baseClear, List.getD_cons_zero, ge_iff_le]
    rw [if_neg]
    intro hc
    omega

end CiftiMappableDataFile

/-! ### Voxel colours -/

/-- The scaling to a byte is the integer part of `x * 255` for a colour component in range. -/
theorem floatToUInt8_eq_floor (x : CFloat) (h0 : 0 ≤ x) (h1 : x * 255 < 256) :
    (floatToUInt8 x : Int) = ⌊x * 255⌋ := by
  have hden : (0 : Int) < x.den := by exact_mod_cast x.den_pos
  have hnum : 0 ≤ x.num := Rat.num_nonneg.mpr h0
  have hfl : ⌊x * 255⌋ = x.num * 255 / x.den := by
    have hx : x * 255 = ((x.num * 255 : Int) : ℚ) / ((x.den : Nat) : ℚ) := by
      have := Rat.num_div_den x
      push_cast
      rw [mul_div_right_comm, this]
    rw [hx, Rat.floor_intCast_div_natCast]
  have htd : Int.tdiv (x.num * 255) x.den = x.num * 255 / x.den :=
    Int.tdiv_eq_ediv (by positivity) (by omega)
  have hlt : ⌊x * 255⌋ < 256 := by
    rw [Int.floor_lt]
    exact_mod_cast h1
  have hge : 0 ≤ ⌊x * 255⌋ := Int.floor_nonneg.mpr (by positivity)
  unfold floatToUInt8
  rw [htd, ← hfl]
  omega

/-- The scaling to a byte of a negative colour component whose product with 255 is above -1
is the integer part of the product toward zero, which is 0. -/
theorem floatToUInt8_eq_ceil (x : CFloat) (h0 : x < 0) (h1 : -1 < x * 255) :
    (floatToUInt8 x : Int) = ⌈x * 255⌉ := by
  have hdenq : (0 : ℚ) < (x.den : ℚ) := by exact_mod_cast x.den_pos
  have hden : (0 : Int) < x.den := by exact_mod_cast x.den_pos
  have hnum : x.num < 0 := Rat.num_neg.mpr h0
  have hceil : ⌈x * 255⌉ = 0 := by
    rw [Int.ceil_eq_iff]
    constructor
    · simpa using h1
    · have : x * 255 < 0 := by nlinarith
      simpa using this.le
  have hq : -(x.den : ℚ) < (x.num : ℚ) * 255 := by
    have h2 := mul_lt_mul_of_pos_right h1 hdenq
    have h3 : x * 255 * (x.den : ℚ) = (x.num : ℚ) * 255 := by
      rw [mul_right_comm, Rat.mul_den_eq_num]
    rw [h3] at h2
    linarith
  have hz : -(x.den : Int) < x.num * 255 := by exact_mod_cast hq
  have htd : Int.tdiv (x.num * 255) x.den = 0 := by
    have h4 : Int.tdiv (-(x.num * 255)) x.den = 0 := by
      rw [Int.tdiv_eq_ediv (by omega) (by omega)]
      exact Int.ediv_eq_zero_of_lt (by omega) (by omega)
    rw [Int.neg_tdiv] at h4
    omega
  unfold floatToUInt8
  rw [htd, hceil]
  rfl

/-- The scaling to a byte, where C++ defines it (the product with 255 lies between -1 and
256): the integer part of the product toward zero. -/
theorem floatToUInt8_eq_trunc (x : CFloat) (h0 : -1 < x * 255) (h1 : x * 255 < 256) :
    (floatToUInt8 x : Int) = if 0 ≤ x then ⌊x * 255⌋ else ⌈x * 255⌉ := by
  by_cases h : 0 ≤ x
  · rw [if_pos h]
    exact floatToUInt8_eq_floor x h h1
  · rw [if_neg h]
    exact floatToUInt8_eq_ceil x (by linarith) h0

/-- The value 0.75 of the examples is three quarters. -/
theorem threeQuarters_eq : threeQuarters = 3 / 4 := by
  have h := (Rat.num_div_den threeQuarters).symm
  have hn : threeQuarters.num = 3 := rfl
  have hd : threeQuarters.den = 4 := rfl
  rw [hn, hd] at h
  exact h.trans (by norm_num)

theorem writeVoxelColor_unmapped (mapRGBA : List CFloat) (dataOffset : Int) (rgbaOffset : Nat)
    (rgbaOut : List Nat) (h : dataOffset < 0) :
    writeVoxelColor mapRGBA dataOffset rgbaOffset rgbaOut = some rgbaOut := by
  unfold writeVoxelColor
  rw [if_neg (by omega)]

namespace CiftiMappableDataFile

/-- C13: for every voxel and map, when the indexer returns a negative offset
`getVoxelColorInMap` outputs `(0,0,0,0)`; when it returns an offset `d >= 0` (with
`4d+3` inside the colour buffer of the map) the output component `c` is the colour value
`rgba[4d + c]` scaled by 255 and converted to a byte: the integer part, toward zero, of
`255 * rgba[4d + c]`. The four scaled colour values lie in the open interval from -1 to 256,
where C++ defines the conversion to a byte. -/
theorem getVoxelColorInMap_spec (f : CiftiMappableDataFile) (i j k : Int) (mapIndex : Nat)
    (mc : MapContent) (indexer : SparseVolumeIndexer)
    (hmap : f.m_mapContent[mapIndex]? = some mc)
    (hix : f.m_voxelIndicesToOffset = some indexer) :
    (indexer.getOffsetForIndices i j k < 0 →
      f.getVoxelColorInMap i j k mapIndex = some [0, 0, 0, 0]) ∧
    (∀ d : Nat, indexer.getOffsetForIndices i j k = d → 4 * d + 3 < mc.m_rgba.length →
      (∀ c, c < 4 → -1 < mc.m_rgba.getD (4 * d + c) 0 * 255 ∧
        mc.m_rgba.getD (4 * d + c) 0 * 255 < 256) →
      f.getVoxelColorInMap i j k mapIndex
        = some [floatToUInt8 (mc.m_rgba.getD (4 * d) 0), floatToUInt8 (mc.m_rgba.getD (4 * d + 1) 0),
            floatToUInt8 (mc.m_rgba.getD (4 * d + 2) 0),
            floatToUInt8 (mc.m_rgba.getD (4 * d + 3) 0)] ∧
      ∀ c, c < 4 → (floatToUInt8 (mc.m_rgba.getD (4 * d + c) 0) : Int)
        = if 0 ≤ mc.m_rgba.getD (4 * d + c) 0 then ⌊mc.m_rgba.getD (4 * d + c) 0 * 255⌋
          else ⌈mc.m_rgba.getD (4 * d + c) 0 * 255⌉) := by
  refine ⟨?_, ?_⟩
  · intro hneg
    unfold getVoxelColorInMap
    simp only [hmap, hix]
    split
    · rfl
    · exact writeVoxelColor_unmapped _ _ _ _ hneg
  · intro d hd hlen hrange
    refine ⟨?_, fun c hc => floatToUInt8_eq_trunc _ (hrange c hc).1 (hrange c hc).2⟩
    unfold getVoxelColorInMap
    simp only [hmap, hix, hd]
    rw [if_neg (by omega)]
    unfold writeVoxelColor
    rw [if_pos (by omega)]
    simp only [Int.toNat_ofNat]
    rw [if_pos ⟨by omega, by decide⟩]
    simp [Nat.mul_comm d 4]

/-- Witness of C13: voxel (3,4,2) of the volume example has its data at offset 17, whose colour
components are 0.75: the four bytes are 191, the integer part of 191.25. Voxel (3,4,1) is not
mapped and its bytes are 0. -/
theorem getVoxelColorInMap_spec_witness :
    exampleVolumeIndexer.getOffsetForIndices 3 4 2 = 17 ∧
    exampleVolumeFile.getVoxelColorInMap 3 4 2 0 = some [191, 191, 191, 191] ∧
    exampleVolumeMap.m_rgba.getD (4 * 17) 0 = threeQuarters ∧
    ⌊threeQuarters * 255⌋ = 191 ∧
    exampleVolumeFile.getVoxelColorInMap 3 4 1 0 = some [0, 0, 0, 0] :=
  ⟨by decide,
    ((getVoxelColorInMap_spec exampleVolumeFile 3 4 2 0 exampleVolumeMap exampleVolumeIndexer
      (by decide) (by decide)).2 17 (by decide) (by decide)
      (by
        intro c hc
        have hv : exampleVolumeMap.m_rgba.getD (4 * 17 + c) 0 = threeQuarters := by
          interval_cases c <;> decide
        rw [hv, threeQuarters_eq]
        constructor <;> norm_num)).1.trans (by decide),
    by decide,
    by
      rw [threeQuarters_eq, Int.floor_eq_iff]
      constructor <;> norm_num,
    (getVoxelColorInMap_spec exampleVolumeFile 3 4 1 0 exampleVolumeMap exampleVolumeIndexer
      (by decide) (by decide)).1 (by decide)⟩

/-- Counterexample to C15 as stated: with a slice index that is negative, or equal to the
dimension of the slice axis, the call returns before the loop that clears the slice: a buffer
that held `7` in every element still holds it. -/
theorem getVoxelColorsForSliceInMap_early_return_not_zeroed :
    exampleVolumeFile.getVoxelColorsForSliceInMap 0 .AXIAL (-1) [7, 7, 7, 7]
      = some [7, 7, 7, 7] ∧
    exampleVolumeFile.m_volumeDimensions.getD 2 0 = 5 ∧
    exampleVolumeFile.getVoxelColorsForSliceInMap 0 .AXIAL 5 [7, 7, 7, 7]
      = some [7, 7, 7, 7] := by
  refine ⟨by decide, by decide, by decide⟩

/-- C15 (amended): for a slice index that is negative or not less than the dimension of the
slice axis, `getVoxelColorsForSliceInMap` (release build) returns early without reading the
map, the indexer or the colour buffer, and without writing to the output buffer: `rgbaOut` is
left exactly as the caller passed it. This holds for every file state, map index and buffer,
also where an access to the map or the indexer would have no defined result. -/
theorem getVoxelColorsForSliceInMap_early_return (f : CiftiMappableDataFile) (mapIndex : Nat)
    (slicePlane : VolumeSliceViewPlaneEnum) (sliceIndex : Int) (rgbaOut : List Nat)
    (h : sliceIndex < 0 ∨
      (slicePlane = .AXIAL ∧ sliceIndex ≥ f.getDimensions.2.2.1) ∨
      (slicePlane = .CORONAL ∧ sliceIndex ≥ f.getDimensions.2.1) ∨
      (slicePlane = .PARASAGITTAL ∧ sliceIndex ≥ f.getDimensions.1)) :
    f.getVoxelColorsForSliceInMap mapIndex slicePlane sliceIndex rgbaOut = some rgbaOut := by
  unfold getVoxelColorsForSliceInMap
  by_cases hneg : sliceIndex < 0
  · rw [if_pos hneg]
  · rw [if_neg hneg]
    rcases h with h | ⟨rfl, h⟩ | ⟨rfl, h⟩ | ⟨rfl, h⟩
    · exact absurd h hneg
    · simp only [getDimensions] at h
      simp only [if_pos h]
    · simp only [getDimensions] at h
      simp only [if_pos h]
    · simp only [getDimensions] at h
      simp only [if_pos h]

/-- Witness of C15 (amended): slice 5 of the axial planes of the volume example, whose third
dimension is 5. -/
theorem getVoxelColorsForSliceInMap_early_return_witness :
    exampleVolumeFile.getDimensions.2.2.1 = 5 ∧
    exampleVolumeFile.getVoxelColorsForSliceInMap 0 .AXIAL 5 [7, 7, 7, 7]
      = some [7, 7, 7, 7] :=
  ⟨by decide,
    getVoxelColorsForSliceInMap_early_return exampleVolumeFile 0 .AXIAL 5 [7, 7, 7, 7]
      (Or.inr (Or.inl ⟨rfl, by decide⟩))⟩

end CiftiMappableDataFile

/-! ### Values of voxels and surface nodes -/

namespace CiftiMappableDataFile

/-- The outcome of `getMapVolumeVoxelValue` on a loaded file with an indexer, when the
enclosing voxel is outside the volume dimensions or is not mapped. -/
theorem getMapVolumeVoxelValue_no_value (coords : VoxelCoordinates) (fmt : NumberFormat)
    (f : CiftiMappableDataFile) (mapIndex : Nat) (xyz : CFloat × CFloat × CFloat)
    (ijkOut : Int × Int × Int) (indexer : SparseVolumeIndexer) (i j k : Int)
    (hiface : f.isCiftiInterfaceValid = true)
    (hix : f.m_voxelIndicesToOffset = some indexer)
    (henc : coords.coordinateToIndices xyz.1 xyz.2.1 xyz.2.2 = (i, j, k))
    (h : f.indexValid i j k 0 0 = false ∨ indexer.getOffsetForIndices i j k < 0) :
    f.getMapVolumeVoxelValue coords fmt mapIndex xyz ijkOut
      = some { returned := false, ijkOut := ijkOut, textOut := "" } := by
  unfold getMapVolumeVoxelValue
  simp only [hiface, enclosingVoxel, hix, henc]
  by_cases hv : f.indexValid i j k 0 0 = true
  · have hneg : indexer.getOffsetForIndices i j k < 0 := by
      rcases h with h | h
      · rw [hv] at h; exact absurd h (by decide)
      · exact h
    simp [hv, not_le.mpr hneg]
  · simp [hv]

/-- The outcome of `getMapVolumeVoxelValue` up to the choice of the text, when the enclosing
voxel is valid and mapped to an offset inside the map data. -/
theorem getMapVolumeVoxelValue_mapped (coords : VoxelCoordinates) (fmt : NumberFormat)
    (f : CiftiMappableDataFile) (mapIndex : Nat) (xyz : CFloat × CFloat × CFloat)
    (ijkOut : Int × Int × Int) (indexer : SparseVolumeIndexer) (facade : CiftiFacade)
    (i j k : Int) (d : Nat) (value : CFloat)
    (hiface : f.isCiftiInterfaceValid = true)
    (hix : f.m_voxelIndicesToOffset = some indexer)
    (hfac : f.m_ciftiFacade = some facade)
    (henc : coords.coordinateToIndices xyz.1 xyz.2.1 xyz.2.2 = (i, j, k))
    (hv : f.indexValid i j k 0 0 = true)
    (hd : indexer.getOffsetForIndices i j k = d)
    (hval : (facade.getDataForMapOrSeriesIndex mapIndex)[d]? = some value) :
    f.getMapVolumeVoxelValue coords fmt mapIndex xyz ijkOut =
      if facade.isBrainordinateDataColoredWithLabelTable then
        match f.getMapLabelTable mapIndex with
        | some (some glt) =>
          some { returned := true, ijkOut := (i, j, k),
                 textOut := match glt.getLabel (floatToInt32 value) with
                   | some gl => gl.name
                   | none => "Invalid Label Index" }
        | _ => none
      else if facade.isBrainordinateDataColoredWithPalette then
        some { returned := true, ijkOut := (i, j, k), textOut := fmt.number value }
      else some { returned := true, ijkOut := (i, j, k), textOut := "" } := by
  unfold getMapVolumeVoxelValue
  simp only [hiface, enclosingVoxel, hix, henc, hv, hd, getMapData, hfac]
  simp [hval]

/-- C16: on a palette-coloured file, for every coordinate whose enclosing voxel `(i,j,k)` is
within the volume dimensions and mapped by the indexer to an offset `d >= 0` (inside the map
data), `getMapVolumeVoxelValue` returns true, sets `ijkOut = (i,j,k)` and sets the text to the
number formatting of `mapData[d]`; when the enclosing voxel is outside the dimensions or
unmapped it returns false with empty text and leaves `ijkOut` untouched. -/
theorem getMapVolumeVoxelValue_palette (coords : VoxelCoordinates) (fmt : NumberFormat)
    (f : CiftiMappableDataFile) (mapIndex : Nat) (xyz : CFloat × CFloat × CFloat)
    (ijkOut : Int × Int × Int) (indexer : SparseVolumeIndexer) (facade : CiftiFacade)
    (i j k : Int)
    (hiface : f.isCiftiInterfaceValid = true)
    (hix : f.m_voxelIndicesToOffset = some indexer)
    (hfac : f.m_ciftiFacade = some facade)
    (hlab : facade.isBrainordinateDataColoredWithLabelTable = false)
    (hpal : facade.isBrainordinateDataColoredWithPalette = true)
    (henc : coords.coordinateToIndices xyz.1 xyz.2.1 xyz.2.2 = (i, j, k)) :
    (∀ (d : Nat) (value : CFloat), f.indexValid i j k 0 0 = true →
      indexer.getOffsetForIndices i j k = d →
      (facade.getDataForMapOrSeriesIndex mapIndex)[d]? = some value →
      f.getMapVolumeVoxelValue coords fmt mapIndex xyz ijkOut
        = some { returned := true, ijkOut := (i, j, k), textOut := fmt.number value }) ∧
    ((f.indexValid i j k 0 0 = false ∨ indexer.getOffsetForIndices i j k < 0) →
      f.getMapVolumeVoxelValue coords fmt mapIndex xyz ijkOut
        = some { returned := false, ijkOut := ijkOut, textOut := "" }) := by
  constructor
  · intro d value hv hd hval
    rw [getMapVolumeVoxelValue_mapped coords fmt f mapIndex xyz ijkOut indexer facade i j k d
      value hiface hix hfac henc hv hd hval]
    simp [hlab, hpal]
  · exact getMapVolumeVoxelValue_no_value coords fmt f mapIndex xyz ijkOut indexer i j k hiface
      hix henc

set_option maxRecDepth 100000 in
/-- Witness of C16: the scenario of the volume example: dimensions (10,10,5), voxel (3,4,2) at
offset 17 with `data[17] = 0.75` gives `ijk = (3,4,2)` and the text `"0.75"`; the unmapped
voxel (3,4,1) gives false, empty text and the caller's `ijkOut`. -/
theorem getMapVolumeVoxelValue_palette_witness :
    exampleVolumeFile.getDimensions = (10, 10, 5, 1, 1) ∧
    exampleVolumeData[17]? = some threeQuarters ∧
    exampleVolumeFile.getMapVolumeVoxelValue exampleCoordinates exampleNumberFormat 0
      (3, 4, 2) (9, 9, 9) = some { returned := true, ijkOut := (3, 4, 2), textOut := "0.75" } ∧
    exampleVolumeFile.getMapVolumeVoxelValue exampleCoordinates exampleNumberFormat 0
      (3, 4, 1) (9, 9, 9) = some { returned := false, ijkOut := (9, 9, 9), textOut := "" } :=
  ⟨by decide, by decide,
    (getMapVolumeVoxelValue_palette exampleCoordinates exampleNumberFormat exampleVolumeFile 0
      (3, 4, 2) (9, 9, 9) exampleVolumeIndexer exampleVolumeFacade 3 4 2 (by decide) (by decide)
      rfl (by decide) (by decide) (by decide)).1 17 threeQuarters (by decide) (by decide)
      (by decide),
    (getMapVolumeVoxelValue_palette exampleCoordinates exampleNumberFormat exampleVolumeFile 0
      (3, 4, 1) (9, 9, 9) exampleVolumeIndexer exampleVolumeFacade 3 4 1 (by decide) (by decide)
      rfl (by decide) (by decide) (by decide)).2 (Or.inr (by decide))⟩

/-- C17: on a label-table-coloured file, `getMapVolumeVoxelValue` for a voxel that is within
the dimensions and mapped returns true with `ijkOut` set to the voxel; the text is the name of
the label whose key is the integer truncation of the value of the voxel when that key is in the
label table of the map, and the text `"Invalid Label Index"` when it is not: a missing key is
not reported as a failure. -/
theorem getMapVolumeVoxelValue_label (coords : VoxelCoordinates) (fmt : NumberFormat)
    (f : CiftiMappableDataFile) (mapIndex : Nat) (xyz : CFloat × CFloat × CFloat)
    (ijkOut : Int × Int × Int) (indexer : SparseVolumeIndexer) (facade : CiftiFacade)
    (mc : MapContent) (glt : GiftiLabelTable) (i j k : Int) (d : Nat) (value : CFloat)
    (hiface : f.isCiftiInterfaceValid = true)
    (hix : f.m_voxelIndicesToOffset = some indexer)
    (hfac : f.m_ciftiFacade = some facade)
    (hlab : facade.isBrainordinateDataColoredWithLabelTable = true)
    (hmap : f.m_mapContent[mapIndex]? = some mc)
    (htab : mc.m_labelTable = some glt)
    (henc : coords.coordinateToIndices xyz.1 xyz.2.1 xyz.2.2 = (i, j, k))
    (hv : f.indexValid i j k 0 0 = true)
    (hd : indexer.getOffsetForIndices i j k = d)
    (hval : (facade.getDataForMapOrSeriesIndex mapIndex)[d]? = some value) :
    (∀ gl : GiftiLabel, glt.getLabel (floatToInt32 value) = some gl →
      gl ∈ glt.labels ∧ gl.key = floatToInt32 value ∧
      f.getMapVolumeVoxelValue coords fmt mapIndex xyz ijkOut
        = some { returned := true, ijkOut := (i, j, k), textOut := gl.name }) ∧
    ((∀ gl ∈ glt.labels, gl.key ≠ floatToInt32 value) →
      f.getMapVolumeVoxelValue coords fmt mapIndex xyz ijkOut
        = some { returned := true, ijkOut := (i, j, k), textOut := "Invalid Label Index" }) := by
  have hres := getMapVolumeVoxelValue_mapped coords fmt f mapIndex xyz ijkOut indexer facade
    i j k d value hiface hix hfac henc hv hd hval
  have hglt : f.getMapLabelTable mapIndex = some (some glt) := by
    simp [getMapLabelTable, hmap, htab]
  simp only [hlab, if_true, hglt] at hres
  constructor
  · intro gl hgl
    refine ⟨?_, ?_, ?_⟩
    · exact List.mem_of_find?_eq_some hgl
    · have := List.find?_some hgl
      simpa using this
    · rw [hres, hgl]
  · intro hnone
    have : glt.getLabel (floatToInt32 value) = none := by
      unfold GiftiLabelTable.getLabel
      rw [List.find?_eq_none]
      intro gl hgl
      simpa using hnone gl hgl
    rw [hres, this]

set_option maxRecDepth 100000 in
/-- Witness of C17: in the label example voxel (3,4,2) holds the key 7, named `"MT"`, and
voxel (0,0,2) holds 42, which is not a key of the label table. -/
theorem getMapVolumeVoxelValue_label_witness :
    exampleLabelFile.getMapVolumeVoxelValue exampleCoordinates exampleNumberFormat 0
      (3, 4, 2) (9, 9, 9) = some { returned := true, ijkOut := (3, 4, 2), textOut := "MT" } ∧
    exampleLabelFile.getMapVolumeVoxelValue exampleCoordinates exampleNumberFormat 0
      (0, 0, 2) (9, 9, 9)
        = some { returned := true, ijkOut := (0, 0, 2), textOut := "Invalid Label Index" } :=
  ⟨((getMapVolumeVoxelValue_label exampleCoordinates exampleNumberFormat exampleLabelFile 0
      (3, 4, 2) (9, 9, 9) exampleVolumeIndexer exampleLabelFacade
      ((MapContent.new exampleLabelFacade 0).clearModifiedStatus) exampleLabelTable 3 4 2 17 7
      (by decide) (by decide) rfl (by decide) (by decide) (by decide) (by decide) (by decide)
      (by decide) (by decide)).1 ⟨7, "MT"⟩ (by decide)).2.2,
    (getMapVolumeVoxelValue_label exampleCoordinates exampleNumberFormat exampleLabelFile 0
      (0, 0, 2) (9, 9, 9) exampleVolumeIndexer exampleLabelFacade
      ((MapContent.new exampleLabelFacade 0).clearModifiedStatus) exampleLabelTable 0 0 2 0 42
      (by decide) (by decide) rfl (by decide) (by decide) (by decide) (by decide) (by decide)
      (by decide) (by decide)).2 (by decide)⟩

set_option maxRecDepth 100000 in
/-- C18 (what the code does): the loop of `getMapSurfaceNodeColoring` tests `dataIndex > 0`,
so a node whose data index is 0 is treated as a node without data. On the coloured example
file (colour buffer `[1,1,1,1, 2,2,2,2, 3,3,3,3]`, data `[1, 2, 3]`) the four nodes of the
left cortex have the data indices `0, -1, 2, 1`: node 0 gets `(0,0,0,-1)` and the value 0
instead of `(1,1,1,1)` and 1; on the cerebellum, whose only node with data has index 0, the
method returns false. -/
theorem getMapSurfaceNodeColoring_index_zero :
    (exampleColoredFile.m_mapContent[0]?).map MapContent.m_rgba
      = some [1, 1, 1, 1, 2, 2, 2, 2, 3, 3, 3, 3] ∧
    exampleColoredFile.getMapData 0 = some [1, 2, 3] ∧
    exampleColoredFile.getMapSurfaceNodeColoring exampleQueries 0 .CORTEX_LEFT
      (List.replicate 16 9) (List.replicate 4 9) 4
      = some { returned := true
               surfaceRGBAOut := [0, 0, 0, -1, 0, 0, 0, -1, 3, 3, 3, 3, 2, 2, 2, 2]
               dataValuesOut := [0, 0, 3, 2] } ∧
    exampleColoredFile.getMapSurfaceNodeColoring exampleQueries 0 .CEREBELLUM
      (List.replicate 8 9) (List.replicate 2 9) 2
      = some { returned := false
               surfaceRGBAOut := [0, 0, 0, -1, 0, 0, 0, -1]
               dataValuesOut := [0, 0] } := by
  refine ⟨by decide, by decide, by decide, by decide⟩

/-- C19: for a file not mapped to parcels, with matching node counts, where the node maps to
a data index `d` inside the data of the map, `getMapSurfaceNodeValue` returns true with
`numericalValueOutValid = true`, `numericalValueOut = mapData[d]` and the fixed-point
formatting of that value as text, whatever the caller's variables held; the label tables of
the file play no part. -/
theorem getMapSurfaceNodeValue_value (q : CiftiSurfaceQueries) (fmt : NumberFormat)
    (f : CiftiMappableDataFile) (mapIndex : Nat) (brainStructure : StructureEnum)
    (nodeIndex numberOfNodes : Int) (numericalValue0 : CFloat) (valid0 : Bool) (text0 : String)
    (facade : CiftiFacade) (d : Nat) (value : CFloat)
    (hiface : f.isCiftiInterfaceValid = true)
    (hfac : f.m_ciftiFacade = some facade)
    (hparcel : facade.isMappingDataToBrainordinateParcels = false)
    (hnodes : f.numCiftiNodes q brainStructure = numberOfNodes)
    (hd : f.dataIndexForNode q nodeIndex brainStructure = d)
    (hval : (facade.getDataForMapOrSeriesIndex mapIndex)[d]? = some value) :
    f.getMapSurfaceNodeValue q fmt mapIndex brainStructure nodeIndex numberOfNodes
        numericalValue0 valid0 text0
      = some { returned := true, numericalValueOut := value, numericalValueOutValid := true,
               textValueOut := fmt.numberF value } ∧
    ∀ tables : MapContent → Option GiftiLabelTable,
      ({ f with
          m_mapContent :=
            (f.m_mapContent.map (fun mc => { mc with m_labelTable := tables mc })) } :
        CiftiMappableDataFile).getMapSurfaceNodeValue q fmt mapIndex brainStructure nodeIndex
          numberOfNodes numericalValue0 valid0 text0
      = some { returned := true, numericalValueOut := value, numericalValueOutValid := true,
               textValueOut := fmt.numberF value } := by
  have key : ∀ g : CiftiMappableDataFile, g.isCiftiInterfaceValid = true →
      g.m_ciftiFacade = some facade → g.numCiftiNodes q brainStructure = numberOfNodes →
      g.dataIndexForNode q nodeIndex brainStructure = d →
      g.getMapSurfaceNodeValue q fmt mapIndex brainStructure nodeIndex numberOfNodes
          numericalValue0 valid0 text0
        = some { returned := true, numericalValueOut := value, numericalValueOutValid := true,
                 textValueOut := fmt.numberF value } := by
    intro g h1 h2 h3 h4
    unfold getMapSurfaceNodeValue
    simp [h1, h2, h3, h4, hparcel, hval]
  exact ⟨key f hiface hfac hnodes hd, fun tables => key _ hiface hfac hnodes hd⟩

set_option maxRecDepth 100000 in
/-- Witness of C19: in the label example node 5 of the right cortex has its data at index 0,
where the value is 42, which is not a key of the label table. -/
theorem getMapSurfaceNodeValue_value_witness :
    exampleLabelTable.getLabel 42 = none ∧
    exampleLabelFile.getMapSurfaceNodeValue exampleQueries exampleNumberFormat 0 .CORTEX_RIGHT
        5 8 0 false ""
      = some { returned := true, numericalValueOut := 42, numericalValueOutValid := true,
               textValueOut := "42.000000" } :=
  ⟨by decide,
    (getMapSurfaceNodeValue_value exampleQueries exampleNumberFormat exampleLabelFile 0
      .CORTEX_RIGHT 5 8 0 false "" exampleLabelFacade 0 42 (by decide) rfl (by decide)
      (by decide) (by decide) (by decide)).1⟩

set_option maxRecDepth 100000 in
/-- C20 (what the code does): `getMapSurfaceNodeValue` starts with
`numericalValueOut = false` and never assigns false to `numericalValueOutValid`. On the parcel
example, node 5 lies in the parcel `"R_MT"`: the call returns true with that name as text, and
`numericalValueOutValid` comes back as the caller passed it, true for a caller whose variable
held true, although no data value was assigned (`numericalValueOut` is 0). The same happens
when the call returns false (node 6 has no parcel). -/
theorem getMapSurfaceNodeValue_parcel_valid_flag :
    exampleParcelFile.getMapSurfaceNodeValue exampleQueries exampleNumberFormat 0 .CORTEX_RIGHT
        5 8 9 true ""
      = some { returned := true, numericalValueOut := 0, numericalValueOutValid := true,
               textValueOut := "R_MT" } ∧
    exampleParcelFile.getMapSurfaceNodeValue exampleQueries exampleNumberFormat 0 .CORTEX_RIGHT
        5 8 9 false ""
      = some { returned := true, numericalValueOut := 0, numericalValueOutValid := false,
               textValueOut := "R_MT" } ∧
    exampleParcelFile.getMapSurfaceNodeValue exampleQueries exampleNumberFormat 0 .CORTEX_RIGHT
        6 8 9 true ""
      = some { returned := false, numericalValueOut := 0, numericalValueOutValid := true,
               textValueOut := "" } := by
  refine ⟨by decide, by decide, by decide⟩

end CiftiMappableDataFile

/-! ### The slice loops -/

/-- The effect of the four assignments for a mapped voxel whose bytes start at `n * 4`. -/
theorem writeVoxelColor_mapped (mapRGBA : List CFloat) (d : Int) (n : Nat) (out : List Nat)
    (hoff : 0 ≤ d) (hs : d.toNat * 4 + 3 < mapRGBA.length) (hn : n * 4 + 3 < out.length) :
    ∃ out1, writeVoxelColor mapRGBA d (n * 4) out = some out1 ∧ out1.length = out.length ∧
      ∀ idx : Nat, out1[idx]? =
        if idx / 4 = n then some (floatToUInt8 (mapRGBA.getD (d.toNat * 4 + idx % 4) 0))
        else out[idx]? := by
  have hw : writeVoxelColor mapRGBA d (n * 4) out
      = some ((((out.set (n * 4) (floatToUInt8 (mapRGBA.getD (d.toNat * 4) 0))).set
          (n * 4 + 1) (floatToUInt8 (mapRGBA.getD (d.toNat * 4 + 1) 0))).set
          (n * 4 + 2) (floatToUInt8 (mapRGBA.getD (d.toNat * 4 + 2) 0))).set
          (n * 4 + 3) (floatToUInt8 (mapRGBA.getD (d.toNat * 4 + 3) 0))) := by
    unfold writeVoxelColor
    rw [if_pos hoff]
    simp only
    rw [if_pos ⟨hs, hn⟩]
  refine ⟨_, hw, by simp, ?_⟩
  intro idx
  simp only [List.getElem?_set, List.length_set]
  by_cases hblock : idx / 4 = n
  · rw [if_pos hblock]
    rcases (by omega : idx % 4 = 0 ∨ idx % 4 = 1 ∨ idx % 4 = 2 ∨ idx % 4 = 3) with h | h | h | h
    · rw [h, if_neg (by omega), if_neg (by omega), if_neg (by omega), if_pos (by omega),
        if_pos (by omega)]
      rfl
    · rw [h, if_neg (by omega), if_neg (by omega), if_pos (by omega), if_pos (by omega)]
    · rw [h, if_neg (by omega), if_pos (by omega), if_pos (by omega)]
    · rw [h, if_pos (by omega), if_pos (by omega)]
  · rw [if_neg hblock, if_neg (by omega), if_neg (by omega), if_neg (by omega),
      if_neg (by omega)]

/-- One voxel of a slice: from the buffer in which the first `n` voxels are handled to the one
in which the first `n + 1` are. -/
theorem writeVoxelColor_step (mapRGBA : List CFloat) (innerDim : Nat)
    (offsetOf : Nat → Nat → Int) (out0 out : List Nat) (outer inner : Nat)
    (hinner : inner < innerDim)
    (hsrc : 0 ≤ offsetOf outer inner → (offsetOf outer inner).toNat * 4 + 3 < mapRGBA.length)
    (hdst : (outer * innerDim + inner) * 4 + 3 < out0.length)
    (hinv : slicePrefixColored mapRGBA innerDim offsetOf out0 (outer * innerDim + inner) out) :
    ∃ out1, writeVoxelColor mapRGBA (offsetOf outer inner) ((outer * innerDim + inner) * 4) out
        = some out1 ∧
      slicePrefixColored mapRGBA innerDim offsetOf out0 (outer * innerDim + inner + 1) out1 := by
  have hpos : 0 < innerDim := by omega
  have hdiv : (outer * innerDim + inner) / innerDim = outer := by
    rw [Nat.add_comm, Nat.add_mul_div_right _ _ hpos, Nat.div_eq_of_lt hinner, Nat.zero_add]
  have hmod : (outer * innerDim + inner) % innerDim = inner := by
    rw [Nat.add_comm, Nat.add_mul_mod_self_right, Nat.mod_eq_of_lt hinner]
  generalize outer * innerDim + inner = n at hdst hinv hdiv hmod ⊢
  obtain ⟨hlen, hget⟩ := hinv
  by_cases hoff : 0 ≤ offsetOf outer inner
  · obtain ⟨out1, hw, hlen1, hget1⟩ := writeVoxelColor_mapped mapRGBA (offsetOf outer inner) n
      out hoff (hsrc hoff) (by omega)
    refine ⟨out1, hw, ?_⟩
    unfold slicePrefixColored
    refine ⟨by omega, ?_⟩
    intro idx
    rw [hget1 idx]
    by_cases hblock : idx / 4 = n
    · rw [if_pos hblock, hblock, hdiv, hmod, if_pos ⟨by omega, hoff⟩]
    · rw [if_neg hblock, hget idx]
      by_cases hlt : idx / 4 < n
      · have : idx / 4 < n + 1 := by omega
        simp only [hlt, this, true_and]
      · have : ¬ idx / 4 < n + 1 := by omega
        simp only [hlt, this, false_and]
  · refine ⟨out, writeVoxelColor_unmapped _ _ _ _ (by omega), ?_⟩
    unfold slicePrefixColored
    refine ⟨hlen, ?_⟩
    intro idx
    rw [hget idx]
    by_cases hblock : idx / 4 = n
    · rw [hblock, hdiv, hmod]
      simp [hoff]
    · by_cases hlt : idx / 4 < n
      · have : idx / 4 < n + 1 := by omega
        simp only [hlt, this, true_and]
      · have : ¬ idx / 4 < n + 1 := by omega
        simp only [hlt, this, false_and]

/-- The inner loop of a slice, for the row `outer`. -/
theorem colorSliceVoxels_inner (mapRGBA : List CFloat) (outerDim innerDim : Nat)
    (offsetOf : Nat → Nat → Int) (out0 : List Nat) (outer : Nat) (houter : outer < outerDim)
    (hsrc : ∀ a b, a < outerDim → b < innerDim → 0 ≤ offsetOf a b →
      (offsetOf a b).toNat * 4 + 3 < mapRGBA.length)
    (hdst : outerDim * innerDim * 4 ≤ out0.length) (count : Nat) (hcount : count ≤ innerDim)
    (out : List Nat)
    (hinv : slicePrefixColored mapRGBA innerDim offsetOf out0 (outer * innerDim) out) :
    ∃ out1,
      (List.range count).foldlM
        (fun out inner =>
          writeVoxelColor mapRGBA (offsetOf outer inner) (((outer * innerDim) + inner) * 4) out)
        out = some out1 ∧
      slicePrefixColored mapRGBA innerDim offsetOf out0 (outer * innerDim + count) out1 := by
  induction count with
  | zero => exact ⟨out, rfl, hinv⟩
  | succ b ih =>
    obtain ⟨out1, h1, hinv1⟩ := ih (by omega)
    have hb : b < innerDim := by omega
    have hbound : (outer * innerDim + b) * 4 + 3 < out0.length := by
      have : outer * innerDim + innerDim ≤ outerDim * innerDim := by
        calc outer * innerDim + innerDim = (outer + 1) * innerDim := by ring
          _ ≤ outerDim * innerDim := Nat.mul_le_mul_right _ (by omega)
      omega
    obtain ⟨out2, h2, hinv2⟩ := writeVoxelColor_step mapRGBA innerDim offsetOf out0 out1 outer b
      hb (hsrc outer b houter hb) hbound hinv1
    refine ⟨out2, ?_, hinv2⟩
    rw [List.range_succ, List.foldlM_append, h1]
    simp only [Option.bind_eq_bind, Option.some_bind, List.foldlM_cons, List.foldlM_nil]
    rw [h2]
    rfl

/-- The nested loops of a slice: they have a result, in which every voxel is handled. -/
theorem colorSliceVoxels_spec (mapRGBA : List CFloat) (outerDim innerDim : Nat)
    (offsetOf : Nat → Nat → Int) (out0 : List Nat)
    (hsrc : ∀ a b, a < outerDim → b < innerDim → 0 ≤ offsetOf a b →
      (offsetOf a b).toNat * 4 + 3 < mapRGBA.length)
    (hdst : outerDim * innerDim * 4 ≤ out0.length) :
    ∃ out, colorSliceVoxels mapRGBA outerDim innerDim offsetOf out0 = some out ∧
      slicePrefixColored mapRGBA innerDim offsetOf out0 (outerDim * innerDim) out := by
  have key : ∀ count, count ≤ outerDim →
      ∃ out,
        (List.range count).foldlM
          (fun out outer =>
            (List.range innerDim).foldlM
              (fun out inner =>
                writeVoxelColor mapRGBA (offsetOf outer inner)
                  (((outer * innerDim) + inner) * 4) out)
              out)
          out0 = some out ∧
        slicePrefixColored mapRGBA innerDim offsetOf out0 (count * innerDim) out := by
    intro count
    induction count with
    | zero =>
      intro _
      refine ⟨out0, rfl, ?_⟩
      unfold slicePrefixColored
      refine ⟨rfl, ?_⟩
      intro idx
      simp
    | succ a ih =>
      intro ha
      obtain ⟨out1, h1, hinv1⟩ := ih (by omega)
      obtain ⟨out2, h2, hinv2⟩ := colorSliceVoxels_inner mapRGBA outerDim innerDim offsetOf out0
        a (by omega) hsrc hdst innerDim (le_refl _) out1 hinv1
      refine ⟨out2, ?_, ?_⟩
      · rw [List.range_succ, List.foldlM_append, h1]
        simp only [Option.bind_eq_bind, Option.some_bind, List.foldlM_cons, List.foldlM_nil]
        rw [h2]
        rfl
      · have : (a + 1) * innerDim = a * innerDim + innerDim := by ring
        rw [this]
        exact hinv2
  exact key outerDim (le_refl _)

/-- The colour `getVoxelColorInMap` computes for a data offset, and the slice loops run on the
cleared buffer: every voxel of the slice has in the buffer the four bytes of that colour. -/
theorem colorSliceVoxels_cleared (mapRGBA : List CFloat) (outerDim innerDim : Nat)
    (offsetOf : Nat → Nat → Int) (rgbaOut : List Nat)
    (hsrc : ∀ a b, a < outerDim → b < innerDim → 0 ≤ offsetOf a b →
      (offsetOf a b).toNat * 4 + 3 < mapRGBA.length)
    (hdst : outerDim * innerDim * 4 ≤ rgbaOut.length) :
    ∃ out,
      colorSliceVoxels mapRGBA outerDim innerDim offsetOf
        (List.replicate (outerDim * innerDim * 4) 0 ++ rgbaOut.drop (outerDim * innerDim * 4))
          = some out ∧
      out.length = rgbaOut.length ∧
      ∀ a b, a < outerDim → b < innerDim →
        ∃ color, writeVoxelColor mapRGBA (offsetOf a b) 0 [0, 0, 0, 0] = some color ∧
          (offsetOf a b < 0 → color = [0, 0, 0, 0]) ∧
          ∀ c, c < 4 → out[4 * (a * innerDim + b) + c]? = color[c]? := by
  have hlen0 : (List.replicate (outerDim * innerDim * 4) 0
      ++ rgbaOut.drop (outerDim * innerDim * 4)).length = rgbaOut.length := by
    simp only [List.length_append, List.length_replicate, List.length_drop]
    omega
  obtain ⟨out, hout, hlen, hget⟩ := colorSliceVoxels_spec mapRGBA outerDim innerDim offsetOf
    (List.replicate (outerDim * innerDim * 4) 0 ++ rgbaOut.drop (outerDim * innerDim * 4))
    hsrc (by omega)
  refine ⟨out, hout, by omega, ?_⟩
  intro a b ha hb
  have hab : a * innerDim + b < outerDim * innerDim := by
    calc a * innerDim + b < a * innerDim + innerDim := by omega
      _ = (a + 1) * innerDim := by ring
      _ ≤ outerDim * innerDim := Nat.mul_le_mul_right _ (by omega)
  have hpos : 0 < innerDim := by omega
  have hdiv : (a * innerDim + b) / innerDim = a := by
    rw [Nat.add_comm, Nat.add_mul_div_right _ _ hpos, Nat.div_eq_of_lt hb, Nat.zero_add]
  have hmod : (a * innerDim + b) % innerDim = b := by
    rw [Nat.add_comm, Nat.add_mul_mod_self_right, Nat.mod_eq_of_lt hb]
  generalize hn : a * innerDim + b = n at hab hdiv hmod ⊢
  generalize hN : outerDim * innerDim = N at hab hget hlen0 hdst
  have hbuf : ∀ c, c < 4 → out[4 * n + c]? =
      if 0 ≤ offsetOf a b then
        some (floatToUInt8 (mapRGBA.getD ((offsetOf a b).toNat * 4 + c) 0))
      else some 0 := by
    intro c hc
    rw [hget (4 * n + c)]
    have h1 : (4 * n + c) / 4 = n := by omega
    have h2 : (4 * n + c) % 4 = c := by omega
    rw [h1, h2, hdiv, hmod]
    by_cases hoff : 0 ≤ offsetOf a b
    · rw [if_pos ⟨hab, hoff⟩, if_pos hoff]
    · rw [if_neg (fun h => hoff h.2), if_neg hoff,
        List.getElem?_append_left (by simp only [List.length_replicate]; omega),
        List.getElem?_replicate, if_pos (by omega)]
  by_cases hoff : 0 ≤ offsetOf a b
  · obtain ⟨color, hw, hlenc, hgetc⟩ := writeVoxelColor_mapped mapRGBA (offsetOf a b) 0
      [0, 0, 0, 0] hoff (hsrc a b ha hb hoff) (by decide)
    rw [Nat.zero_mul] at hw
    refine ⟨color, hw, fun h => absurd hoff (by omega), ?_⟩
    intro c hc
    rw [hbuf c hc, if_pos hoff, hgetc c]
    have h1 : c / 4 = 0 := by omega
    have h2 : c % 4 = c := by omega
    rw [if_pos h1, h2]
  · refine ⟨[0, 0, 0, 0], writeVoxelColor_unmapped _ _ _ _ (by omega), fun _ => rfl, ?_⟩
    intro c hc
    rw [hbuf c hc, if_neg hoff]
    rcases (by omega : c = 0 ∨ c = 1 ∨ c = 2 ∨ c = 3) with h | h | h | h <;> subst h <;> rfl

namespace CiftiMappableDataFile

/-- With a non-empty colour buffer `getVoxelColorInMap` is the copy of one voxel colour into
a zeroed array of four bytes. -/
theorem getVoxelColorInMap_eq (f : CiftiMappableDataFile) (i j k : Int) (mapIndex : Nat)
    (mc : MapContent) (indexer : SparseVolumeIndexer)
    (hmap : f.m_mapContent[mapIndex]? = some mc)
    (hix : f.m_voxelIndicesToOffset = some indexer) (hne : mc.m_rgba ≠ []) :
    f.getVoxelColorInMap i j k mapIndex
      = writeVoxelColor mc.m_rgba (indexer.getOffsetForIndices i j k) 0 [0, 0, 0, 0] := by
  unfold getVoxelColorInMap
  simp only [hmap, hix]
  rw [if_neg]
  have := List.length_pos.mpr hne
  omega

/-- The part of `getVoxelColorsForSliceInMap` after the first switch, for a slice with at
least one voxel, in terms of the slice loops on the cleared buffer. -/
theorem colorSlice_eq (f : CiftiMappableDataFile) (mapIndex : Nat)
    (slicePlane : VolumeSliceViewPlaneEnum) (sliceIndex : Int) (rgbaOut : List Nat)
    (mc : MapContent) (indexer : SparseVolumeIndexer) (count : Nat)
    (hmap : f.m_mapContent[mapIndex]? = some mc)
    (hix : f.m_voxelIndicesToOffset = some indexer) (hne : mc.m_rgba ≠ [])
    (hcount : 0 < count) (hdst : count * 4 ≤ rgbaOut.length) :
    f.colorSlice mapIndex slicePlane sliceIndex (count : Int) rgbaOut =
      match slicePlane with
      | .ALL => some (List.replicate (count * 4) 0 ++ rgbaOut.drop (count * 4))
      | .AXIAL =>
        colorSliceVoxels mc.m_rgba (f.m_volumeDimensions.getD 1 0).toNat
          (f.m_volumeDimensions.getD 0 0).toNat
          (fun j i => indexer.getOffsetForIndices i j sliceIndex)
          (List.replicate (count * 4) 0 ++ rgbaOut.drop (count * 4))
      | .CORONAL =>
        colorSliceVoxels mc.m_rgba (f.m_volumeDimensions.getD 2 0).toNat
          (f.m_volumeDimensions.getD 0 0).toNat
          (fun k i => indexer.getOffsetForIndices i sliceIndex k)
          (List.replicate (count * 4) 0 ++ rgbaOut.drop (count * 4))
      | .PARASAGITTAL =>
        colorSliceVoxels mc.m_rgba (f.m_volumeDimensions.getD 2 0).toNat
          (f.m_volumeDimensions.getD 1 0).toNat
          (fun k j => indexer.getOffsetForIndices sliceIndex j k)
          (List.replicate (count * 4) 0 ++ rgbaOut.drop (count * 4)) := by
  have hlen := List.length_pos.mpr hne
  have hc4 : ((count : Int) * 4).toNat = count * 4 := by
    have : ((count : Int) * 4) = ((count * 4 : Nat) : Int) := by push_cast; ring
    rw [this, Int.toNat_ofNat]
  unfold colorSlice
  simp only [hmap, hix, hc4]
  rw [if_neg (by omega), if_neg (by omega), if_neg (by omega)]

end CiftiMappableDataFile

namespace CiftiMappableDataFile

/-- C14: for every map with a non-empty colour buffer, every slice plane (axial, coronal,
parasagittal) and every slice index within the dimension of the slice axis, the buffer
produced by `getVoxelColorsForSliceInMap` holds for every voxel of the plane exactly the four
bytes that `getVoxelColorInMap` returns for that voxel, at the offset `4*(j*dimI + i)` for an
axial slice (slice = k), `4*(k*dimI + i)` for a coronal slice (slice = j) and
`4*(k*dimJ + j)` for a parasagittal slice (slice = i); the bytes of an unmapped voxel are
`(0,0,0,0)`. The caller's buffer has at least four bytes per voxel of the slice and the
offsets of the indexer lie inside the colour buffer. -/
theorem getVoxelColorsForSliceInMap_refines (f : CiftiMappableDataFile) (mapIndex : Nat)
    (mc : MapContent) (indexer : SparseVolumeIndexer) (dimI dimJ dimK : Nat)
    (rgbaOut : List Nat)
    (hmap : f.m_mapContent[mapIndex]? = some mc)
    (hix : f.m_voxelIndicesToOffset = some indexer) (hne : mc.m_rgba ≠ [])
    (hdims : f.getDimensions.1 = dimI ∧ f.getDimensions.2.1 = dimJ ∧
      f.getDimensions.2.2.1 = dimK)
    (hoff : ∀ i j k : Int, 0 ≤ indexer.getOffsetForIndices i j k →
      (indexer.getOffsetForIndices i j k).toNat * 4 + 3 < mc.m_rgba.length) :
    (∀ slice : Nat, slice < dimK → dimI * dimJ * 4 ≤ rgbaOut.length →
      ∃ out, f.getVoxelColorsForSliceInMap mapIndex .AXIAL slice rgbaOut = some out ∧
        ∀ i j : Nat, i < dimI → j < dimJ →
          ∃ color, f.getVoxelColorInMap i j slice mapIndex = some color ∧
            (indexer.getOffsetForIndices i j slice < 0 → color = [0, 0, 0, 0]) ∧
            ∀ c, c < 4 → out[4 * (j * dimI + i) + c]? = color[c]?) ∧
    (∀ slice : Nat, slice < dimJ → dimI * dimK * 4 ≤ rgbaOut.length →
      ∃ out, f.getVoxelColorsForSliceInMap mapIndex .CORONAL slice rgbaOut = some out ∧
        ∀ i k : Nat, i < dimI → k < dimK →
          ∃ color, f.getVoxelColorInMap i slice k mapIndex = some color ∧
            (indexer.getOffsetForIndices i slice k < 0 → color = [0, 0, 0, 0]) ∧
            ∀ c, c < 4 → out[4 * (k * dimI + i) + c]? = color[c]?) ∧
    (∀ slice : Nat, slice < dimI → dimJ * dimK * 4 ≤ rgbaOut.length →
      ∃ out, f.getVoxelColorsForSliceInMap mapIndex .PARASAGITTAL slice rgbaOut = some out ∧
        ∀ j k : Nat, j < dimJ → k < dimK →
          ∃ color, f.getVoxelColorInMap slice j k mapIndex = some color ∧
            (indexer.getOffsetForIndices slice j k < 0 → color = [0, 0, 0, 0]) ∧
            ∀ c, c < 4 → out[4 * (k * dimJ + j) + c]? = color[c]?) := by
  simp only [getDimensions] at hdims
  obtain ⟨h0, h1, h2⟩ := hdims
  have hempty : ∀ (plane : VolumeSliceViewPlaneEnum) (slice : Int) (a b : Nat), a * b = 0 →
      f.colorSlice mapIndex plane slice ((a : Int) * b) rgbaOut = some rgbaOut := by
    intro plane slice a b hab
    have hcast : ((a : Int) * b) = ((a * b : Nat) : Int) := by push_cast; rfl
    unfold colorSlice
    rw [if_pos]
    rw [hcast, hab]
    simp
  refine ⟨?_, ?_, ?_⟩
  · intro slice hs hlen
    unfold getVoxelColorsForSliceInMap
    rw [if_neg (by omega)]
    simp only [h0, h1, h2]
    rw [if_neg (by omega)]
    by_cases hz : dimI * dimJ = 0
    · refine ⟨rgbaOut, hempty _ _ _ _ hz, ?_⟩
      intro i j hi hj
      have : 0 < dimI * dimJ := Nat.mul_pos (by omega) (by omega)
      omega
    · have hcast : ((dimI : Int) * dimJ) = ((dimI * dimJ : Nat) : Int) := by push_cast; rfl
      rw [hcast, colorSlice_eq f mapIndex .AXIAL slice rgbaOut mc indexer (dimI * dimJ) hmap hix
        hne (by omega) hlen]
      simp only [h0, h1, Int.toNat_ofNat]
      rw [Nat.mul_comm dimI dimJ]
      obtain ⟨out, hout, -, hvox⟩ := colorSliceVoxels_cleared mc.m_rgba dimJ dimI
        (fun j i => indexer.getOffsetForIndices i j slice) rgbaOut
        (fun a b _ _ h => hoff _ _ _ h) (by rw [Nat.mul_comm dimJ dimI]; exact hlen)
      refine ⟨out, hout, ?_⟩
      intro i j hi hj
      obtain ⟨color, hc, hzero, hget⟩ := hvox j i hj hi
      refine ⟨color, ?_, hzero, hget⟩
      rw [getVoxelColorInMap_eq f i j slice mapIndex mc indexer hmap hix hne]
      exact hc
  · intro slice hs hlen
    unfold getVoxelColorsForSliceInMap
    rw [if_neg (by omega)]
    simp only [h0, h1, h2]
    rw [if_neg (by omega)]
    by_cases hz : dimI * dimK = 0
    · refine ⟨rgbaOut, hempty _ _ _ _ hz, ?_⟩
      intro i k hi hk
      have : 0 < dimI * dimK := Nat.mul_pos (by omega) (by omega)
      omega
    · have hcast : ((dimI : Int) * dimK) = ((dimI * dimK : Nat) : Int) := by push_cast; rfl
      rw [hcast, colorSlice_eq f mapIndex .CORONAL slice rgbaOut mc indexer (dimI * dimK) hmap
        hix hne (by omega) hlen]
      simp only [h0, h2, Int.toNat_ofNat]
      rw [Nat.mul_comm dimI dimK]
      obtain ⟨out, hout, -, hvox⟩ := colorSliceVoxels_cleared mc.m_rgba dimK dimI
        (fun k i => indexer.getOffsetForIndices i slice k) rgbaOut
        (fun a b _ _ h => hoff _ _ _ h) (by rw [Nat.mul_comm dimK dimI]; exact hlen)
      refine ⟨out, hout, ?_⟩
      intro i k hi hk
      obtain ⟨color, hc, hzero, hget⟩ := hvox k i hk hi
      refine ⟨color, ?_, hzero, hget⟩
      rw [getVoxelColorInMap_eq f i slice k mapIndex mc indexer hmap hix hne]
      exact hc
  · intro slice hs hlen
    unfold getVoxelColorsForSliceInMap
    rw [if_neg (by omega)]
    simp only [h0, h1, h2]
    rw [if_neg (by omega)]
    by_cases hz : dimJ * dimK = 0
    · refine ⟨rgbaOut, hempty _ _ _ _ hz, ?_⟩
      intro j k hj hk
      have : 0 < dimJ * dimK := Nat.mul_pos (by omega) (by omega)
      omega
    · have hcast : ((dimJ : Int) * dimK) = ((dimJ * dimK : Nat) : Int) := by push_cast; rfl
      rw [hcast, colorSlice_eq f mapIndex .PARASAGITTAL slice rgbaOut mc indexer (dimJ * dimK)
        hmap hix hne (by omega) hlen]
      simp only [h1, h2, Int.toNat_ofNat]
      rw [Nat.mul_comm dimJ dimK]
      obtain ⟨out, hout, -, hvox⟩ := colorSliceVoxels_cleared mc.m_rgba dimK dimJ
        (fun k j => indexer.getOffsetForIndices slice j k) rgbaOut
        (fun a b _ _ h => hoff _ _ _ h) (by rw [Nat.mul_comm dimK dimJ]; exact hlen)
      refine ⟨out, hout, ?_⟩
      intro j k hj hk
      obtain ⟨color, hc, hzero, hget⟩ := hvox k j hk hj
      refine ⟨color, ?_, hzero, hget⟩
      rw [getVoxelColorInMap_eq f slice j k mapIndex mc indexer hmap hix hne]
      exact hc

end CiftiMappableDataFile

/-- Every offset of the indexer of the volume example is 17, 0 or -1. -/
theorem exampleVolumeIndexer_offsets (i j k : Int) :
    exampleVolumeIndexer.getOffsetForIndices i j k = 17 ∨
    exampleVolumeIndexer.getOffsetForIndices i j k = 0 ∨
    exampleVolumeIndexer.getOffsetForIndices i j k = -1 := by
  unfold SparseVolumeIndexer.getOffsetForIndices
  simp only [exampleVolumeIndexer, exampleVoxelMapping, if_true, List.find?]
  generalize (((3 : Int), (4 : Int), (2 : Int)) == (i, j, k)) = b1
  generalize (((0 : Int), (0 : Int), (2 : Int)) == (i, j, k)) = b2
  cases b1 <;> cases b2 <;> simp

namespace CiftiMappableDataFile

set_option maxRecDepth 100000 in
/-- Witness of C14: the axial slice 2 of the volume example (dimensions (10,10,5)) written into
a buffer of 400 bytes that held `7`: voxel (3,4,2), whose colour components are 0.75, has the
bytes 191 from offset 172, voxel (0,0,2), whose components are 1, has 255 at offset 0, and
the unmapped voxel (1,0,2) has 0 at offset 4. -/
theorem getVoxelColorsForSliceInMap_refines_witness :
    ∃ out, exampleVolumeFile.getVoxelColorsForSliceInMap 0 .AXIAL 2 (List.replicate 400 7)
        = some out ∧
      out[172]? = some 191 ∧ out[175]? = some 191 ∧ out[0]? = some 255 ∧ out[4]? = some 0 := by
  obtain ⟨out, hout, hvox⟩ := (getVoxelColorsForSliceInMap_refines exampleVolumeFile 0
    exampleVolumeMap exampleVolumeIndexer 10 10 5 (List.replicate 400 7) (by decide)
    (by decide) (by decide) (by decide)
    (by
      intro i j k h
      have hlen : exampleVolumeMap.m_rgba.length = 72 := by decide
      rw [hlen]
      rcases exampleVolumeIndexer_offsets i j k with h1 | h1 | h1 <;> rw [h1] at h ⊢
      · decide
      · decide
      · omega)).1 2 (by decide) (by decide)
  have h342 : exampleVolumeFile.getVoxelColorInMap 3 4 2 0 = some [191, 191, 191, 191] := by
    decide
  have h002 : exampleVolumeFile.getVoxelColorInMap 0 0 2 0 = some [255, 255, 255, 255] := by
    decide
  have h102 : exampleVolumeFile.getVoxelColorInMap 1 0 2 0 = some [0, 0, 0, 0] := by
    decide
  refine ⟨out, hout, ?_, ?_, ?_, ?_⟩
  · obtain ⟨color, hc, -, hget⟩ := hvox 3 4 (by decide) (by decide)
    simp only [Nat.cast_ofNat] at hc
    rw [h342] at hc
    cases hc
    exact hget 0 (by decide)
  · obtain ⟨color, hc, -, hget⟩ := hvox 3 4 (by decide) (by decide)
    simp only [Nat.cast_ofNat] at hc
    rw [h342] at hc
    cases hc
    exact hget 3 (by decide)
  · obtain ⟨color, hc, -, hget⟩ := hvox 0 0 (by decide) (by decide)
    simp only [Nat.cast_ofNat, Nat.cast_zero] at hc
    rw [h002] at hc
    cases hc
    exact hget 0 (by decide)
  · obtain ⟨color, hc, -, hget⟩ := hvox 1 0 (by decide) (by decide)
    simp only [Nat.cast_ofNat, Nat.cast_zero, Nat.cast_one] at hc
    rw [h102] at hc
    cases hc
    exact hget 0 (by decide)

end CiftiMappableDataFile

/-! ## Properties of `CubicSpline::hermite` -/

/-- The four weights of `CubicSpline::hermite`, as polynomials in `frac`. -/
theorem CubicSpline.hermite_weights (frac : CFloat) (lowEdge highEdge : Bool) :
    (CubicSpline.hermite frac lowEdge highEdge).m_weights 0
      = (if lowEdge then 0 else -frac ^ 3 / 2 + frac ^ 2 - frac / 2) ∧
    (CubicSpline.hermite frac lowEdge highEdge).m_weights 1
      = (if lowEdge then
          (if highEdge then 1 - frac else frac ^ 3 / 2 - frac ^ 2 / 2 - frac + 1)
        else
          (if highEdge then frac ^ 3 - 2 * frac ^ 2 + 1
          else 3 * frac ^ 3 / 2 - 5 * frac ^ 2 / 2 + 1)) ∧
    (CubicSpline.hermite frac lowEdge highEdge).m_weights 2
      = (if lowEdge then
          (if highEdge then frac else -frac ^ 3 + frac ^ 2 + frac)
        else
          (if highEdge then -frac ^ 3 / 2 + frac ^ 2 + frac / 2
          else -3 * frac ^ 3 / 2 + 2 * frac ^ 2 + frac / 2)) ∧
    (CubicSpline.hermite frac lowEdge highEdge).m_weights 3
      = (if highEdge then 0 else frac ^ 3 / 2 - frac ^ 2) := by
  cases lowEdge <;> cases highEdge <;>
    simp only [CubicSpline.hermite, if_true, if_false, Bool.false_eq_true,
      Matrix.cons_val_zero, Matrix.cons_val_one, Matrix.head_cons, Matrix.cons_val_two,
      Matrix.cons_val_three, Matrix.tail_cons] <;>
    refine ⟨?_, ?_, ?_, ?_⟩ <;> norm_num <;> ring

/-- C28 (what the code does): whenever `highEdge` is false the weight `m_weights[3]` is
`0.5 t^3 - t^2`, while the coefficient of `p[3]` in the cubic Hermite representation with the
commented tangents is `0.5 t^3 - 0.5 t^2`: the weighted sum of the samples is the Hermite
representation minus `t^2 / 2 * p[3]`. With `highEdge` true the weights are the Hermite
coefficients. At `frac = 1`, away from the edges, the weight of `p[3]` is `-1/2` where the
Hermite representation gives the sample `(0,0,0,1)` the value 0. -/
theorem CubicSpline.hermite_weightedSum (frac : CFloat) (lowEdge highEdge : Bool)
    (p : Fin 4 → CFloat) :
    (CubicSpline.hermite frac lowEdge highEdge).weightedSum p
      = hermiteRepresentation frac (p 1) (p 2) (hermiteTangent0 lowEdge p)
          (hermiteTangent1 highEdge p)
        - (if highEdge then 0 else frac ^ 2 / 2 * p 3) ∧
    (CubicSpline.hermite 1 false false).m_weights 3 = -1 / 2 ∧
    (CubicSpline.hermite 1 false false).weightedSum ![0, 0, 0, 1] = -1 / 2 ∧
    hermiteRepresentation 1 ((![0, 0, 0, 1] : Fin 4 → CFloat) 1)
      ((![0, 0, 0, 1] : Fin 4 → CFloat) 2) (hermiteTangent0 false ![0, 0, 0, 1])
      (hermiteTangent1 false ![0, 0, 0, 1]) = 0 := by
  refine ⟨?_, ?_, ?_, ?_⟩
  · obtain ⟨h0, h1, h2, h3⟩ := CubicSpline.hermite_weights frac lowEdge highEdge
    unfold CubicSpline.weightedSum hermiteRepresentation hermiteTangent0 hermiteTangent1
    rw [h0, h1, h2, h3]
    cases lowEdge <;> cases highEdge <;>
      simp only [if_true, if_false, Bool.false_eq_true] <;> ring
  · rw [(CubicSpline.hermite_weights 1 false false).2.2.2]
    norm_num
  · obtain ⟨h0, h1, h2, h3⟩ := CubicSpline.hermite_weights 1 false false
    unfold CubicSpline.weightedSum
    rw [h0, h1, h2, h3]
    norm_num
  · unfold hermiteRepresentation hermiteTangent0 hermiteTangent1
    norm_num

/-- C29 (what the code does): the four weights of `CubicSpline::hermite` sum to 1 when
`highEdge` is true and to `1 - frac^2 / 2` when it is false, because `m_weights[3]` is
`0.5 t^3 - t^2`. At `frac = 0` the weights are `(0,1,0,0)` in every case; at `frac = 1` they
are `(0,0,1,0)` with `highEdge` true and `(0,0,1,-1/2)` with `highEdge` false. Away from the
edges, at `frac = 1`, the constant signal 1 is interpolated to `1/2`. -/
theorem CubicSpline.hermite_weights_sum (frac : CFloat) (lowEdge highEdge : Bool) :
    (CubicSpline.hermite frac lowEdge highEdge).m_weights 0
      + (CubicSpline.hermite frac lowEdge highEdge).m_weights 1
      + (CubicSpline.hermite frac lowEdge highEdge).m_weights 2
      + (CubicSpline.hermite frac lowEdge highEdge).m_weights 3
      = (if highEdge then 1 else 1 - frac ^ 2 / 2) ∧
    (∀ i, (CubicSpline.hermite 0 lowEdge highEdge).m_weights i
      = (![0, 1, 0, 0] : Fin 4 → CFloat) i) ∧
    (∀ i, (CubicSpline.hermite 1 lowEdge highEdge).m_weights i
      = (![0, 0, 1, if highEdge then 0 else -1 / 2] : Fin 4 → CFloat) i) ∧
    (CubicSpline.hermite 1 false false).weightedSum (fun _ => 1) = 1 / 2 := by
  refine ⟨?_, ?_, ?_, ?_⟩
  · obtain ⟨h0, h1, h2, h3⟩ := CubicSpline.hermite_weights frac lowEdge highEdge
    rw [h0, h1, h2, h3]
    cases lowEdge <;> cases highEdge <;>
      simp only [if_true, if_false, Bool.false_eq_true] <;> ring
  · obtain ⟨h0, h1, h2, h3⟩ := CubicSpline.hermite_weights 0 lowEdge highEdge
    intro i
    fin_cases i
    · rw [show ((⟨0, by decide⟩ : Fin 4) = 0) from rfl, h0]
      cases lowEdge <;> simp
    · rw [show ((⟨1, by decide⟩ : Fin 4) = 1) from rfl, h1]
      cases lowEdge <;> cases highEdge <;> simp
    · rw [show ((⟨2, by decide⟩ : Fin 4) = 2) from rfl, h2]
      cases lowEdge <;> cases highEdge <;> simp
    · rw [show ((⟨3, by decide⟩ : Fin 4) = 3) from rfl, h3]
      cases highEdge <;> simp
  · obtain ⟨h0, h1, h2, h3⟩ := CubicSpline.hermite_weights 1 lowEdge highEdge
    intro i
    fin_cases i
    · rw [show ((⟨0, by decide⟩ : Fin 4) = 0) from rfl, h0]
      cases lowEdge <;> norm_num
    · rw [show ((⟨1, by decide⟩ : Fin 4) = 1) from rfl, h1]
      cases lowEdge <;> cases highEdge <;> norm_num
    · rw [show ((⟨2, by decide⟩ : Fin 4) = 2) from rfl, h2]
      cases lowEdge <;> cases highEdge <;> norm_num
    · rw [show ((⟨3, by decide⟩ : Fin 4) = 3) from rfl, h3]
      cases highEdge <;> norm_num
  · obtain ⟨h0, h1, h2, h3⟩ := CubicSpline.hermite_weights 1 false false
    unfold CubicSpline.weightedSum
    rw [h0, h1, h2, h3]
    norm_num

/-! ## Properties of the map flags, the label keys and the dimensions -/

/-- C23: content-modified and colouring-stale are two orthogonal dirty bits of a `MapContent`:
`invalidateColoring()` and `updateColoring()` leave the label table, the metadata and the
palette colour mapping as they are and never change the result of `isModifiedStatus()`;
`clearModifiedStatus()` never changes `colorsValid` or the RGBA buffer; `isModifiedStatus()` is
true if and only if the label table (when present), the metadata, or the palette colour
mapping (when present) is modified. -/
theorem MapContent.modified_and_coloring_orthogonal (nvc : NodeAndVoxelColoring)
    (mc : MapContent) (data : List CFloat) (paletteFile : Option PaletteFile) :
    (mc.invalidateColoring.isModifiedStatus = mc.isModifiedStatus ∧
      mc.invalidateColoring.m_labelTable = mc.m_labelTable ∧
      mc.invalidateColoring.m_metadata = mc.m_metadata ∧
      mc.invalidateColoring.m_paletteColorMapping = mc.m_paletteColorMapping) ∧
    (∀ mc1, mc.updateColoring nvc data paletteFile = some mc1 →
      mc1.isModifiedStatus = mc.isModifiedStatus ∧
      mc1.m_labelTable = mc.m_labelTable ∧ mc1.m_metadata = mc.m_metadata ∧
      mc1.m_paletteColorMapping = mc.m_paletteColorMapping) ∧
    (mc.clearModifiedStatus.m_rgbaValid = mc.m_rgbaValid ∧
      mc.clearModifiedStatus.m_rgba = mc.m_rgba) ∧
    (mc.isModifiedStatus = true ↔
      (∃ t, mc.m_labelTable = some t ∧ t.isModified = true) ∨
      mc.m_metadata.isModified = true ∨
      (∃ p, mc.m_paletteColorMapping = some p ∧ p.isModified = true)) := by
  have hframe : ∀ mc1 : MapContent, mc1.m_labelTable = mc.m_labelTable →
      mc1.m_metadata = mc.m_metadata →
      mc1.m_paletteColorMapping = mc.m_paletteColorMapping →
      mc1.isModifiedStatus = mc.isModifiedStatus ∧
      mc1.m_labelTable = mc.m_labelTable ∧ mc1.m_metadata = mc.m_metadata ∧
      mc1.m_paletteColorMapping = mc.m_paletteColorMapping := by
    intro mc1 h1 h2 h3
    refine ⟨?_, h1, h2, h3⟩
    unfold MapContent.isModifiedStatus
    rw [h1, h2, h3]
  refine ⟨hframe _ rfl rfl rfl, ?_, ⟨rfl, rfl⟩, ?_⟩
  · intro mc1 h
    unfold MapContent.updateColoring at h
    split at h
    · cases h; exact hframe _ rfl rfl rfl
    · split at h
      · cases h; exact hframe _ rfl rfl rfl
      · split at h
        · split at h
          · exact absurd h (by simp)
          · split at h
            · dsimp only at h
              split at h
              · cases h; exact hframe _ rfl rfl rfl
              · exact absurd h (by simp)
            · cases h; exact hframe _ rfl rfl rfl
        · split at h
          · cases h; exact hframe _ rfl rfl rfl
          · exact absurd h (by simp)
  · unfold MapContent.isModifiedStatus
    cases hl : mc.m_labelTable <;> cases hp : mc.m_paletteColorMapping <;>
      cases hm : mc.m_metadata.isModified <;> simp

/-- Inserting a key into the ascending sequence of a set: the elements afterwards are the key
and the elements before. -/
theorem mem_setInsert (key k : Int) (keys : List Int) :
    k ∈ setInsert key keys ↔ k = key ∨ k ∈ keys := by
  induction keys with
  | nil => simp [setInsert]
  | cons x xs ih =>
    unfold setInsert
    split
    · simp
    · split
      · rename_i hx
        subst hx
        simp
      · simp only [List.mem_cons, ih]
        tauto

/-- Inserting a key into the ascending sequence of a set keeps it strictly ascending. -/
theorem sorted_setInsert (key : Int) (keys : List Int) (h : keys.Sorted (· < ·)) :
    (setInsert key keys).Sorted (· < ·) := by
  induction keys with
  | nil => simp [setInsert]
  | cons x xs ih =>
    unfold setInsert
    rw [List.sorted_cons] at h
    split
    · rename_i hlt
      rw [List.sorted_cons]
      refine ⟨?_, List.sorted_cons.mpr h⟩
      intro b hb
      rcases List.mem_cons.mp hb with rfl | hb
      · exact hlt
      · exact lt_trans hlt (h.1 b hb)
    · split
      · exact List.sorted_cons.mpr h
      · rename_i h1 h2
        rw [List.sorted_cons]
        refine ⟨?_, ih h.2⟩
        intro b hb
        rcases (mem_setInsert key b xs).mp hb with rfl | hb
        · omega
        · exact h.1 b hb

/-- The keys collected from a sequence of data elements whose integer parts fit `int32_t`:
strictly ascending, and exactly the truncations of the elements together with the keys
collected before. -/
theorem foldlM_insertLabelKey (data : List CFloat) (keys0 : List Int)
    (h : keys0.Sorted (· < ·)) (hrange : ∀ x ∈ data, fitsInt32 (floatToInt32 x)) :
    ∃ keys, data.foldlM insertLabelKey keys0 = some keys ∧ keys.Sorted (· < ·) ∧
      ∀ k, k ∈ keys ↔ k ∈ keys0 ∨ ∃ x ∈ data, floatToInt32 x = k := by
  induction data generalizing keys0 with
  | nil => exact ⟨keys0, rfl, h, by simp⟩
  | cons x xs ih =>
    have hx : insertLabelKey keys0 x = some (setInsert (floatToInt32 x) keys0) := by
      unfold insertLabelKey
      rw [if_pos (hrange x (List.mem_cons_self _ _))]
    obtain ⟨keys, hk, hs, hm⟩ := ih (setInsert (floatToInt32 x) keys0) (sorted_setInsert _ _ h)
      (fun y hy => hrange y (List.mem_cons_of_mem _ hy))
    refine ⟨keys, ?_, hs, ?_⟩
    · rw [List.foldlM_cons, hx]
      exact hk
    · intro k
      rw [hm k, mem_setInsert]
      simp only [List.mem_cons, exists_eq_or_imp]
      constructor
      · rintro ((h1 | h1) | h1)
        · exact Or.inr (Or.inl h1.symm)
        · exact Or.inl h1
        · exact Or.inr (Or.inr h1)
      · rintro (h1 | h1 | h1)
        · exact Or.inl (Or.inr h1)
        · exact Or.inl (Or.inl h1.symm)
        · exact Or.inr h1

namespace CiftiMappableDataFile

/-- C24: `getUniqueLabelKeysUsedInMap` returns, for every map of a file with a facade whose
data elements have integer parts that fit `int32_t` (the type of a key), the unique label
keys present in the data of the map as a strictly ascending vector without duplicates: an
integer key is in the result if and only if some data element of the map truncates to it;
every key of the result fits `int32_t`; empty map data give an empty vector. -/
theorem getUniqueLabelKeysUsedInMap_spec (f : CiftiMappableDataFile) (mapIndex : Nat)
    (data : List CFloat) (h : f.getMapData mapIndex = some data)
    (hrange : ∀ x ∈ data, fitsInt32 (floatToInt32 x)) :
    ∃ keys, f.getUniqueLabelKeysUsedInMap mapIndex = some keys ∧
      keys.Sorted (· < ·) ∧ keys.Nodup ∧
      (∀ k, k ∈ keys ↔ ∃ x ∈ data, floatToInt32 x = k) ∧
      (∀ k ∈ keys, fitsInt32 k) ∧
      (data = [] → keys = []) := by
  unfold getUniqueLabelKeysUsedInMap
  rw [h]
  by_cases hd : data.length > 0
  · obtain ⟨keys, hk, hs, hm⟩ := foldlM_insertLabelKey data [] (List.sorted_nil) hrange
    have hmem : ∀ k, k ∈ keys ↔ ∃ x ∈ data, floatToInt32 x = k := by
      intro k
      rw [hm k]
      simp
    refine ⟨keys, by simp only [if_pos hd]; exact hk, hs, hs.nodup, hmem, ?_, ?_⟩
    · intro k hkm
      obtain ⟨x, hx, rfl⟩ := (hmem k).mp hkm
      exact hrange x hx
    · intro he
      rw [he] at hd
      exact absurd hd (by simp)
  · have he : data = [] := List.length_eq_zero.mp (by omega)
    refine ⟨[], by simp only [if_neg hd], List.sorted_nil, List.nodup_nil, ?_, ?_, fun _ => rfl⟩
    · intro k
      rw [he]
      simp
    · intro k hkm
      exact absurd hkm (List.not_mem_nil k)

set_option maxRecDepth 100000 in
/-- Witness of C24: the map of the label example holds the values 42, sixteen times 3, and 7:
the keys are 3, 7 and 42. -/
theorem getUniqueLabelKeysUsedInMap_spec_witness :
    exampleLabelFile.getMapData 0 = some exampleLabelData ∧
    (∀ x ∈ exampleLabelData, fitsInt32 (floatToInt32 x)) ∧
    exampleLabelFile.getUniqueLabelKeysUsedInMap 0 = some [3, 7, 42] ∧
    ∃ keys, exampleLabelFile.getUniqueLabelKeysUsedInMap 0 = some keys ∧
      keys.Sorted (· < ·) ∧ keys.Nodup ∧
      (∀ k, k ∈ keys ↔ ∃ x ∈ exampleLabelData, floatToInt32 x = k) ∧
      (∀ k ∈ keys, fitsInt32 k) ∧
      (exampleLabelData = [] → keys = []) :=
  ⟨by decide, by decide, by decide,
    getUniqueLabelKeysUsedInMap_spec exampleLabelFile 0 exampleLabelData (by decide)
      (by decide)⟩

/-- C25 (what the code does): the vector overload of `getDimensions` appends the five
dimensions (the values of the scalar overload) to `dimsOut` without clearing it: afterwards
`dimsOut` has five elements more than before, and holds exactly the five dimensions only when
it was empty. A vector that held `7` holds six elements afterwards, the first of them `7`. -/
theorem getDimensionsVector_appends (f : CiftiMappableDataFile) (dimsOut : List Int) :
    f.getDimensionsVector dimsOut
      = dimsOut ++ [f.getDimensions.1, f.getDimensions.2.1, f.getDimensions.2.2.1,
          f.getDimensions.2.2.2.1, f.getDimensions.2.2.2.2] ∧
    (f.getDimensionsVector dimsOut).length = dimsOut.length + 5 ∧
    exampleOpenedFile.getDimensions = (10, 10, 5, 1, 1) ∧
    exampleOpenedFile.getDimensionsVector [] = [10, 10, 5, 1, 1] ∧
    exampleOpenedFile.getDimensionsVector [7] = [7, 10, 10, 5, 1, 1] := by
  refine ⟨?_, ?_, by decide, by decide, by decide⟩
  · simp [getDimensionsVector, getDimensions]
  · simp [getDimensionsVector]

end CiftiMappableDataFile

/-! ## Properties of `writeFile` -/

/-- Two texts appended to the same file name are different when they are. -/
theorem append_ne_append_left (filename a b : String) (h : a ≠ b) :
    filename ++ a ≠ filename ++ b := by
  intro he
  apply h
  have hd := congrArg String.data he
  rw [String.data_append, String.data_append] at hd
  exact String.ext (List.append_cancel_left hd)

namespace CiftiMappableDataFile

/-- The loop of `writeFile` over the first `n` maps: with map attributes one call per map, in
order, with the metadata of the map; without map attributes no call. -/
theorem writeMapMetadata_fold (f : CiftiMappableDataFile) (calls0 : List WriteCall) (n : Nat)
    (hn : n ≤ f.m_mapContent.length) :
    ∃ mapCalls, (List.range n).foldlM f.writeMapMetadata calls0 = some (calls0 ++ mapCalls) ∧
      mapCalls.length = (if f.hasMapAttributes then n else 0) ∧
      ∀ i mc, i < n → f.m_mapContent[i]? = some mc → f.hasMapAttributes = true →
        mapCalls[i]? = some (.setMetadataForMapOrSeriesIndex i mc.m_metadata) := by
  induction n with
  | zero =>
    refine ⟨[], by simp, by simp, ?_⟩
    intro i mc hi
    omega
  | succ a ih =>
    obtain ⟨mapCalls, hfold, hlen, hget⟩ := ih (by omega)
    rw [List.range_succ, List.foldlM_append, hfold]
    simp only [Option.bind_eq_bind, Option.some_bind, List.foldlM_cons, List.foldlM_nil]
    unfold writeMapMetadata getMapMetaData
    by_cases hattr : f.hasMapAttributes = true
    · rw [if_pos hattr] at hlen ⊢
      have hlt : a < f.m_mapContent.length := by omega
      rw [List.getElem?_eq_getElem hlt]
      refine ⟨mapCalls ++ [.setMetadataForMapOrSeriesIndex a (f.m_mapContent[a]).m_metadata],
        ?_, ?_, ?_⟩
      · simp [List.append_assoc]
      · rw [if_pos hattr, List.length_append, hlen]
        rfl
      · intro i mc hi hmc _
        by_cases hia : i < a
        · rw [List.getElem?_append_left (by omega)]
          exact hget i mc hia hmc hattr
        · have hia2 : i = a := by omega
          subst hia2
          rw [List.getElem?_eq_getElem hlt] at hmc
          cases hmc
          rw [List.getElem?_append_right (by omega), hlen]
          simp
    · rw [if_neg hattr] at hlen ⊢
      refine ⟨mapCalls, by simp, by rw [if_neg hattr]; exact hlen, ?_⟩
      intro i mc _ _ h
      exact absurd h hattr

/-- C22: `writeFile` fails with a `DataFileException` and writes nothing (no metadata is pushed
to the facade, the write of the CIFTI file is never invoked) in each of three cases, each with
its own message, different from the two others: no file is loaded; the loaded file was not read
from a disk file; the file type is dense connectivity. In every other case (a file read from
disk, not dense connectivity) it first pushes the file metadata to the facade, then, for a file
with map attributes, the metadata of each map in order, and only then invokes the write of
the CIFTI file, whose failure it raises as a `DataFileException`. -/
theorem writeFile_spec (ciftiFileWriteFile : String → Option Thrown)
    (f : CiftiMappableDataFile) (filename : String) :
    (f.m_ciftiInterface = none →
      f.writeFile ciftiFileWriteFile filename
        = some { raised := some (noFileLoadedMessage filename), calls := [] }) ∧
    (∀ url xml, f.m_ciftiInterface = some (.ciftiXnat url xml) →
      f.writeFile ciftiFileWriteFile filename
        = some { raised := some (notReadFromDiskMessage filename), calls := [] }) ∧
    (∀ name cache xml, f.m_ciftiInterface = some (.ciftiFile name cache xml) →
      f.m_dataFileType = .CONNECTIVITY_DENSE →
      f.writeFile ciftiFileWriteFile filename
        = some { raised := some (denseNotWritableMessage filename), calls := [] }) ∧
    (noFileLoadedMessage filename ≠ notReadFromDiskMessage filename ∧
      noFileLoadedMessage filename ≠ denseNotWritableMessage filename ∧
      notReadFromDiskMessage filename ≠ denseNotWritableMessage filename) ∧
    (∀ name cache xml facade, f.m_ciftiInterface = some (.ciftiFile name cache xml) →
      f.m_dataFileType ≠ .CONNECTIVITY_DENSE → f.m_ciftiFacade = some facade →
      ∃ mapCalls,
        f.writeFile ciftiFileWriteFile filename
          = some { raised :=
                     match ciftiFileWriteFile filename with
                     | none => none
                     | some (.CiftiFileException e) => some e
                     | some (.DataFileException e) => some e
                   calls := [.setFileMetadata f.m_metadata] ++ mapCalls
                     ++ [.ciftiFileWriteFile filename] } ∧
        mapCalls.length = (if f.hasMapAttributes then f.m_mapContent.length else 0) ∧
        ∀ (i : Nat) (mc : MapContent), f.m_mapContent[i]? = some mc →
          f.hasMapAttributes = true →
          mapCalls[i]? = some (WriteCall.setMetadataForMapOrSeriesIndex i mc.m_metadata)) := by
  refine ⟨?_, ?_, ?_, ⟨?_, ?_, ?_⟩, ?_⟩
  · intro h
    unfold writeFile
    rw [h]
  · intro url xml h
    unfold writeFile
    rw [h]
  · intro name cache xml h hd
    unfold writeFile
    rw [h]
    simp only [hd, if_true]
  · unfold noFileLoadedMessage notReadFromDiskMessage
    rw [String.append_assoc]
    exact append_ne_append_left _ _ _ (by decide)
  · unfold noFileLoadedMessage denseNotWritableMessage
    exact append_ne_append_left _ _ _ (by decide)
  · unfold notReadFromDiskMessage denseNotWritableMessage
    rw [String.append_assoc]
    exact append_ne_append_left _ _ _ (by decide)
  · intro name cache xml facade h hd hf
    obtain ⟨mapCalls, hfold, hlen, hget⟩ := writeMapMetadata_fold f
      [.setFileMetadata f.m_metadata] f.m_mapContent.length (le_refl _)
    refine ⟨mapCalls, ?_, hlen, ?_⟩
    · unfold writeFile
      rw [h]
      simp only [hd, if_false, hf, getNumberOfMaps, Int.toNat_ofNat, hfold]
      cases hw : ciftiFileWriteFile filename with
      | none => rfl
      | some e => cases e <;> rfl
    · intro i mc hmc hattr
      have hi : i < f.m_mapContent.length := by
        by_contra hcon
        rw [List.getElem?_eq_none (by omega)] at hmc
        exact absurd hmc (by simp)
      exact hget i mc hi hmc hattr

set_option maxRecDepth 100000 in
/-- Witness of C22: a file object into which nothing was read, a file read from an XNAT
address and a dense connectivity file read from disk are not written; the dense scalar file
read from `brain.dscalar.nii` pushes its metadata and the metadata of its two maps, then
writes; when the write of the CIFTI file fails, the metadata have been pushed before. -/
theorem writeFile_spec_witness :
    exampleFile.writeFile exampleCiftiFileWriteFile "out.nii"
      = some { raised := some "out.nii cannot be written because no file is loaded"
               calls := [] } ∧
    exampleXnatFile.writeFile exampleCiftiFileWriteFile "out.nii"
      = some { raised := some (notReadFromDiskMessage "out.nii"), calls := [] } ∧
    exampleDenseFile.writeFile exampleCiftiFileWriteFile "out.nii"
      = some { raised := some (denseNotWritableMessage "out.nii"), calls := [] } ∧
    exampleOpenedFile.writeFile exampleCiftiFileWriteFile "out.nii"
      = some { raised := none
               calls := [.setFileMetadata ⟨[("Provenance", "wb_command")], false⟩,
                 .setMetadataForMapOrSeriesIndex 0 ⟨[("MapIndex", "0")], false⟩,
                 .setMetadataForMapOrSeriesIndex 1 ⟨[("MapIndex", "1")], false⟩,
                 .ciftiFileWriteFile "out.nii"] } ∧
    exampleOpenedFile.writeFile exampleCiftiFileWriteFile "/readonly/out.nii"
      = some { raised := some "cannot open for writing"
               calls := [.setFileMetadata ⟨[("Provenance", "wb_command")], false⟩,
                 .setMetadataForMapOrSeriesIndex 0 ⟨[("MapIndex", "0")], false⟩,
                 .setMetadataForMapOrSeriesIndex 1 ⟨[("MapIndex", "1")], false⟩,
                 .ciftiFileWriteFile "/readonly/out.nii"] } :=
  ⟨((writeFile_spec exampleCiftiFileWriteFile exampleFile "out.nii").1 (by decide)).trans
      (by decide),
    (writeFile_spec exampleCiftiFileWriteFile exampleXnatFile "out.nii").2.1
      "https://xnat.example.org/data" exampleScalarXML (by decide),
    (writeFile_spec exampleCiftiFileWriteFile exampleDenseFile "out.nii").2.2.1
      "brain.dconn.nii" .ON_DISK
      { mappingTypeAlongRow := .CIFTI_INDEX_TYPE_BRAIN_MODELS
        mappingTypeAlongColumn := .CIFTI_INDEX_TYPE_BRAIN_MODELS
        volumeAttributesForPlumb := none } (by decide) (by decide),
    by decide, by decide⟩

end CiftiMappableDataFile

/-! ## Properties of the identification of a surface node -/

/-- The texts appended one after the other to a text are the text followed by their
concatenation. -/
theorem foldl_append_eq_append_join (l : List String) (acc : String) :
    l.foldl (fun r s => r ++ s) acc = acc ++ String.join l := by
  have key : ∀ (l : List String) (a b : String),
      l.foldl (fun r s => r ++ s) (a ++ b) = a ++ l.foldl (fun r s => r ++ s) b := by
    intro l
    induction l with
    | nil => intro a b; rfl
    | cons x xs ih =>
      intro a b
      rw [List.foldl_cons, List.foldl_cons, String.append_assoc, ih]
  have h := key l acc ""
  rw [String.append_empty] at h
  exact h

/-- The concatenation of a first text and further texts. -/
theorem join_cons (x : String) (xs : List String) :
    String.join (x :: xs) = x ++ String.join xs := by
  show (x :: xs).foldl (fun r s => r ++ s) "" = x ++ String.join xs
  rw [List.foldl_cons, String.empty_append, foldl_append_eq_append_join]

namespace CiftiMappableDataFile

/-- The second loop of `getMapSurfaceNodeIdentificationForMaps` on a label-table-coloured
file: each requested map appends the name of the label of the node, or the invalid-key form,
and one space. -/
theorem identifyNodeFromSeriesData_fold (fmt : NumberFormat) (f : CiftiMappableDataFile)
    (facade : CiftiFacade) (seriesData : List CFloat) (values : Nat → CFloat)
    (tables : Nat → GiftiLabelTable)
    (hlabel : facade.isBrainordinateDataColoredWithLabelTable = true)
    (mapIndices : List Nat) :
    (∀ m ∈ mapIndices, seriesData[m]? = some (values m) ∧
      f.getMapLabelTable m = some (some (tables m))) →
    ∀ (text : String) (validID : Bool),
      mapIndices.foldlM (identifyNodeFromSeriesData fmt f facade seriesData) (text, validID)
        = some (text ++ String.join (mapIndices.map (fun m =>
            (match (tables m).getLabel (floatToInt32 (values m)) with
              | some gl => gl.name
              | none => "InvalidKey=" ++ fmt.number (values m)) ++ " ")),
          validID || !mapIndices.isEmpty) := by
  induction mapIndices with
  | nil =>
    intro _ text validID
    simp [String.join]
  | cons m ms ih =>
    intro hmaps text validID
    obtain ⟨hv, ht⟩ := hmaps m (List.mem_cons_self _ _)
    have hstep : identifyNodeFromSeriesData fmt f facade seriesData (text, validID) m
        = some (text ++ ((match (tables m).getLabel (floatToInt32 (values m)) with
              | some gl => gl.name
              | none => "InvalidKey=" ++ fmt.number (values m)) ++ " "), true) := by
      unfold identifyNodeFromSeriesData
      simp only [hv, ht, hlabel, if_true]
      cases (tables m).getLabel (floatToInt32 (values m)) <;>
        simp only [String.append_assoc]
    rw [List.foldlM_cons, hstep]
    simp only [Option.bind_eq_bind, Option.some_bind]
    rw [ih (fun k hk => hmaps k (List.mem_cons_of_mem _ hk)), List.map_cons, join_cons,
      String.append_assoc]
    simp

/-- C21: for a label-table-coloured file whose identification uses series data (label, scalar
and data-series file types) and whose series data for the node are available,
`getMapSurfaceNodeIdentificationForMaps` produces, for the requested map indices in order, the
name of the label when the integer truncation of the value of the node is a key of the label
table of that map, and otherwise the invalid-key form `InvalidKey=<value>`, each entry
followed by one space; it returns true whenever at least one map index is requested. The
series data hold a value for every requested map, and every requested map has a label
table. -/
theorem getMapSurfaceNodeIdentificationForMaps_labels (q : CiftiSurfaceQueries)
    (fmt : NumberFormat) (f : CiftiMappableDataFile) (facade : CiftiFacade)
    (mapIndices : List Nat) (brainStructure : StructureEnum) (nodeIndex numberOfNodes : Int)
    (textOut : String) (seriesData : List CFloat) (values : Nat → CFloat)
    (tables : Nat → GiftiLabelTable)
    (hiface : f.isCiftiInterfaceValid = true)
    (hfacade : f.m_ciftiFacade = some facade)
    (htype : facade.getCiftiFileType = .CIFTI_LABEL ∨ facade.getCiftiFileType = .CIFTI_SCALAR ∨
      facade.getCiftiFileType = .CIFTI_DATA_SERIES)
    (hlabel : facade.isBrainordinateDataColoredWithLabelTable = true)
    (hseries : facade.getSeriesDataForSurfaceNode brainStructure nodeIndex = (true, seriesData))
    (hmaps : ∀ m ∈ mapIndices, seriesData[m]? = some (values m) ∧
      f.getMapLabelTable m = some (some (tables m))) :
    f.getMapSurfaceNodeIdentificationForMaps q fmt mapIndices brainStructure nodeIndex
        numberOfNodes textOut
      = some { returned := !mapIndices.isEmpty
               textOut := String.join (mapIndices.map (fun m =>
                 (match (tables m).getLabel (floatToInt32 (values m)) with
                   | some gl => gl.name
                   | none => "InvalidKey=" ++ fmt.number (values m)) ++ " ")) } := by
  have hfold := identifyNodeFromSeriesData_fold fmt f facade seriesData values tables hlabel
    mapIndices hmaps "" false
  rw [String.empty_append, Bool.false_or] at hfold
  unfold getMapSurfaceNodeIdentificationForMaps getSeriesDataForSurfaceNode
  rcases htype with h | h | h <;> simp [hiface, hfacade, h, hseries, hfold]

set_option maxRecDepth 100000 in
/-- Witness of C21: in the second label example node 5 has the value 7 in map 1, the key of
`"MT"`, and the value 42 in map 0, which is not a key of the label table: for the maps 1 and 0
the text is `"MT InvalidKey=42 "`. With no map requested the call returns false. -/
theorem getMapSurfaceNodeIdentificationForMaps_labels_witness :
    exampleTwoLabelFile.getMapSurfaceNodeIdentificationForMaps exampleQueries
        exampleNumberFormat [1, 0] .CORTEX_RIGHT 5 8 "old"
      = some { returned := true, textOut := "MT InvalidKey=42 " } ∧
    exampleTwoLabelFile.getMapSurfaceNodeIdentificationForMaps exampleQueries
        exampleNumberFormat [] .CORTEX_RIGHT 5 8 "old"
      = some { returned := false, textOut := "" } :=
  ⟨(getMapSurfaceNodeIdentificationForMaps_labels exampleQueries exampleNumberFormat
      exampleTwoLabelFile exampleTwoLabelFacade [1, 0] .CORTEX_RIGHT 5 8 "old" [42, 7]
      (fun m => if m = 0 then 42 else 7) (fun _ => exampleLabelTable)
      (by decide) (by rfl) (by decide) (by decide) (by decide) (by decide)).trans (by decide),
    by decide⟩

end CiftiMappableDataFile

/-! ## Properties of the coordinate conversions -/

/-- On one axis with a spacing that is not zero, the voxel nearest to the coordinate of the
centre of voxel `i` is voxel `i`. -/
theorem floor_center (origin spacing : CFloat) (i : Int) (h : spacing ≠ 0) :
    ⌊(origin + (i : CFloat) * spacing - origin) / spacing + 1 / 2⌋ = i := by
  rw [add_sub_cancel_left, mul_div_assoc, div_self h, mul_one, Int.floor_int_add]
  have : ⌊(1 / 2 : CFloat)⌋ = 0 := by
    rw [Int.floor_eq_iff]
    constructor <;> norm_num
  rw [this, add_zero]

namespace CiftiMappableDataFile

/-- C26: for the conversions of a geometry whose spacing is not zero on any axis, and a file
with an indexer, `enclosingVoxel` applied to the coordinate returned by `indexToSpace(i,j,k)`
gives back `(i,j,k)`, for all voxel indices (those within the volume dimensions included): the
two conversions of the file are inverse to each other at voxel centres. -/
theorem enclosingVoxel_indexToSpace (g : VolumeGeometry) (f : CiftiMappableDataFile)
    (indexer : SparseVolumeIndexer) (i j k : Int)
    (hix : f.m_voxelIndicesToOffset = some indexer)
    (hspacing : g.spacing.1 ≠ 0 ∧ g.spacing.2.1 ≠ 0 ∧ g.spacing.2.2 ≠ 0) :
    ∃ xyz, f.indexToSpaceIJK g.toVoxelCoordinates (i, j, k) = some xyz ∧
      f.enclosingVoxel g.toVoxelCoordinates xyz.1 xyz.2.1 xyz.2.2 = some (i, j, k) := by
  refine ⟨g.indicesToCoordinate i j k, ?_, ?_⟩
  · unfold indexToSpaceIJK indexToSpace
    rw [hix]
    rfl
  · unfold enclosingVoxel
    rw [hix]
    simp only [VolumeGeometry.toVoxelCoordinates, VolumeGeometry.coordinateToIndices,
      VolumeGeometry.indicesToCoordinate]
    rw [floor_center _ _ i hspacing.1, floor_center _ _ j hspacing.2.1,
      floor_center _ _ k hspacing.2.2]

set_option maxRecDepth 100000 in
/-- Witness of C26: the volume example with voxels of 2 units, the first axis running from
right to left: voxel (3,4,2) has its centre at (84,-118,-68), whose enclosing voxel is
(3,4,2). -/
theorem enclosingVoxel_indexToSpace_witness :
    exampleVolumeFile.indexValid 3 4 2 0 0 = true ∧
    exampleVolumeFile.indexToSpaceIJK exampleGeometry.toVoxelCoordinates (3, 4, 2)
      = some (84, -118, -68) ∧
    ∃ xyz, exampleVolumeFile.indexToSpaceIJK exampleGeometry.toVoxelCoordinates (3, 4, 2)
        = some xyz ∧
      exampleVolumeFile.enclosingVoxel exampleGeometry.toVoxelCoordinates xyz.1 xyz.2.1 xyz.2.2
        = some (3, 4, 2) :=
  ⟨by decide, by
    have hix : exampleVolumeFile.m_voxelIndicesToOffset = some exampleVolumeIndexer := by decide
    unfold indexToSpaceIJK indexToSpace
    rw [hix]
    simp only [VolumeGeometry.toVoxelCoordinates, VolumeGeometry.indicesToCoordinate,
      exampleGeometry]
    norm_num,
    enclosingVoxel_indexToSpace exampleGeometry exampleVolumeFile exampleVolumeIndexer 3 4 2
      (by decide) (by decide)⟩

end CiftiMappableDataFile

/-! ## Properties of `ConnectivityLoaderFile::getSurfaceNodeColoring` -/

namespace ConnectivityLoaderFile

/-- One entry of the node map whose node and data index are inside the arrays: the four
components of the node are replaced by those of the data element, nothing else changes. -/
theorem copyNodeColor_spec (dataRGBA nodeRGBA : List CFloat) (entry : CiftiSurfaceMap)
    (hn : 0 ≤ entry.m_surfaceNode)
    (hnb : entry.m_surfaceNode.toNat * 4 + 3 < nodeRGBA.length)
    (hc : 0 ≤ entry.m_ciftiIndex)
    (hcb : entry.m_ciftiIndex.toNat * 4 + 3 < dataRGBA.length) :
    ∃ out, copyNodeColor dataRGBA nodeRGBA entry = some out ∧
      out.length = nodeRGBA.length ∧
      ∀ idx : Nat, out[idx]? =
        if idx / 4 = entry.m_surfaceNode.toNat then
          dataRGBA[entry.m_ciftiIndex.toNat * 4 + idx % 4]?
        else nodeRGBA[idx]? := by
  have h4 : (entry.m_surfaceNode * 4).toNat = entry.m_surfaceNode.toNat * 4 := by omega
  have c4 : (entry.m_ciftiIndex * 4).toNat = entry.m_ciftiIndex.toNat * 4 := by omega
  generalize hnode : entry.m_surfaceNode.toNat = n at hnb h4
  generalize hcifti : entry.m_ciftiIndex.toNat = d at hcb c4
  obtain ⟨r, hr⟩ : ∃ r, dataRGBA[d * 4]? = some r :=
    ⟨_, List.getElem?_eq_getElem (by omega)⟩
  obtain ⟨g, hg⟩ : ∃ g, dataRGBA[d * 4 + 1]? = some g :=
    ⟨_, List.getElem?_eq_getElem (by omega)⟩
  obtain ⟨b, hb⟩ : ∃ b, dataRGBA[d * 4 + 2]? = some b :=
    ⟨_, List.getElem?_eq_getElem (by omega)⟩
  obtain ⟨a, ha⟩ : ∃ a, dataRGBA[d * 4 + 3]? = some a :=
    ⟨_, List.getElem?_eq_getElem (by omega)⟩
  have hw : copyNodeColor dataRGBA nodeRGBA entry
      = some ((((nodeRGBA.set (n * 4) r).set (n * 4 + 1) g).set (n * 4 + 2) b).set
          (n * 4 + 3) a) := by
    unfold copyNodeColor
    simp only [h4, c4]
    rw [if_pos ⟨by omega, by omega, by omega⟩, hr, hg, hb, ha]
  refine ⟨_, hw, by simp, ?_⟩
  intro idx
  simp only [List.getElem?_set, List.length_set]
  by_cases hblock : idx / 4 = n
  · rw [if_pos hblock]
    rcases (by omega : idx % 4 = 0 ∨ idx % 4 = 1 ∨ idx % 4 = 2 ∨ idx % 4 = 3) with h | h | h | h
    · rw [h, if_neg (by omega), if_neg (by omega), if_neg (by omega), if_pos (by omega),
        if_pos (by omega)]
      exact hr.symm
    · rw [h, if_neg (by omega), if_neg (by omega), if_pos (by omega), if_pos (by omega)]
      exact hg.symm
    · rw [h, if_neg (by omega), if_pos (by omega), if_pos (by omega)]
      exact hb.symm
    · rw [h, if_pos (by omega), if_pos (by omega)]
      exact ha.symm
  · rw [if_neg hblock, if_neg (by omega), if_neg (by omega), if_neg (by omega),
      if_neg (by omega)]

/-- The loop of `getSurfaceNodeColoring` over a node map whose nodes and data indices are
inside the arrays: every component of a node is taken from the last entry that lists the
node, and is unchanged when no entry lists it. -/
theorem copyNodeColor_fold (dataRGBA buf0 : List CFloat) (nodeMap : List CiftiSurfaceMap)
    (hok : ∀ e ∈ nodeMap, 0 ≤ e.m_surfaceNode ∧ e.m_surfaceNode.toNat * 4 + 3 < buf0.length ∧
      0 ≤ e.m_ciftiIndex ∧ e.m_ciftiIndex.toNat * 4 + 3 < dataRGBA.length) :
    ∃ out, nodeMap.foldlM (copyNodeColor dataRGBA) buf0 = some out ∧
      out.length = buf0.length ∧
      ∀ idx : Nat, out[idx]? =
        match nodeMap.reverse.find? (fun e => decide (idx / 4 = e.m_surfaceNode.toNat)) with
        | some e => dataRGBA[e.m_ciftiIndex.toNat * 4 + idx % 4]?
        | none => buf0[idx]? := by
  induction nodeMap using List.reverseRecOn with
  | nil => exact ⟨buf0, rfl, rfl, fun _ => rfl⟩
  | append_singleton l e ih =>
    obtain ⟨out1, h1, hlen1, hget1⟩ := ih (fun x hx => hok x (List.mem_append_left _ hx))
    obtain ⟨hn, hnb, hc, hcb⟩ := hok e (List.mem_append_right _ (List.mem_singleton_self e))
    obtain ⟨out2, h2, hlen2, hget2⟩ := copyNodeColor_spec dataRGBA out1 e hn (by omega) hc hcb
    refine ⟨out2, ?_, by omega, ?_⟩
    · rw [List.foldlM_append, h1]
      simp only [Option.bind_eq_bind, Option.some_bind, List.foldlM_cons, List.foldlM_nil]
      rw [h2]
      rfl
    · intro idx
      rw [hget2 idx, List.reverse_append, List.reverse_singleton, List.singleton_append,
        List.find?_cons]
      by_cases hblock : idx / 4 = e.m_surfaceNode.toNat
      · rw [if_pos hblock]
        simp only [hblock, decide_True]
      · rw [if_neg hblock, hget1 idx]
        simp only [hblock, decide_False]

/-- C27: `ConnectivityLoaderFile::getSurfaceNodeColoring` returns false, writing nothing, when
no data elements are loaded (`numberOfDataElements <= 0`) or the loader type is not dense.
Otherwise (the file has an interface, `nodeRGBA` has `numberOfNodes * 4` values, `dataRGBA`
four per data element, and the entries of the column surface map of the structure name
nodes of the surface and data elements of the file) it returns true and `nodeRGBA` holds, for
each node listed in the surface map, the four `dataRGBA` components at the CIFTI index of the
entry that lists it (of the last such entry, should the list name a node twice), and 0 in
every component of every node not listed. -/
theorem getSurfaceNodeColoring_spec (file : ConnectivityLoaderFile)
    (brainStructure : StructureEnum) (nodeRGBA : List CFloat) (numberOfNodes : Nat) :
    ((file.numberOfDataElements ≤ 0 ∨ file.loaderType ≠ .LOADER_TYPE_DENSE) →
      file.getSurfaceNodeColoring brainStructure nodeRGBA numberOfNodes
        = some (false, nodeRGBA)) ∧
    (∀ getSurfaceMapForColumns : StructureEnum → List CiftiSurfaceMap,
      0 < file.numberOfDataElements → file.loaderType = .LOADER_TYPE_DENSE →
      file.ciftiInterface = some getSurfaceMapForColumns →
      nodeRGBA.length = numberOfNodes * 4 →
      file.dataRGBA.length = file.numberOfDataElements.toNat * 4 →
      (∀ e ∈ getSurfaceMapForColumns brainStructure,
        0 ≤ e.m_surfaceNode ∧ e.m_surfaceNode < numberOfNodes ∧
        0 ≤ e.m_ciftiIndex ∧ e.m_ciftiIndex < file.numberOfDataElements) →
      ∃ out, file.getSurfaceNodeColoring brainStructure nodeRGBA numberOfNodes
          = some (true, out) ∧
        out.length = numberOfNodes * 4 ∧
        (∀ (l1 : List CiftiSurfaceMap) (e : CiftiSurfaceMap) (l2 : List CiftiSurfaceMap),
          getSurfaceMapForColumns brainStructure = l1 ++ e :: l2 →
          (∀ e2 ∈ l2, e2.m_surfaceNode ≠ e.m_surfaceNode) →
          ∀ c, c < 4 → out[e.m_surfaceNode.toNat * 4 + c]?
            = file.dataRGBA[e.m_ciftiIndex.toNat * 4 + c]?) ∧
        (∀ node : Nat, node < numberOfNodes →
          (∀ e ∈ getSurfaceMapForColumns brainStructure, e.m_surfaceNode ≠ node) →
          ∀ c, c < 4 → out[node * 4 + c]? = some 0)) := by
  refine ⟨?_, ?_⟩
  · intro h
    unfold getSurfaceNodeColoring
    by_cases hd : file.numberOfDataElements ≤ 0
    · rw [if_pos hd]
    · rw [if_neg hd]
      rcases h with h | h
      · exact absurd h hd
      · cases ht : file.loaderType
        · rfl
        · exact absurd ht h
        · rfl
  · intro getSurfaceMapForColumns hpos htype hiface hlen hdata hok
    have hcount : ((numberOfNodes : Int) * 4).toNat = numberOfNodes * 4 := by omega
    have hfill : (List.replicate (numberOfNodes * 4) (0 : CFloat)
        ++ nodeRGBA.drop (numberOfNodes * 4)).length = numberOfNodes * 4 := by
      simp only [List.length_append, List.length_replicate, List.length_drop]
      omega
    obtain ⟨out, hfold, hlenout, hget⟩ := copyNodeColor_fold file.dataRGBA
      (List.replicate (numberOfNodes * 4) 0 ++ nodeRGBA.drop (numberOfNodes * 4))
      (getSurfaceMapForColumns brainStructure)
      (by
        intro e he
        obtain ⟨h1, h2, h3, h4⟩ := hok e he
        rw [hfill, hdata]
        exact ⟨h1, by omega, h3, by omega⟩)
    refine ⟨out, ?_, by omega, ?_, ?_⟩
    · unfold getSurfaceNodeColoring
      rw [if_neg (by omega), htype]
      simp only [if_true, hiface, hcount]
      rw [if_neg (by omega), hfold]
    · intro l1 e l2 hsplit hlast c hc
      rw [hget, hsplit, List.reverse_append, List.reverse_cons, List.append_assoc,
        List.singleton_append, List.find?_append]
      have hnone : l2.reverse.find?
          (fun x => decide ((e.m_surfaceNode.toNat * 4 + c) / 4 = x.m_surfaceNode.toNat))
            = none := by
        rw [List.find?_eq_none]
        intro x hx
        have hx2 : x ∈ getSurfaceMapForColumns brainStructure := by
          rw [hsplit]
          exact List.mem_append_right _ (List.mem_cons_of_mem _ (List.mem_reverse.mp hx))
        have hne := hlast x (List.mem_reverse.mp hx)
        have hx0 := (hok x hx2).1
        have he0 := (hok e (by rw [hsplit]; simp)).1
        simp only [decide_eq_true_eq]
        omega
      rw [hnone, Option.none_or, List.find?_cons]
      have hdiv : (e.m_surfaceNode.toNat * 4 + c) / 4 = e.m_surfaceNode.toNat := by omega
      have hmod : (e.m_surfaceNode.toNat * 4 + c) % 4 = c := by omega
      simp only [hdiv, hmod, decide_True]
    · intro node hnode hfree c hc
      rw [hget]
      have hnone : (getSurfaceMapForColumns brainStructure).reverse.find?
          (fun x => decide ((node * 4 + c) / 4 = x.m_surfaceNode.toNat)) = none := by
        rw [List.find?_eq_none]
        intro x hx
        have hne := hfree x (List.mem_reverse.mp hx)
        have hx0 := (hok x (List.mem_reverse.mp hx)).1
        simp only [decide_eq_true_eq]
        omega
      rw [hnone]
      simp only
      rw [List.getElem?_append_left (by simp only [List.length_replicate]; omega),
        List.getElem?_replicate, if_pos (by omega)]

/-- Witness of C27: the example loader colours the three nodes of the left cortex: node 0
has the colour of data element 2, node 2 that of data element 1 and node 1, which is not
listed, is zero. -/
theorem getSurfaceNodeColoring_spec_witness :
    exampleLoaderFile.getSurfaceNodeColoring .CORTEX_LEFT (List.replicate 12 9) 3
      = some (true, [3, 3, 3, 3, 0, 0, 0, 0, 2, 2, 2, 2]) ∧
    ∃ out, exampleLoaderFile.getSurfaceNodeColoring .CORTEX_LEFT (List.replicate 12 9)
        ((3 : Nat) : Int) = some (true, out) ∧ out.length = 3 * 4 :=
  ⟨by decide, by
    obtain ⟨out, h, hlen, -, -⟩ := (getSurfaceNodeColoring_spec exampleLoaderFile .CORTEX_LEFT
      (List.replicate 12 9) 3).2
      (fun s =>
        if s = .CORTEX_LEFT then
          [{ m_surfaceNode := 2, m_ciftiIndex := 1 }, { m_surfaceNode := 0, m_ciftiIndex := 2 }]
        else [])
      (by decide) (by decide) (by rfl) (by decide) (by decide) (by decide)
    exact ⟨out, h, hlen⟩⟩

end ConnectivityLoaderFile

/-! ## Bounds of the accesses of the voxel colouring -/

namespace CiftiMappableDataFile

/-- The part of `getVoxelColorsForSliceInMap` after the first switch accesses no buffer
outside its bounds when the buffer of the caller has four bytes per voxel of the slice and the
offsets of the indexer are inside the colour buffer: it returns a buffer of the same size. -/
theorem colorSlice_some (f : CiftiMappableDataFile) (mapIndex : Nat)
    (slicePlane : VolumeSliceViewPlaneEnum) (sliceIndex : Int) (rgbaOut : List Nat)
    (mc : MapContent) (indexer : SparseVolumeIndexer) (voxelCount : Nat)
    (hmap : f.m_mapContent[mapIndex]? = some mc)
    (hix : f.m_voxelIndicesToOffset = some indexer)
    (hsrc : ∀ i j k : Int, 0 ≤ indexer.getOffsetForIndices i j k →
      (indexer.getOffsetForIndices i j k).toNat * 4 + 3 < mc.m_rgba.length)
    (hcount : match slicePlane with
      | .ALL => True
      | .AXIAL => (f.m_volumeDimensions.getD 1 0).toNat * (f.m_volumeDimensions.getD 0 0).toNat
          = voxelCount
      | .CORONAL => (f.m_volumeDimensions.getD 2 0).toNat * (f.m_volumeDimensions.getD 0 0).toNat
          = voxelCount
      | .PARASAGITTAL =>
        (f.m_volumeDimensions.getD 2 0).toNat * (f.m_volumeDimensions.getD 1 0).toNat
          = voxelCount)
    (hdst : voxelCount * 4 ≤ rgbaOut.length) :
    ∃ out, f.colorSlice mapIndex slicePlane sliceIndex (voxelCount : Int) rgbaOut = some out ∧
      out.length = rgbaOut.length := by
  have hlen0 : (List.replicate (voxelCount * 4) 0 ++ rgbaOut.drop (voxelCount * 4)).length
      = rgbaOut.length := by
    simp only [List.length_append, List.length_replicate, List.length_drop]
    omega
  by_cases hz : voxelCount = 0
  · refine ⟨rgbaOut, ?_, rfl⟩
    unfold colorSlice
    rw [if_pos (by omega)]
  · by_cases hne : mc.m_rgba = []
    · refine ⟨List.replicate (voxelCount * 4) 0 ++ rgbaOut.drop (voxelCount * 4), ?_, hlen0⟩
      have hc4 : ((voxelCount : Int) * 4).toNat = voxelCount * 4 := by omega
      unfold colorSlice
      simp only [hmap, hc4, hne, List.length_nil]
      rw [if_neg (by omega), if_neg (by omega), if_pos (le_refl _)]
    · rw [colorSlice_eq f mapIndex slicePlane sliceIndex rgbaOut mc indexer voxelCount hmap hix
        hne (by omega) hdst]
      cases slicePlane with
      | ALL => exact ⟨_, rfl, hlen0⟩
      | AXIAL =>
        simp only at hcount ⊢
        rw [← hcount] at hdst ⊢
        obtain ⟨out, hout, hlen, -⟩ := colorSliceVoxels_cleared mc.m_rgba _ _
          (fun j i => indexer.getOffsetForIndices i j sliceIndex) rgbaOut
          (fun a b _ _ h => hsrc _ _ _ h) hdst
        exact ⟨out, hout, hlen⟩
      | CORONAL =>
        simp only at hcount ⊢
        rw [← hcount] at hdst ⊢
        obtain ⟨out, hout, hlen, -⟩ := colorSliceVoxels_cleared mc.m_rgba _ _
          (fun k i => indexer.getOffsetForIndices i sliceIndex k) rgbaOut
          (fun a b _ _ h => hsrc _ _ _ h) hdst
        exact ⟨out, hout, hlen⟩
      | PARASAGITTAL =>
        simp only at hcount ⊢
        rw [← hcount] at hdst ⊢
        obtain ⟨out, hout, hlen, -⟩ := colorSliceVoxels_cleared mc.m_rgba _ _
          (fun k j => indexer.getOffsetForIndices sliceIndex j k) rgbaOut
          (fun a b _ _ h => hsrc _ _ _ h) hdst
        exact ⟨out, hout, hlen⟩

/-- C30: under the preconditions that the map index and the slice index are in range, that
`rgbaOut` has `4 * (number of voxels in the slice)` elements and that every offset `d` returned
by the indexer is -1 or satisfies `0 <= d < dataCount`, with `rgba.size() = 4 * dataCount`:
every read of the colour buffer of the map (indices `4d .. 4d+3`) is inside the buffer, every
write to `rgbaOut` (the four bytes of a voxel of the slice) is inside `rgbaOut`, and
`getVoxelColorInMap` and `getVoxelColorsForSliceInMap` complete on every voxel and on every
slice of the three planes without an access outside the bounds. -/
theorem voxel_coloring_in_bounds (f : CiftiMappableDataFile) (mapIndex : Nat)
    (mc : MapContent) (indexer : SparseVolumeIndexer) (dimI dimJ dimK : Nat)
    (hmap : f.m_mapContent[mapIndex]? = some mc)
    (hix : f.m_voxelIndicesToOffset = some indexer)
    (hdims : f.getDimensions.1 = dimI ∧ f.getDimensions.2.1 = dimJ ∧
      f.getDimensions.2.2.1 = dimK)
    (hsize : mc.m_rgba.length = 4 * mc.m_dataCount)
    (hoff : ∀ i j k : Int, indexer.getOffsetForIndices i j k = -1 ∨
      (0 ≤ indexer.getOffsetForIndices i j k ∧
        indexer.getOffsetForIndices i j k < mc.m_dataCount)) :
    (∀ i j k : Int, 0 ≤ indexer.getOffsetForIndices i j k → ∀ c, c < 4 →
      4 * (indexer.getOffsetForIndices i j k).toNat + c < mc.m_rgba.length) ∧
    (∀ i j k : Int, ∃ color, f.getVoxelColorInMap i j k mapIndex = some color ∧
      color.length = 4) ∧
    (∀ (rgbaOut : List Nat) (slice : Nat), slice < dimK →
      rgbaOut.length = 4 * (dimI * dimJ) →
      (∀ i j c, i < dimI → j < dimJ → c < 4 → 4 * (j * dimI + i) + c < rgbaOut.length) ∧
      ∃ out, f.getVoxelColorsForSliceInMap mapIndex .AXIAL slice rgbaOut = some out ∧
        out.length = rgbaOut.length) ∧
    (∀ (rgbaOut : List Nat) (slice : Nat), slice < dimJ →
      rgbaOut.length = 4 * (dimI * dimK) →
      (∀ i k c, i < dimI → k < dimK → c < 4 → 4 * (k * dimI + i) + c < rgbaOut.length) ∧
      ∃ out, f.getVoxelColorsForSliceInMap mapIndex .CORONAL slice rgbaOut = some out ∧
        out.length = rgbaOut.length) ∧
    (∀ (rgbaOut : List Nat) (slice : Nat), slice < dimI →
      rgbaOut.length = 4 * (dimJ * dimK) →
      (∀ j k c, j < dimJ → k < dimK → c < 4 → 4 * (k * dimJ + j) + c < rgbaOut.length) ∧
      ∃ out, f.getVoxelColorsForSliceInMap mapIndex .PARASAGITTAL slice rgbaOut = some out ∧
        out.length = rgbaOut.length) := by
  simp only [getDimensions] at hdims
  obtain ⟨h0, h1, h2⟩ := hdims
  have hsrc : ∀ i j k : Int, 0 ≤ indexer.getOffsetForIndices i j k →
      (indexer.getOffsetForIndices i j k).toNat * 4 + 3 < mc.m_rgba.length := by
    intro i j k h
    rcases hoff i j k with h1 | ⟨-, h1⟩
    · omega
    · omega
  have hwrite : ∀ a b inner outer c : Nat, b < inner → a < outer → c < 4 →
      4 * (a * inner + b) + c < 4 * (inner * outer) := by
    intro a b inner outer c hb ha hc
    have h1 : a * inner + b < inner * outer := by
      calc a * inner + b < a * inner + inner := by omega
        _ = inner * (a + 1) := by ring
        _ ≤ inner * outer := Nat.mul_le_mul_left _ (by omega)
    omega
  refine ⟨?_, ?_, ?_, ?_, ?_⟩
  · intro i j k h c hc
    have := hsrc i j k h
    omega
  · intro i j k
    unfold getVoxelColorInMap
    simp only [hmap, hix]
    by_cases hempty : mc.m_rgba.length ≤ 0
    · rw [if_pos hempty]
      exact ⟨_, rfl, rfl⟩
    · rw [if_neg hempty]
      by_cases hd : 0 ≤ indexer.getOffsetForIndices i j k
      · obtain ⟨color, hw, hlen, -⟩ := writeVoxelColor_mapped mc.m_rgba
          (indexer.getOffsetForIndices i j k) 0 [0, 0, 0, 0] hd (hsrc i j k hd) (by decide)
        rw [Nat.zero_mul] at hw
        exact ⟨color, hw, hlen⟩
      · exact ⟨_, writeVoxelColor_unmapped _ _ _ _ (by omega), rfl⟩
  · intro rgbaOut slice hs hlen
    refine ⟨fun i j c hi hj hc => by rw [hlen]; exact hwrite j i dimI dimJ c hi hj hc, ?_⟩
    unfold getVoxelColorsForSliceInMap
    rw [if_neg (by omega)]
    simp only [h0, h1, h2]
    rw [if_neg (by omega)]
    have hcast : ((dimI : Int) * dimJ) = ((dimI * dimJ : Nat) : Int) := by push_cast; rfl
    rw [hcast]
    exact colorSlice_some f mapIndex .AXIAL slice rgbaOut mc indexer (dimI * dimJ) hmap hix
      hsrc (by simp only [h0, h1, Int.toNat_ofNat]; exact Nat.mul_comm _ _) (by omega)
  · intro rgbaOut slice hs hlen
    refine ⟨fun i k c hi hk hc => by rw [hlen]; exact hwrite k i dimI dimK c hi hk hc, ?_⟩
    unfold getVoxelColorsForSliceInMap
    rw [if_neg (by omega)]
    simp only [h0, h1, h2]
    rw [if_neg (by omega)]
    have hcast : ((dimI : Int) * dimK) = ((dimI * dimK : Nat) : Int) := by push_cast; rfl
    rw [hcast]
    exact colorSlice_some f mapIndex .CORONAL slice rgbaOut mc indexer (dimI * dimK) hmap hix
      hsrc (by simp only [h0, h2, Int.toNat_ofNat]; exact Nat.mul_comm _ _) (by omega)
  · intro rgbaOut slice hs hlen
    refine ⟨fun j k c hj hk hc => by rw [hlen]; exact hwrite k j dimJ dimK c hj hk hc, ?_⟩
    unfold getVoxelColorsForSliceInMap
    rw [if_neg (by omega)]
    simp only [h0, h1, h2]
    rw [if_neg (by omega)]
    have hcast : ((dimJ : Int) * dimK) = ((dimJ * dimK : Nat) : Int) := by push_cast; rfl
    rw [hcast]
    exact colorSlice_some f mapIndex .PARASAGITTAL slice rgbaOut mc indexer (dimJ * dimK) hmap
      hix hsrc (by simp only [h1, h2, Int.toNat_ofNat]; exact Nat.mul_comm _ _) (by omega)

set_option maxRecDepth 100000 in
/-- Witness of C30: the volume example (dimensions (10,10,5), 18 data elements, a colour
buffer of 72 values, offsets 17, 0 and -1): the coronal slice 4 written into a buffer of 200
bytes and the colour of voxel (3,4,2) are computed without an access outside the bounds. -/
theorem voxel_coloring_in_bounds_witness :
    exampleVolumeMap.m_rgba.length = 4 * exampleVolumeMap.m_dataCount ∧
    (∃ color, exampleVolumeFile.getVoxelColorInMap 3 4 2 0 = some color ∧ color.length = 4) ∧
    ∃ out, exampleVolumeFile.getVoxelColorsForSliceInMap 0 .CORONAL ((4 : Nat) : Int)
        (List.replicate 200 7) = some out ∧
      out.length = (List.replicate 200 7).length := by
  have h := voxel_coloring_in_bounds exampleVolumeFile 0 exampleVolumeMap exampleVolumeIndexer
    10 10 5 (by decide) (by decide) (by decide) (by decide)
    (by
      intro i j k
      rcases exampleVolumeIndexer_offsets i j k with h1 | h1 | h1 <;> rw [h1]
      · right; decide
      · right; decide
      · left; rfl)
  exact ⟨by decide, h.2.1 3 4 2, (h.2.2.2.1 (List.replicate 200 7) 4 (by decide)
    (by decide)).2⟩

end CiftiMappableDataFile

end caret
